import Mathlib

/-!
SR030PC50 camera sensor driver: register playback and mode switching.

A shallow embedding of `drivers/media/video/sr030pc50.c`.

* The driver state (`struct sr030pc50_state`), the file-scope counters and the
  saved-control table are fields of one record, `Dev`; every driver function is
  a pure function `Dev → Int × Dev` (return value, next state).
* The I2C bus is an environment script carried in `Dev`: `xfer_ok n` tells
  whether the `n`-th call of `i2c_transfer` transfers all its messages, `rx n`
  is the byte a read delivers.  Every message handed to `i2c_transfer` and
  every sleep is appended to `Dev.trace`.
* `sr030pc50.h` is not among the sources.  Its constants are the fields of
  `Header`; the theorems hold for every value of them unless a hypothesis
  says otherwise.  The board switches `CONFIG_MACH_GARDA` and
  `CONFIG_MACH_DELOSLTE_KOR_SKT/LGT` are fields of `Header` as well.  The
  feature switches `CONFIG_LOAD_FILE`, `FIND_OPRMODE_ENABLE`,
  `SR030PC50_SUPPORT_FLASH` and `TODO_ENABLE` are taken as not defined.
* Machine integers are `Nat`/`Int` with explicit reduction modulo `2^32`
  where the C arithmetic can wrap.

The second part, namespace `Cm36686`, embeds the light and proximity sensor
driver `drivers/sensors/cm36686.c` in the same style: the driver data, the
file-scope table `ps_reg_init_setting` and the environment (I2C bus, interrupt
GPIO, calibration file) are one record, `Sys`, and every bus attempt, callback,
timer and input call is appended to `Sys.trace`.
-/

/-! ## C strings -/

/-- The C string that starts at a buffer: its characters up to the first NUL. -/
def cstring (buf : List Char) : List Char := buf.takeWhile (fun c => c ≠ Char.ofNat 0)

namespace Sr030pc50

/-! ## Kernel error numbers (`include/asm-generic/errno-base.h`) -/

def EPERM : Int := 1
def EIO : Int := 5
def EFAULT : Int := 14
def ENODEV : Int := 19
def EINVAL : Int := 22

/-! ## Constants of the missing header -/

/-- Modelled from the spec: the constants and build switches that
`sr030pc50.h` and the kernel configuration supply; the sources use them by
name only, so each one is a parameter.  The default values are the customary
ones of this driver family; they serve only to evaluate the functions at
concrete inputs.  The error-check macros of the same header are unfolded
where they are used: `CHECK_ERR(x)` and `CHECK_ERR_MSG(x, ...)` leave the
function with `x` when `x < 0`, `CHECK_ERR_COND(c, ret)` and
`CHECK_ERR_COND_MSG(c, ret, ...)` leave it with `ret` when `c` holds.  The
logging macros (`cam_err`, `cam_dbg`, `pr_debug`, ...) have no effect on the
state and are left out. -/
structure Header where
  /-- Board switch `CONFIG_MACH_GARDA`. -/
  CONFIG_MACH_GARDA : Bool := false
  /-- Board switch: `CONFIG_MACH_DELOSLTE_KOR_SKT` or `CONFIG_MACH_DELOSLTE_KOR_LGT`. -/
  CONFIG_MACH_DELOSLTE_KOR : Bool := false
  /-- High byte that marks a delay entry of a regset table. -/
  DELAY_SEQ : Nat := 0xFF
  POLL_TIME_MS : Nat := 10
  SENSOR_CAMERA : Int := 0
  SENSOR_MOVIE : Int := 1
  FRAME_RATE_AUTO : Int := 0
  FRAME_RATE_7 : Int := 7
  FRAME_RATE_15 : Int := 15
  FRAME_RATE_20 : Int := 20
  FRAME_RATE_25 : Int := 25
  I_FPS_0 : Int := 0
  I_FPS_7 : Int := 1
  I_FPS_15 : Int := 2
  I_FPS_20 : Int := 3
  I_FPS_25 : Int := 4
  STREAM_STOP : Nat := 0
  STREAM_START : Nat := 1
  PREVIEW_SZ_VGA : Nat := 0
  PREVIEW_SZ_528x432 : Nat := 1
  CAPTURE_SZ_1MP : Nat := 0
  PREVIEW_CAMERA : Int := 0
  PREVIEW_VIDEOCALL : Int := 1
  PREVIEW_VIDEOCALL_3G : Int := 1
  PREVIEW_SMARTSTAY : Int := 2
  SR030PC50_HW_POWER_ON : Int := 1
  SR030PC50_HW_POWER_OFF : Int := 0
  EV_MINUS_4 : Int := -4
  EV_PLUS_4 : Int := 4
  /-- The macro `GET_EV_INDEX`. -/
  GET_EV_INDEX : Int → Int := fun v => v + 4
  SCENE_MODE_NONE : Int := 1
  SCENE_MODE_PORTRAIT : Int := 2
  SCENE_MODE_NIGHTSHOT : Int := 3
  SCENE_MODE_BACK_LIGHT : Int := 4
  SCENE_MODE_LANDSCAPE : Int := 5
  SCENE_MODE_SPORTS : Int := 6
  SCENE_MODE_PARTY_INDOOR : Int := 7
  SCENE_MODE_BEACH_SNOW : Int := 8
  SCENE_MODE_SUNSET : Int := 9
  SCENE_MODE_DUSK_DAWN : Int := 10
  SCENE_MODE_FALL_COLOR : Int := 11
  SCENE_MODE_FIREWORKS : Int := 12
  SCENE_MODE_TEXT : Int := 13
  SCENE_MODE_CANDLE_LIGHT : Int := 14
  WHITE_BALANCE_AUTO : Int := 1
  LUX_LEVEL_MAX : Int := 0
  LUX_LEVEL_FLASH_ON : Int := 0
  FLASH_MODE_OFF : Int := 1
  EV_DEFAULT : Int := 0
  METERING_MATRIX : Int := 1
  IMAGE_EFFECT_NONE : Int := 1
  /-- Mask of the "info" log level in `dbg_level`. -/
  CAMDBG_LEVEL_INFO : Nat := 4
  /-- Mask of the "debug" log level in `dbg_level`. -/
  CAMDBG_LEVEL_DEBUG : Nat := 8
  /-- Mask of the "trace" log level in `dbg_level`. -/
  CAMDBG_LEVEL_TRACE : Nat := 16
  /-- The value of `fmt->field` that asks for still capture. -/
  IS_MODE_CAPTURE_STILL : Nat := 2
  V4L2_PIX_FMT_MODE_PREVIEW : Nat := 0
  V4L2_PIX_FMT_MODE_CAPTURE : Nat := 1
  FLASH_MODE_AUTO : Int := 2
  FLASH_MODE_ON : Int := 3
  FLASH_MODE_TORCH : Int := 4
  EXIF_FLASH_FIRED : Nat := 0x01
  EXIF_FLASH_MODE_FIRING : Nat := 0x08
  EXIF_FLASH_MODE_SUPPRESSION : Nat := 0x10
  EXIF_FLASH_MODE_AUTO : Nat := 0x18

/-! ## Data model -/

/-- The two GPIO lines of the sensor that `sr030pc50_power` drives. -/
inductive Gpio where
  | GPIO_VT_CAM_MEGA_nRST
  | GPIO_VT_CAM_MEGA_EN
deriving DecidableEq, Repr

export Gpio (GPIO_VT_CAM_MEGA_nRST GPIO_VT_CAM_MEGA_EN)

/-- The regulators that `sr030pc50_power` switches on `CONFIG_MACH_GARDA` boards. -/
inductive Regulator where
  | vt_cam_sensor_a2v8_regulator
  | vt_cam_core_1v8_regulator
  | vt_cam_io_1v8_regulator
  | main_cam_core_1v2_regulator
deriving DecidableEq, Repr

export Regulator (vt_cam_sensor_a2v8_regulator vt_cam_core_1v8_regulator
  vt_cam_io_1v8_regulator main_cam_core_1v2_regulator)

/-- One observable action of the driver on its environment. -/
inductive Event where
  /-- A two-byte write message `{subaddr, data}` handed to `i2c_transfer`. -/
  | i2c_write (subaddr data : Nat)
  /-- A register read (address message plus one-byte read message) handed to `i2c_transfer`. -/
  | i2c_read (subaddr : Nat)
  /-- A call of `usleep_range`/`msleep` for `msecs` milliseconds. -/
  | sleep (msecs : Nat)
  /-- A call of `gpio_request`; a failure is only logged. -/
  | gpio_request (gpio : Gpio)
  /-- A call of `gpio_direction_output(gpio, value)`. -/
  | gpio_direction_output (gpio : Gpio) (value : Nat)
  /-- A call of `gpio_free`. -/
  | gpio_free (gpio : Gpio)
  /-- A call of `regulator_enable`; its result is not looked at. -/
  | regulator_enable (r : Regulator)
  /-- A call of `regulator_disable`; its result is not looked at. -/
  | regulator_disable (r : Regulator)
  /-- The call `clk_enable(state->mclk)`. -/
  | clk_enable
  /-- The call `clk_disable(state->mclk)`. -/
  | clk_disable
  /-- A busy wait `udelay(usecs)`. -/
  | udelay (usecs : Nat)
  /-- A busy wait `mdelay(msecs)`. -/
  | mdelay (msecs : Nat)
  /-- A direct call `usleep_range(min, max)`, in microseconds. -/
  | usleep_range (min max : Nat)
  /-- The call `flush_workqueue(state->wq)`. -/
  | flush_workqueue
deriving DecidableEq, Repr

/-- The type `enum sr030pc50_runmode`. -/
inductive sr030pc50_runmode where
  | RUNMODE_NOTREADY
  | RUNMODE_INIT
  | RUNMODE_RUNNING
  | RUNMODE_RUNNING_STOP
  | RUNMODE_CAPTURING
  | RUNMODE_CAPTURING_STOP
  | RUNMODE_RECORDING
  | RUNMODE_RECORDING_STOP
deriving DecidableEq, Repr

export sr030pc50_runmode (RUNMODE_NOTREADY RUNMODE_INIT RUNMODE_RUNNING RUNMODE_RUNNING_STOP
  RUNMODE_CAPTURING RUNMODE_CAPTURING_STOP RUNMODE_RECORDING RUNMODE_RECORDING_STOP)

/-- The type `struct regset_table`: `reg` with `array_size` is the register
list (`none` is a NULL `reg`), `burst` selects the burst writer. -/
structure regset_table where
  reg : Option (List Nat) := none
  burst : Bool := false
deriving DecidableEq, Repr

/-- The type `struct sr030pc50_regs`; each array with its `ARRAY_SIZE` is a list. -/
structure sr030pc50_regs where
  ev : List regset_table := []
  metering : List regset_table := []
  iso : List regset_table := []
  effect : List regset_table := []
  white_balance : List regset_table := []
  fps : List regset_table := []
  scene_mode : List regset_table := []
  preview_size : List regset_table := []
  capture_size : List regset_table := []
  init_reg : regset_table := {}
  VT_init_reg : regset_table := {}
  SS_init_reg : regset_table := {}
  preview_mode : regset_table := {}
  capture_mode : regset_table := {}
  capture_mode_night : regset_table := {}
  stream_stop : regset_table := {}
  stream_start : regset_table := {}
deriving DecidableEq, Repr

/-- The type `struct sr030pc50_framesize`. -/
structure sr030pc50_framesize where
  index : Nat
  width : Nat
  height : Nat
deriving DecidableEq, Repr

/-- The type `struct sr030pc50_resolution`, an entry of `sr030pc50_resolutions`. -/
structure sr030pc50_resolution where
  value : Nat
  type : Nat
  width : Nat
  height : Nat
deriving DecidableEq, Repr

/-- The control ids that `sr030pc50.c` names; `other` is any further id. -/
inductive v4l2_cid where
  | V4L2_CID_CAMERA_SENSOR_MODE
  | V4L2_CID_CAM_BRIGHTNESS
  | V4L2_CID_CAMERA_BRIGHTNESS
  | V4L2_CID_WHITE_BALANCE_PRESET
  | V4L2_CID_CAMERA_WHITE_BALANCE
  | V4L2_CID_IMAGE_EFFECT
  | V4L2_CID_CAMERA_EFFECT
  | V4L2_CID_CAM_METERING
  | V4L2_CID_CAMERA_METERING
  | V4L2_CID_CAMERA_SCENE_MODE
  | V4L2_CID_CAMERA_CHECK_ESD
  | V4L2_CID_CAMERA_ISO
  | V4L2_CID_CAMERA_VT_MODE
  | V4L2_CID_CAMERA_ANTI_BANDING
  | V4L2_CID_CAMERA_FRAME_RATE
  | V4L2_CID_CAMERA_FLASH_MODE
  | V4L2_CID_CAMERA_EXIF_EXPTIME
  | V4L2_CID_CAMERA_EXIF_ISO
  | V4L2_CID_CAMERA_EXIF_FLASH
  | V4L2_CID_CAMERA_AUTO_FOCUS_RESULT
  | other (id : Nat)
deriving DecidableEq, Repr

export v4l2_cid (V4L2_CID_CAMERA_SENSOR_MODE V4L2_CID_CAM_BRIGHTNESS V4L2_CID_CAMERA_BRIGHTNESS
  V4L2_CID_WHITE_BALANCE_PRESET V4L2_CID_CAMERA_WHITE_BALANCE V4L2_CID_IMAGE_EFFECT
  V4L2_CID_CAMERA_EFFECT V4L2_CID_CAM_METERING V4L2_CID_CAMERA_METERING
  V4L2_CID_CAMERA_SCENE_MODE V4L2_CID_CAMERA_CHECK_ESD V4L2_CID_CAMERA_ISO
  V4L2_CID_CAMERA_VT_MODE V4L2_CID_CAMERA_ANTI_BANDING V4L2_CID_CAMERA_FRAME_RATE
  V4L2_CID_CAMERA_FLASH_MODE V4L2_CID_CAMERA_EXIF_EXPTIME V4L2_CID_CAMERA_EXIF_ISO
  V4L2_CID_CAMERA_EXIF_FLASH V4L2_CID_CAMERA_AUTO_FOCUS_RESULT)

/-- The type `struct v4l2_control`. -/
structure v4l2_control where
  id : v4l2_cid
  value : Int
deriving DecidableEq, Repr

/-- The type `struct sr030pc50_control`, an entry of `sr030pc50_ctrls`. -/
structure sr030pc50_control where
  id : v4l2_cid
  value : Int
  default_value : Int
deriving DecidableEq, Repr

/-- The initial contents of the table `sr030pc50_ctrls`: the macro
`SR030PC50_INIT_CONTROL(id, default)` gives an entry whose value and default
value are both `default`. -/
def sr030pc50_ctrls_init (h : Header) : List sr030pc50_control :=
  [⟨V4L2_CID_CAMERA_FLASH_MODE, h.FLASH_MODE_OFF, h.FLASH_MODE_OFF⟩,
   ⟨V4L2_CID_CAM_BRIGHTNESS, h.EV_DEFAULT, h.EV_DEFAULT⟩,
   ⟨V4L2_CID_CAM_METERING, h.METERING_MATRIX, h.METERING_MATRIX⟩,
   ⟨V4L2_CID_WHITE_BALANCE_PRESET, h.WHITE_BALANCE_AUTO, h.WHITE_BALANCE_AUTO⟩,
   ⟨V4L2_CID_IMAGE_EFFECT, h.IMAGE_EFFECT_NONE, h.IMAGE_EFFECT_NONE⟩,
   ⟨V4L2_CID_CAMERA_FRAME_RATE, h.FRAME_RATE_AUTO, h.FRAME_RATE_AUTO⟩]

/-- The fields `state->preview.*`. -/
structure sr030pc50_preview where
  frmsize : Option sr030pc50_framesize := none
  update_frmsize : Nat := 0
deriving DecidableEq, Repr

/-- The fields `state->capture.*`. -/
structure sr030pc50_capture where
  frmsize : Option sr030pc50_framesize := none
  ready : Nat := 0
  lowlux_night : Nat := 0
deriving DecidableEq, Repr

/-- The fields of `struct v4l2_pix_format` the driver reads from `state->req_fmt`. -/
structure v4l2_pix_format where
  width : Nat := 0
  height : Nat := 0
deriving DecidableEq, Repr

/-- The fields `state->exif.*`. -/
structure sr030pc50_exif where
  exp_time_den : Nat := 0
  iso : Nat := 0
  flash : Nat := 0
deriving DecidableEq, Repr

/-- The fields of `struct sr030pc50_state` that the modelled functions read or write. -/
structure sr030pc50_state where
  regs : sr030pc50_regs := {}
  runmode : sr030pc50_runmode := RUNMODE_NOTREADY
  sensor_mode : Int := 0
  vt_mode : Int := 0
  initialized : Nat := 0
  vt_initialized : Nat := 0
  power_on : Int := 0
  fps : Int := 0
  req_fps : Int := 0
  oprmode : Nat := 0
  req_fmt : v4l2_pix_format := {}
  preview : sr030pc50_preview := {}
  capture : sr030pc50_capture := {}
  exif : sr030pc50_exif := {}
  scene_mode : Int := 0
  wb_mode : Int := 0
  exposure_val : Int := 0
  iso : Int := 0
  light_level : Int := 0
  lux_level_flash : Int := 0
  shutter_level_flash : Int := 0
  /-- False once `memset(&state->focus, 0, ...)` has cleared the focus block. -/
  focus_dirty : Bool := false
  need_wait_streamoff : Nat := 0
  reset_done : Nat := 0
  /-- Whether `state->wq` is non-NULL. -/
  wq : Bool := false
  format_mode : Nat := 0
  /-- The field `state->flash.mode`. -/
  flash_mode : Int := 0
  /-- The field `state->flash.on`. -/
  flash_on : Nat := 0
  /-- The field `state->focus.status`. -/
  focus_status : Int := 0
deriving DecidableEq, Repr

/-- The driver state, the file-scope variables and the I2C environment. -/
structure Dev where
  state : sr030pc50_state := {}
  /-- The file-scope table `sr030pc50_ctrls`. -/
  sr030pc50_ctrls : List sr030pc50_control := []
  stats_init : Nat := 0
  stats_i2c_err : Nat := 0
  /-- The file-scope counter `static u32 stats_reset`. -/
  stats_reset : Nat := 0
  /-- The file-scope mask `static u32 dbg_level`. -/
  dbg_level : Nat := 0
  /-- Whether `client->adapter` is non-NULL. -/
  adapter : Bool := true
  /-- Whether the `n`-th call of `i2c_transfer` transfers all its messages. -/
  xfer_ok : Nat → Bool := fun _ => true
  /-- The byte the `n`-th call of `i2c_transfer` delivers when it is a read. -/
  rx : Nat → Nat := fun _ => 0
  /-- Number of calls of `i2c_transfer` so far. -/
  calls : Nat := 0
  /-- Everything handed to the bus or the timer so far, oldest first. -/
  trace : List Event := []

/-- The I2C register writes of a trace, as `(subaddr, data)` pairs, oldest first. -/
def i2c_writes : List Event → List (Nat × Nat)
  | [] => []
  | Event.i2c_write a v :: es => (a, v) :: i2c_writes es
  | _ :: es => i2c_writes es

/-- The bus never fails: the adapter is there and every transfer goes through. -/
def BusOk (d : Dev) : Prop := d.adapter = true ∧ ∀ n, d.xfer_ok n = true

/-! ## Low-level I/O -/

/-- The function `msleep_debug`: nothing for `msecs = 0`, else one sleep
(`usleep_range` around `msecs` ms up to 20 ms, `msleep` above). -/
def msleep_debug (msecs : Nat) (d : Dev) : Dev :=
  if msecs = 0 then d else { d with trace := d.trace ++ [Event.sleep msecs] }

/-- The retry loop of `sr030pc50_i2c_write`: `while (retry-- > 0)`; the result
tells whether the loop was left with `err == 1`. -/
def sr030pc50_i2c_write_loop (h : Header) (subaddr data : Nat) : Nat → Dev → Bool × Dev
  | 0, d => (false, d)
  | retry + 1, d =>
    let d1 := { d with calls := d.calls + 1,
                       trace := d.trace ++ [Event.i2c_write subaddr data] }
    if d.xfer_ok d.calls then (true, d1)
    else
      let d2 := msleep_debug h.POLL_TIME_MS d1
      sr030pc50_i2c_write_loop h subaddr data retry
        { d2 with stats_i2c_err := (d2.stats_i2c_err + 1) % 2 ^ 32 }

/-- The function `sr030pc50_i2c_write` (also `sr030pc50_writeb`). -/
def sr030pc50_i2c_write (h : Header) (subaddr data : Nat) (d : Dev) : Int × Dev :=
  if d.adapter = false then (-ENODEV, d)
  else
    match sr030pc50_i2c_write_loop h subaddr data 5 d with
    | (true, d1) => (0, d1)
    | (false, d1) => (- EIO, d1)

/-- The retry loop of `sr030pc50_i2c_read`; the result is `some byte` when the
loop was left with `err == 2`. -/
def sr030pc50_i2c_read_loop (h : Header) (subaddr : Nat) : Nat → Dev → Option Nat × Dev
  | 0, d => (none, d)
  | retry + 1, d =>
    let d1 := { d with calls := d.calls + 1, trace := d.trace ++ [Event.i2c_read subaddr] }
    if d.xfer_ok d.calls then (some (d.rx d.calls % 256), d1)
    else
      let d2 := msleep_debug h.POLL_TIME_MS d1
      sr030pc50_i2c_read_loop h subaddr retry
        { d2 with stats_i2c_err := (d2.stats_i2c_err + 1) % 2 ^ 32 }

/-- The function `sr030pc50_i2c_read` (also `sr030pc50_readb`): return value
and the byte stored through `data`, `none` when `*data` is left alone. -/
def sr030pc50_i2c_read (h : Header) (subaddr : Nat) (d : Dev) : (Int × Option Nat) × Dev :=
  if d.adapter = false then ((-ENODEV, none), d)
  else
    match sr030pc50_i2c_read_loop h subaddr 5 d with
    | (some b, d1) => ((0, some b), d1)
    | (none, d1) => ((- EIO, none), d1)

/-- The function `sr030pc50_i2c_burst_write_list`: not implemented, returns 0. -/
def sr030pc50_i2c_burst_write_list (_regs : List Nat) (d : Dev) : Int × Dev := (0, d)

/-- The function `sr030pc50_write_regs` over the array `regs[0 .. size)`. -/
def sr030pc50_write_regs (h : Header) : List Nat → Dev → Int × Dev
  | [], d => (0, d)
  | r :: regs, d =>
    let subaddr := (r / 256) % 256
    let value := r % 256
    if h.DELAY_SEQ = subaddr then
      sr030pc50_write_regs h regs (if value ≠ 0xFF then msleep_debug (value * 10) d else d)
    else
      match sr030pc50_i2c_write h subaddr value d with
      | (err, d1) => if err < 0 then (err, d1) else sr030pc50_write_regs h regs d1

/-- The function `sr030pc50_set_from_table`; `table` with `table_size` is a list. -/
def sr030pc50_set_from_table (h : Header) (table : List regset_table) (index : Int)
    (d : Dev) : Int × Dev :=
  if index < 0 ∨ index ≥ (table.length : Int) then (-EINVAL, d)
  else
    match table.get? index.toNat with
    | none => (-EINVAL, d)
    | some t =>
      match t.reg with
      | none => (-EFAULT, d)
      | some reg =>
        match (if t.burst then sr030pc50_i2c_burst_write_list reg d
               else sr030pc50_write_regs h reg d) with
        | (err, d1) => if err < 0 then (err, d1) else (0, d1)

/-! ## Controls and mode switching -/

/-- The function `sr030pc50_set_sensor_mode`. -/
def sr030pc50_set_sensor_mode (h : Header) (val : Int) (d : Dev) : Int × Dev :=
  if val = h.SENSOR_MOVIE then
    -- We does not support movie mode when in VT.
    if d.state.vt_mode ≠ 0 then
      (0, { d with state := { d.state with sensor_mode := h.SENSOR_CAMERA } })
    else
      -- We do not break: `case SENSOR_CAMERA` stores `val`
      (0, { d with state := { d.state with sensor_mode := val } })
  else if val = h.SENSOR_CAMERA then
    (0, { d with state := { d.state with sensor_mode := val } })
  else
    (0, { d with state := { d.state with sensor_mode := h.SENSOR_CAMERA } })

/-- The type `struct sr030pc50_fps`. -/
structure sr030pc50_fps where
  index : Int
  fps : Int
deriving DecidableEq, Repr

/-- The table `sr030pc50_framerates`. -/
def sr030pc50_framerates (h : Header) : List sr030pc50_fps :=
  [⟨h.I_FPS_0, h.FRAME_RATE_AUTO⟩, ⟨h.I_FPS_7, h.FRAME_RATE_7⟩, ⟨h.I_FPS_15, h.FRAME_RATE_15⟩,
   ⟨h.I_FPS_20, h.FRAME_RATE_20⟩, ⟨h.I_FPS_25, h.FRAME_RATE_25⟩]

/-- The search loop of `sr030pc50_set_frame_rate`: the `index` of the first
entry whose `fps` is the requested one, `none` when the loop runs to its end. -/
def set_frame_rate_loop (fps : Int) : List sr030pc50_fps → Option Int
  | [] => none
  | e :: framerates => if fps = e.fps then some e.index else set_frame_rate_loop fps framerates

/-- The function `sr030pc50_set_frame_rate`. -/
def sr030pc50_set_frame_rate (h : Header) (fps : Int) (d : Dev) : Int × Dev :=
  if h.CONFIG_MACH_DELOSLTE_KOR = true ∧ d.state.vt_initialized = 1 ∧ fps = h.FRAME_RATE_7 then
    (0, d)
  else
    let min := h.FRAME_RATE_AUTO
    let max := h.FRAME_RATE_25
    let fps := if fps < min ∨ fps > max then (if fps < min then min else max) else fps
    if d.state.initialized = 0 then
      (0, { d with state := { d.state with req_fps := fps } })
    else
      match set_frame_rate_loop fps (sr030pc50_framerates h) with
      | none => (0, d)
      | some fps_index =>
        let d1 := { d with state := { d.state with fps := fps, req_fps := -1 } }
        if fps_index < 0 then (0, d1)
        else
          match sr030pc50_set_from_table h d1.state.regs.fps fps_index d1 with
          | (err, d2) => if err < 0 then (err, d2) else (0, d2)

/-- The function `sr030pc50_set_exposure`. -/
def sr030pc50_set_exposure (h : Header) (val : Int) (d : Dev) : Int × Dev :=
  if val < h.EV_MINUS_4 ∨ val > h.EV_PLUS_4 then (-EINVAL, d)
  else
    let d1 := (sr030pc50_set_from_table h d.state.regs.ev (h.GET_EV_INDEX val) d).2
    (0, { d1 with state := { d1.state with exposure_val := val } })

/-- The case labels of the `switch` in `sr030pc50_set_scene_mode`. -/
def is_scene_mode (h : Header) (val : Int) : Bool :=
  decide (val = h.SCENE_MODE_NONE ∨ val = h.SCENE_MODE_PORTRAIT ∨ val = h.SCENE_MODE_NIGHTSHOT ∨
    val = h.SCENE_MODE_BACK_LIGHT ∨ val = h.SCENE_MODE_LANDSCAPE ∨ val = h.SCENE_MODE_SPORTS ∨
    val = h.SCENE_MODE_PARTY_INDOOR ∨ val = h.SCENE_MODE_BEACH_SNOW ∨
    val = h.SCENE_MODE_SUNSET ∨ val = h.SCENE_MODE_DUSK_DAWN ∨ val = h.SCENE_MODE_FALL_COLOR ∨
    val = h.SCENE_MODE_FIREWORKS ∨ val = h.SCENE_MODE_TEXT ∨ val = h.SCENE_MODE_CANDLE_LIGHT)

/-- The body of `sr030pc50_set_scene_mode` from the label `retry` on; the
first argument bounds the number of passes through the `switch`, `none` means
the bound was used up. -/
def sr030pc50_set_scene_mode_retry (h : Header) : Nat → Int → Dev → Option (Int × Dev)
  | 0, _, _ => none
  | fuel + 1, val, d =>
    if is_scene_mode h val = true then
      let d1 := (sr030pc50_set_from_table h d.state.regs.scene_mode val d).2
      some (0, { d1 with state := { d1.state with scene_mode := val } })
    else
      sr030pc50_set_scene_mode_retry h fuel h.SCENE_MODE_NONE d

/-- The function `sr030pc50_set_scene_mode`: two passes through the `switch`
always suffice, the second one runs with `SCENE_MODE_NONE`. -/
def sr030pc50_set_scene_mode (h : Header) (val : Int) (d : Dev) : Int × Dev :=
  match sr030pc50_set_scene_mode_retry h 2 val d with
  | some r => r
  | none => (0, d)

/-- The function `sr030pc50_set_iso`. -/
def sr030pc50_set_iso (h : Header) (val : Int) (d : Dev) : Int × Dev :=
  let d1 := (sr030pc50_set_from_table h d.state.regs.iso val d).2
  (0, { d1 with state := { d1.state with iso := val } })

/-- The function `sr030pc50_set_vt_mode`. -/
def sr030pc50_set_vt_mode (val : Int) (d : Dev) : Int × Dev :=
  (0, { d with state := { d.state with vt_mode := val } })

/-- The function `sr030pc50_check_esd`. -/
def sr030pc50_check_esd (_val : Int) (d : Dev) : Int × Dev := (0, d)

/-- The function `sr030pc50_s_ctrl` (the mutex is not modelled). -/
def sr030pc50_s_ctrl (h : Header) (ctrl : v4l2_control) (d : Dev) : Int × Dev :=
  if d.state.initialized = 0 ∧ ctrl.id ≠ V4L2_CID_CAMERA_SENSOR_MODE
      ∧ ctrl.id ≠ V4L2_CID_CAMERA_VT_MODE then (0, d)
  else
    let r : Int × Dev :=
      match ctrl.id with
      | V4L2_CID_CAMERA_SENSOR_MODE => sr030pc50_set_sensor_mode h ctrl.value d
      | V4L2_CID_CAM_BRIGHTNESS => sr030pc50_set_exposure h ctrl.value d
      | V4L2_CID_CAMERA_BRIGHTNESS => sr030pc50_set_exposure h ctrl.value d
      | V4L2_CID_WHITE_BALANCE_PRESET =>
        let r := sr030pc50_set_from_table h d.state.regs.white_balance ctrl.value d
        (r.1, { r.2 with state := { r.2.state with wb_mode := ctrl.value } })
      | V4L2_CID_CAMERA_WHITE_BALANCE =>
        let r := sr030pc50_set_from_table h d.state.regs.white_balance ctrl.value d
        (r.1, { r.2 with state := { r.2.state with wb_mode := ctrl.value } })
      | V4L2_CID_IMAGE_EFFECT => sr030pc50_set_from_table h d.state.regs.effect ctrl.value d
      | V4L2_CID_CAMERA_EFFECT => sr030pc50_set_from_table h d.state.regs.effect ctrl.value d
      | V4L2_CID_CAM_METERING => sr030pc50_set_from_table h d.state.regs.metering ctrl.value d
      | V4L2_CID_CAMERA_METERING => sr030pc50_set_from_table h d.state.regs.metering ctrl.value d
      | V4L2_CID_CAMERA_SCENE_MODE => sr030pc50_set_scene_mode h ctrl.value d
      | V4L2_CID_CAMERA_CHECK_ESD => sr030pc50_check_esd ctrl.value d
      | V4L2_CID_CAMERA_ISO => sr030pc50_set_iso h ctrl.value d
      | V4L2_CID_CAMERA_VT_MODE => sr030pc50_set_vt_mode ctrl.value d
      | V4L2_CID_CAMERA_ANTI_BANDING => (0, d)
      | V4L2_CID_CAMERA_FRAME_RATE => sr030pc50_set_frame_rate h ctrl.value d
      | _ => (0, d)
    if r.1 < 0 then (r.1, r.2) else (0, r.2)

/-- The loop of `sr030pc50_restore_ctrl` over the entries from index `i` on
(`sr030pc50_s_ctrl` never writes the table, so the entries are read up front). -/
def sr030pc50_restore_ctrl_loop (h : Header) : List sr030pc50_control → Dev → Dev
  | [], d => d
  | c :: ctrls, d =>
    if c.value ≠ c.default_value then
      sr030pc50_restore_ctrl_loop h ctrls (sr030pc50_s_ctrl h ⟨c.id, c.value⟩ d).2
    else sr030pc50_restore_ctrl_loop h ctrls d

/-- The function `sr030pc50_restore_ctrl`. -/
def sr030pc50_restore_ctrl (h : Header) (d : Dev) : Int × Dev :=
  (0, sr030pc50_restore_ctrl_loop h d.sr030pc50_ctrls d)

/-- The function `sr030pc50_init_parameter`. -/
def sr030pc50_init_parameter (h : Header) (d : Dev) : Dev :=
  { d with state := { d.state with
      runmode := RUNMODE_INIT
      scene_mode := h.SCENE_MODE_NONE
      wb_mode := h.WHITE_BALANCE_AUTO
      light_level := h.LUX_LEVEL_MAX
      preview.update_frmsize := 1
      focus_dirty := false
      focus_status := 0
      lux_level_flash := h.LUX_LEVEL_FLASH_ON
      shutter_level_flash := 0
      vt_mode := 0 } }

/-- The register-table write of `sr030pc50_init`, chosen by `state->vt_mode`. -/
def sr030pc50_init_write (h : Header) (d : Dev) : Int × Dev :=
  if h.CONFIG_MACH_DELOSLTE_KOR = true then
    if d.state.vt_mode = h.PREVIEW_CAMERA then
      sr030pc50_set_from_table h [d.state.regs.init_reg] 0 d
    else if d.state.vt_mode = h.PREVIEW_VIDEOCALL_3G then
      let r := sr030pc50_set_from_table h [d.state.regs.VT_init_reg] 0 d
      (r.1, { r.2 with state := { r.2.state with vt_initialized := 1 } })
    else if d.state.vt_mode = h.PREVIEW_SMARTSTAY then
      sr030pc50_set_from_table h [d.state.regs.SS_init_reg] 0 d
    else sr030pc50_set_from_table h [d.state.regs.init_reg] 0 d
  else
    if d.state.vt_mode = h.PREVIEW_VIDEOCALL then
      sr030pc50_set_from_table h [d.state.regs.VT_init_reg] 0 d
    else if d.state.vt_mode = h.PREVIEW_SMARTSTAY then
      sr030pc50_set_from_table h [d.state.regs.SS_init_reg] 0 d
    else sr030pc50_set_from_table h [d.state.regs.init_reg] 0 d

/-- The function `sr030pc50_init`. -/
def sr030pc50_init (h : Header) (val : Nat) (d : Dev) : Int × Dev :=
  if d.state.power_on ≠ h.SR030PC50_HW_POWER_ON then (-EPERM, d)
  else
    match sr030pc50_init_write h d with
    | (err, d1) =>
      if err < 0 then (err, d1)
      else
        let d2 := sr030pc50_init_parameter h d1
        let d3 := { d2 with state := { d2.state with initialized := 1 } }
        let d4 := if val < 2 then { d3 with stats_init := (d3.stats_init + 1) % 2 ^ 32 } else d3
        (0, (sr030pc50_restore_ctrl h d4).2)

/-- The loop of `sr030pc50_control_stream` that puts the saved frame-rate
control back to its default value (first entry with that id only). -/
def reset_frame_rate_ctrl : List sr030pc50_control → List sr030pc50_control
  | [] => []
  | c :: ctrls =>
    if c.id = V4L2_CID_CAMERA_FRAME_RATE then { c with value := c.default_value } :: ctrls
    else c :: reset_frame_rate_ctrl ctrls

/-- The function `sr030pc50_control_stream`. -/
def sr030pc50_control_stream (h : Header) (cmd : Nat) (d : Dev) : Int × Dev :=
  if cmd = h.STREAM_STOP then
    match sr030pc50_set_from_table h [d.state.regs.stream_stop] 0 d with
    | (err, d1) =>
      if err < 0 then (err, d1)
      else
        match d1.state.runmode with
        | RUNMODE_CAPTURING =>
          (0, { d1 with state := { d1.state with
                  runmode := RUNMODE_CAPTURING_STOP
                  capture.ready := 0
                  capture.lowlux_night := 0 } })
        | RUNMODE_RUNNING =>
          (0, { d1 with state := { d1.state with runmode := RUNMODE_RUNNING_STOP } })
        | RUNMODE_RECORDING =>
          let d2 := { d1 with state := { d1.state with runmode := RUNMODE_RECORDING_STOP } }
          let d3 := { d2 with sr030pc50_ctrls := reset_frame_rate_ctrl d2.sr030pc50_ctrls }
          (0, (sr030pc50_init h 2 d3).2)
        | _ => (0, d1)
  else
    match sr030pc50_set_from_table h [d.state.regs.stream_start] 0 d with
    | (err, d1) => if err < 0 then (err, d1) else (0, d1)

/-! ## Resolution lookup -/

/-- The fields of `struct v4l2_mbus_framefmt`. -/
structure v4l2_mbus_framefmt where
  width : Nat := 0
  height : Nat := 0
  code : Nat := 0
  field : Nat := 0
  colorspace : Nat := 0
deriving DecidableEq, Repr

/-- The kernel macro `abs` (`include/linux/kernel.h`) on a 32-bit operand: the
operand is read as a signed 32-bit number, the magnitude is returned. -/
def abs32 (x : Nat) : Nat :=
  if x % 2 ^ 32 < 2 ^ 31 then x % 2 ^ 32 else 2 ^ 32 - x % 2 ^ 32

/-- The difference `a - b` of two 32-bit unsigned operands, as C computes it. -/
def sub32 (a b : Nat) : Nat := (a % 2 ^ 32 + 2 ^ 32 - b % 2 ^ 32) % 2 ^ 32

/-- The loop `while (i--)` of `__find_resolution` over the entries from
`fsize` on; the loop variables are `stype`, `min_err` and `match`. -/
def find_resolution_loop (mf : v4l2_mbus_framefmt) :
    List sr030pc50_resolution → Nat → Nat → Option sr030pc50_resolution →
      Nat × Option sr030pc50_resolution
  | [], stype, _, m => (stype, m)
  | fsize :: rest, stype, min_err, m =>
    if stype = fsize.type then
      let err := (abs32 (sub32 fsize.width mf.width)
                  + abs32 (sub32 fsize.height mf.height)) % 2 ^ 32
      if err < min_err then find_resolution_loop mf rest fsize.type err (some fsize)
      else find_resolution_loop mf rest stype min_err m
    else find_resolution_loop mf rest stype min_err m

/-- The function `__find_resolution` over the table `sr030pc50_resolutions`
(a parameter: the header that holds it is missing).  The result is the return
value with the contents of `*mf`, `*type` and `*resolution` on return.  The
`pr_debug` calls are left out; the second one names `match->width` ahead of
the NULL test and is taken not to read it. -/
def __find_resolution (sr030pc50_resolutions : List sr030pc50_resolution)
    (state : sr030pc50_state) (mf : v4l2_mbus_framefmt) (type resolution : Nat) :
    Int × v4l2_mbus_framefmt × Nat × Nat :=
  match find_resolution_loop mf sr030pc50_resolutions state.oprmode (2 ^ 32 - 1) none with
  | (stype, some m) => (0, { mf with width := m.width, height := m.height }, stype, m.value)
  | (_, none) => (-EINVAL, mf, type, resolution)

/-- The distance of the claim: `|a - b|` over the naturals. -/
def absdiff (a b : Nat) : Nat := if a ≤ b then b - a else a - b

/-- The error of a table entry against a requested size as the claim states
it: `|entry.width - width| + |entry.height - height|`. -/
def resolution_error (e : sr030pc50_resolution) (mf : v4l2_mbus_framefmt) : Nat :=
  absdiff e.width mf.width + absdiff e.height mf.height

/-! ## Frame size selection -/

/-- The table `sr030pc50_preview_frmsizes`. -/
def sr030pc50_preview_frmsizes (h : Header) : List sr030pc50_framesize :=
  (if h.CONFIG_MACH_GARDA then [⟨h.PREVIEW_SZ_528x432, 528, 432⟩] else [])
    ++ [⟨h.PREVIEW_SZ_VGA, 640, 480⟩]

/-- The table `sr030pc50_capture_frmsizes`. -/
def sr030pc50_capture_frmsizes (h : Header) : List sr030pc50_framesize :=
  [⟨h.CAPTURE_SZ_1MP, 1280, 960⟩]

/-- The function `sr030pc50_get_framesize`: the first entry with the given
`index`, `none` for the NULL result. -/
def sr030pc50_get_framesize : List sr030pc50_framesize → Nat → Option sr030pc50_framesize
  | [], _ => none
  | f :: frmsizes, index =>
    if f.index = index then some f else sr030pc50_get_framesize frmsizes index

/-- The search loop of `sr030pc50_set_framesize`: the entry stored through
`found_frmsize` before the `break`, `none` when the loop stores nothing. -/
def set_framesize_loop (width height : Nat) :
    List sr030pc50_framesize → Option sr030pc50_framesize
  | [] => none
  | f :: frmsizes =>
    if f.width = width ∧ f.height = height then some f
    else set_framesize_loop width height frmsizes

/-- The function `sr030pc50_set_framesize`; `none` is the `BUG_ON`. -/
def sr030pc50_set_framesize (h : Header) (frmsizes : List sr030pc50_framesize)
    (preview : Bool) (d : Dev) : Option Dev :=
  let width := d.state.req_fmt.width
  let height := d.state.req_fmt.height
  -- `found_frmsize` points at `state->preview.frmsize` or `state->capture.frmsize`
  let found0 := if preview then d.state.preview.frmsize else d.state.capture.frmsize
  let found1 :=
    match set_framesize_loop width height frmsizes with
    | some f => some f
    | none => found0
  let found2 :=
    match found1 with
    | some f => some f
    | none =>
      if preview then sr030pc50_get_framesize frmsizes h.PREVIEW_SZ_VGA
      else sr030pc50_get_framesize frmsizes h.CAPTURE_SZ_1MP
  match found2 with
  | none => none
  | some f =>
    if preview then some { d with state := { d.state with preview.frmsize := some f } }
    else some { d with state := { d.state with capture.frmsize := some f } }

/-- The frame size selected for the given mode, read back from the state. -/
def selected_frmsize (preview : Bool) (d : Dev) : Option sr030pc50_framesize :=
  if preview then d.state.preview.frmsize else d.state.capture.frmsize

/-- The selection the comment above `sr030pc50_set_framesize` describes: the
first entry, from the beginning, whose width and height are both at least
the requested ones. -/
def first_larger_frmsize (width height : Nat) :
    List sr030pc50_framesize → Option sr030pc50_framesize
  | [] => none
  | f :: frmsizes =>
    if width ≤ f.width ∧ height ≤ f.height then some f
    else first_larger_frmsize width height frmsizes

/-! ## Preview start -/

/-- The second half of `sr030pc50_set_preview_size`, from the read of
`state->preview.frmsize->width` on; `frmsize` is the entry
`state->preview.frmsize` points to. -/
def sr030pc50_set_preview_size_write (h : Header) (frmsize : sr030pc50_framesize)
    (d1 : Dev) : Int × Dev :=
  if h.CONFIG_MACH_GARDA = true then
    match sr030pc50_set_from_table h d1.state.regs.preview_size (frmsize.index : Int) d1 with
    | (err, d2) =>
      if err < 0 then (err, d2)
      else (0, { d2 with state := { d2.state with preview.update_frmsize := 0 } })
  else (0, { d1 with state := { d1.state with preview.update_frmsize := 0 } })

/-- The function `sr030pc50_set_preview_size`. -/
def sr030pc50_set_preview_size (h : Header) (d : Dev) : Int × Dev :=
  if d.state.preview.update_frmsize = 0 then (0, d)
  else
    let d1 :=
      match d.state.preview.frmsize with
      | some _ => d
      | none =>
        let vga := sr030pc50_get_framesize (sr030pc50_preview_frmsizes h) h.PREVIEW_SZ_VGA
        { d with state := { d.state with preview.frmsize := vga } }
    match d1.state.preview.frmsize with
    | none => (-EFAULT, d1) -- not reached: the table holds the `PREVIEW_SZ_VGA` entry
    | some frmsize => sr030pc50_set_preview_size_write h frmsize d1

/-- The function `sr030pc50_start_preview`. -/
def sr030pc50_start_preview (h : Header) (d : Dev) : Int × Dev :=
  if d.state.runmode = RUNMODE_NOTREADY ∨ d.state.runmode = RUNMODE_CAPTURING then (-EPERM, d)
  else
    -- Check pending fps
    match (if d.state.req_fps ≥ 0 then sr030pc50_set_frame_rate h d.state.req_fps d
           else (0, d)) with
    | (err1, d1) =>
      if err1 < 0 then (err1, d1)
      else
        -- Set preview size
        match sr030pc50_set_preview_size h d1 with
        | (err2, d2) =>
          if err2 < 0 then (err2, d2)
          else
            match sr030pc50_control_stream h h.STREAM_START d2 with
            | (err3, d3) =>
              if err3 < 0 then (err3, d3)
              else
                let d4 := if d3.state.runmode = RUNMODE_INIT then msleep_debug 200 d3 else d3
                let runmode :=
                  if d4.state.sensor_mode = h.SENSOR_CAMERA then RUNMODE_RUNNING
                  else RUNMODE_RECORDING
                (0, { d4 with state := { d4.state with runmode := runmode } })

/-! ## EXIF -/

/-- The ISO value `sr030pc50_get_exif_iso` derives from the gain register value. -/
def exif_iso_of_gain (read_value : Nat) : Nat :=
  let gain_value := ((read_value * 100) / 32 + 50) % 2 ^ 16
  if gain_value < 114 then 50
  else if gain_value < 214 then 100
  else if gain_value < 264 then 200
  else if gain_value < 825 then 400
  else 800

/-- The function `sr030pc50_get_exif_iso`: return value and the value stored
through `iso` (`none` when `*iso` is left alone). -/
def sr030pc50_get_exif_iso (h : Header) (d : Dev) : (Int × Option Nat) × Dev :=
  match sr030pc50_i2c_write h 0x03 0x20 d with
  | (err, d1) =>
    if err < 0 then ((-ENODEV, none), d1)
    else
      match sr030pc50_i2c_read h 0xb0 d1 with
      | ((_, data), d2) =>
        -- `read_value` starts as 0 and is overwritten only by a successful read
        let read_value := data.getD 0
        ((0, some (exif_iso_of_gain read_value)), d2)

/-! ## Power and reset -/

/-- Appends environment actions to the trace. -/
def emit (es : List Event) (d : Dev) : Dev := { d with trace := d.trace ++ es }

/-- The function `sr030pc50_power` (the variant under `#if 1`).  The results
of `gpio_request` are only logged, those of the regulator and clock calls are
not looked at. -/
def sr030pc50_power (h : Header) (flag : Int) (d : Dev) : Int × Dev :=
  if flag ≠ 0 then
    let d1 := emit [Event.gpio_request GPIO_VT_CAM_MEGA_nRST,
                    Event.gpio_request GPIO_VT_CAM_MEGA_EN] d
    let d2 :=
      if h.CONFIG_MACH_GARDA then
        emit [Event.regulator_enable vt_cam_sensor_a2v8_regulator, Event.udelay 10,
              Event.regulator_enable vt_cam_core_1v8_regulator, Event.udelay 10,
              Event.regulator_enable vt_cam_io_1v8_regulator, Event.udelay 10,
              Event.regulator_enable main_cam_core_1v2_regulator,
              Event.usleep_range 1050 1150,
              Event.regulator_disable main_cam_core_1v2_regulator,
              Event.usleep_range 1050 1150] d1
      else d1
    let d3 := emit [Event.mdelay 5, Event.clk_enable, Event.mdelay 5] d2
    let d4 := msleep_debug 8 (emit [Event.gpio_direction_output GPIO_VT_CAM_MEGA_EN 1] d3)
    let d5 := msleep_debug 57 (emit [Event.gpio_direction_output GPIO_VT_CAM_MEGA_nRST 1] d4)
    let d6 := emit [Event.gpio_free GPIO_VT_CAM_MEGA_nRST,
                    Event.gpio_free GPIO_VT_CAM_MEGA_EN] d5
    (0, { d6 with state := { d6.state with power_on := h.SR030PC50_HW_POWER_ON } })
  else
    let d1 := emit [Event.gpio_request GPIO_VT_CAM_MEGA_nRST,
                    Event.gpio_request GPIO_VT_CAM_MEGA_EN] d
    let d2 := emit [Event.gpio_direction_output GPIO_VT_CAM_MEGA_nRST 0, Event.udelay 15] d1
    let d3 := emit [Event.gpio_direction_output GPIO_VT_CAM_MEGA_EN 0, Event.udelay 60] d2
    let d4 := emit [Event.clk_disable, Event.udelay 30] d3
    let d5 :=
      if h.CONFIG_MACH_GARDA then
        emit [Event.regulator_disable vt_cam_io_1v8_regulator, Event.udelay 10,
              Event.regulator_disable vt_cam_core_1v8_regulator, Event.udelay 10,
              Event.regulator_disable vt_cam_sensor_a2v8_regulator, Event.udelay 10] d4
      else d4
    let d6 := emit [Event.gpio_free GPIO_VT_CAM_MEGA_nRST,
                    Event.gpio_free GPIO_VT_CAM_MEGA_EN] d5
    (0, { d6 with state := { d6.state with power_on := h.SR030PC50_HW_POWER_OFF } })

/-- The end of `sr030pc50_reset`: `state->reset_done = 1; stats_reset++; return 0;`. -/
def sr030pc50_reset_done (d : Dev) : Int × Dev :=
  (0, { d with state := { d.state with reset_done := 1 },
               stats_reset := (d.stats_reset + 1) % 2 ^ 32 })

/-- The second half of the `if (val)` block of `sr030pc50_reset`: power on,
`CHECK_ERR`, then the end of the function. -/
def sr030pc50_reset_power_on (h : Header) (d : Dev) : Int × Dev :=
  match sr030pc50_power h 1 d with
  | (err, d1) => if err < 0 then (err, d1) else sr030pc50_reset_done d1

/-- The function `sr030pc50_reset`. -/
def sr030pc50_reset (h : Header) (val : Nat) (d : Dev) : Int × Dev :=
  let d0 := if d.state.wq then emit [Event.flush_workqueue] d else d
  let d1 := { d0 with state :=
    { d0.state with
      vt_initialized := if h.CONFIG_MACH_DELOSLTE_KOR then 0 else d0.state.vt_initialized,
      initialized := 0, need_wait_streamoff := 0, runmode := RUNMODE_NOTREADY } }
  if val ≠ 0 then
    if h.SR030PC50_HW_POWER_ON = d1.state.power_on then
      match sr030pc50_power h 0 d1 with
      | (err, d2) =>
        if err < 0 then (err, d2)
        else sr030pc50_reset_power_on h (msleep_debug 50 d2)
    else sr030pc50_reset_power_on h d1
  else sr030pc50_reset_done d1

/-! ## Debug log level -/

/-- Modelled from the spec: the kernel library function `strstr`
(`lib/string.c`, not among the sources) on strings given by their characters:
whether `s2` occurs in `s1` as a contiguous run, searched from each start
position in turn. -/
def strstr : List Char → List Char → Bool
  | [], s2 => s2.isEmpty
  | c :: s1, s2 => s2.isPrefixOf (c :: s1) || strstr s1 s2

/-- The complement `~x` of a `u32`. -/
def not32 (x : Nat) : Nat := (2 ^ 32 - 1) ^^^ (x % 2 ^ 32)

/-- The function `cam_loglevel_store`; `buf` is the buffer sysfs hands over
(NUL-terminated after `count` bytes), read as a C string by `strstr`. -/
def cam_loglevel_store (h : Header) (buf : List Char) (count : Nat) (d : Dev) : Int × Dev :=
  let l1 :=
    if strstr (cstring buf) "trace".toList then d.dbg_level ||| h.CAMDBG_LEVEL_TRACE
    else d.dbg_level &&& not32 h.CAMDBG_LEVEL_TRACE
  let l2 :=
    if strstr (cstring buf) "debug".toList then l1 ||| h.CAMDBG_LEVEL_DEBUG
    else l1 &&& not32 h.CAMDBG_LEVEL_DEBUG
  let l3 :=
    if strstr (cstring buf) "info".toList then l2 ||| h.CAMDBG_LEVEL_INFO
    else l2
  (count, { d with dbg_level := l3 })

/-! ## Saved controls -/

/-- The function `sr030pc50_is_clear_ctrl`. -/
def sr030pc50_is_clear_ctrl (ctrl : v4l2_control) : Bool :=
  match ctrl.id with
  | V4L2_CID_CAMERA_BRIGHTNESS => false
  | V4L2_CID_CAM_BRIGHTNESS => false
  | _ => decide (ctrl.value < 0)

/-- The loop of `sr030pc50_save_ctrl` over the entries of `sr030pc50_ctrls`:
the first entry with the id of `ctrl` takes its value, then the function
returns. -/
def sr030pc50_save_ctrl_loop (ctrl : v4l2_control) :
    List sr030pc50_control → List sr030pc50_control
  | [] => []
  | c :: ctrls =>
    if ctrl.id = c.id then { c with value := ctrl.value } :: ctrls
    else c :: sr030pc50_save_ctrl_loop ctrl ctrls

/-- The function `sr030pc50_save_ctrl`. -/
def sr030pc50_save_ctrl (ctrl : v4l2_control) (d : Dev) : Int × Dev :=
  (0, { d with sr030pc50_ctrls := sr030pc50_save_ctrl_loop ctrl d.sr030pc50_ctrls })

/-- The function `sr030pc50_pre_s_ctrl`.  The statement
`if (!state->initialized);` ends in a semicolon, so its body is empty and the
call of `sr030pc50_save_ctrl` on the next line is not under the condition. -/
def sr030pc50_pre_s_ctrl (h : Header) (ctrl : v4l2_control) (d : Dev) : Int × Dev :=
  if sr030pc50_is_clear_ctrl ctrl then (0, d)
  else sr030pc50_s_ctrl h ctrl (sr030pc50_save_ctrl ctrl d).2

/-! ## EXIF exposure time and `g_ctrl` -/

/-- The function `sr030pc50_get_exif_exptime`: return value and the contents
of `*exp_time` afterwards (a `u32`; left alone when the page write fails).
Each `read_value` starts as 0 and is overwritten only by a successful read;
the results of the three reads are not looked at. -/
def sr030pc50_get_exif_exptime (h : Header) (exp_time : Nat) (d : Dev) : (Int × Nat) × Dev :=
  match sr030pc50_i2c_write h 0x03 0x20 d with
  | (err, d0) =>
    if err < 0 then ((-ENODEV, exp_time), d0)
    else
      let r1 := sr030pc50_i2c_read h 0x80 d0
      let r2 := sr030pc50_i2c_read h 0x81 r1.2
      let r3 := sr030pc50_i2c_read h 0x82 r2.2
      let read_value1 := r1.1.2.getD 0
      let read_value2 := r2.1.2.getD 0
      let read_value3 := r3.1.2.getD 0
      ((0, ((read_value1 <<< 19) + (read_value2 <<< 11) + (read_value3 <<< 3)) % 2 ^ 32), r3.2)

/-- The function `sr030pc50_get_exif_flash`: the `u16` stored through `flash`. -/
def sr030pc50_get_exif_flash (h : Header) (d : Dev) : Nat :=
  let flash0 : Nat :=
    if d.state.flash_mode = h.FLASH_MODE_OFF then h.EXIF_FLASH_MODE_SUPPRESSION % 2 ^ 16
    else if d.state.flash_mode = h.FLASH_MODE_AUTO then h.EXIF_FLASH_MODE_AUTO % 2 ^ 16
    else if d.state.flash_mode = h.FLASH_MODE_ON ∨ d.state.flash_mode = h.FLASH_MODE_TORCH
      then h.EXIF_FLASH_MODE_FIRING % 2 ^ 16
    else 0
  if d.state.flash_on ≠ 0 then (flash0 ||| h.EXIF_FLASH_FIRED) % 2 ^ 16 else flash0

/-- The function `sr030pc50_get_exif`.  The division is under
`if (exposure_time)`. -/
def sr030pc50_get_exif (h : Header) (d : Dev) : Int × Dev :=
  let d0 := { d with state := { d.state with exif.exp_time_den := 0 } }
  let r := sr030pc50_get_exif_exptime h 0 d0
  let exposure_time := r.1.2
  let den := if exposure_time ≠ 0 then 24000000 / exposure_time else 0
  let d1 := { r.2 with state := { r.2.state with exif.exp_time_den := den, exif.iso := 0 } }
  let ri := sr030pc50_get_exif_iso h d1
  let d2 := { ri.2 with state := { ri.2.state with
    exif.iso := ri.1.2.getD ri.2.state.exif.iso } }
  (0, { d2 with state := { d2.state with exif.flash := sr030pc50_get_exif_flash h d2 } })

/-- The function `sr030pc50_g_ctrl`: return value, the control as it is
afterwards, and the next state.  `none` is an undefined step: the division
`(24000000 / 2) / state->exif.exp_time_den` by zero in the
`V4L2_CID_CAMERA_EXIF_EXPTIME` case, and in the `V4L2_CID_CAMERA_EXIF_FLASH`
case outside camera mode the store through the integer `ctrl->value` cast to
a pointer. -/
def sr030pc50_g_ctrl (h : Header) (ctrl : v4l2_control) (d : Dev) :
    Option ((Int × v4l2_control) × Dev) :=
  if d.state.initialized = 0 then some ((0, ctrl), d)
  else
    match ctrl.id with
    | V4L2_CID_CAMERA_EXIF_EXPTIME =>
      if d.state.sensor_mode = h.SENSOR_CAMERA then
        let r := sr030pc50_get_exif_exptime h d.state.exif.exp_time_den d
        let exp_time_den := r.1.2
        if exp_time_den = 0 then none
        else
          let den := (24000000 / 2) / exp_time_den
          some ((0, { ctrl with value := den }),
            { r.2 with state := { r.2.state with exif.exp_time_den := den } })
      else some ((0, { ctrl with value := 24 }), d)
    | V4L2_CID_CAMERA_EXIF_ISO =>
      if d.state.sensor_mode = h.SENSOR_CAMERA then
        let ri := sr030pc50_get_exif_iso h d
        let iso := ri.1.2.getD ri.2.state.exif.iso
        some ((0, { ctrl with value := iso }),
          { ri.2 with state := { ri.2.state with exif.iso := iso } })
      else some ((0, { ctrl with value := 100 }), d)
    | V4L2_CID_CAMERA_EXIF_FLASH =>
      if d.state.sensor_mode = h.SENSOR_CAMERA then
        some ((0, { ctrl with value := d.state.exif.flash }), d)
      else none
    | V4L2_CID_CAMERA_AUTO_FOCUS_RESULT =>
      some ((0, { ctrl with value := d.state.focus_status }), d)
    | _ => some ((0, ctrl), d)

/-! ## Format selection -/

/-- The second half of `sr030pc50_s_mbus_fmt`, after `state->req_fmt` and
`state->format_mode` have been set: the frame size selection.  `none` is the
`BUG_ON` of `sr030pc50_set_framesize` or the dereference of a NULL
`preview.frmsize`.  In the capture branch the comparison of the two
`FRM_RATIO` values only selects a warning, which is left out with the other
log calls. -/
def sr030pc50_s_mbus_fmt_select (h : Header) (d1 : Dev) : Option (Int × Dev) :=
  if d1.state.format_mode ≠ h.V4L2_PIX_FMT_MODE_CAPTURE then
    let previous_index : Int :=
      match d1.state.preview.frmsize with
      | some f => f.index
      | none => -1
    match sr030pc50_set_framesize h (sr030pc50_preview_frmsizes h) true d1 with
    | none => none
    | some d2 =>
      match d2.state.preview.frmsize with
      | none => none
      | some f =>
        if previous_index ≠ (f.index : Int) then
          some (0, { d2 with state := { d2.state with preview.update_frmsize := 1 } })
        else some (0, d2)
  else
    match sr030pc50_set_framesize h (sr030pc50_capture_frmsizes h) false d1 with
    | none => none
    | some d2 => some (0, d2)

/-- The function `sr030pc50_s_mbus_fmt`: `v4l2_fill_pix_format` copies the
format into `state->req_fmt`, the format mode is chosen, then the frame size
is selected. -/
def sr030pc50_s_mbus_fmt (h : Header) (fmt : v4l2_mbus_framefmt) (d : Dev) :
    Option (Int × Dev) :=
  let format_mode :=
    if h.IS_MODE_CAPTURE_STILL = fmt.field ∧ h.SENSOR_CAMERA = d.state.sensor_mode
      then h.V4L2_PIX_FMT_MODE_CAPTURE else h.V4L2_PIX_FMT_MODE_PREVIEW
  sr030pc50_s_mbus_fmt_select h { d with state := { d.state with
    req_fmt := { width := fmt.width, height := fmt.height }, format_mode := format_mode } }

/-! ## Vocabulary of the statements -/

/-- The entry `e` is the first entry of `table` of type `stype` whose error
against `mf` is least among the entries of that type. -/
def FirstNearest (table : List sr030pc50_resolution) (stype : Nat)
    (mf : v4l2_mbus_framefmt) (e : sr030pc50_resolution) : Prop :=
  ∃ pre post, table = pre ++ e :: post ∧ e.type = stype ∧
    (∀ x ∈ pre, x.type = stype → resolution_error e mf < resolution_error x mf) ∧
    (∀ x ∈ post, x.type = stype → resolution_error e mf ≤ resolution_error x mf)

/-- Invariant of the loop of `__find_resolution` after the entries `seen`. -/
def FindInv (stype : Nat) (mf : v4l2_mbus_framefmt) (seen : List sr030pc50_resolution)
    (min_err : Nat) (m : Option sr030pc50_resolution) : Prop :=
  (m = none ∧ min_err = 2 ^ 32 - 1 ∧ ∀ x ∈ seen, x.type ≠ stype) ∨
  (∃ e, m = some e ∧ min_err = resolution_error e mf ∧ FirstNearest seen stype mf e)

/-- The ISO thresholds as the claim words them, on the untruncated gain
`floor(r * 100 / 32) + 50`. -/
def iso_of_register (r : Nat) : Nat :=
  let gain := r * 100 / 32 + 50
  if gain < 114 then 50
  else if gain < 214 then 100
  else if gain < 264 then 200
  else if gain < 825 then 400
  else 800

/-- A requested frame rate clamped into `[FRAME_RATE_AUTO, FRAME_RATE_25]`. -/
def clamp_fps (h : Header) (fps : Int) : Int :=
  if fps < h.FRAME_RATE_AUTO then h.FRAME_RATE_AUTO
  else if fps > h.FRAME_RATE_25 then h.FRAME_RATE_25
  else fps

/-- The second state differs from the first in the I/O bookkeeping only
(`calls`, `trace`, `stats_i2c_err`). -/
def SameDriver (d d1 : Dev) : Prop :=
  d1.state = d.state ∧ d1.sr030pc50_ctrls = d.sr030pc50_ctrls ∧ d1.stats_init = d.stats_init ∧
  d1.adapter = d.adapter ∧ d1.xfer_ok = d.xfer_ok ∧ d1.rx = d.rx

/-- The second state has the first one's saved controls, counters and bus script. -/
def SameEnv (d d1 : Dev) : Prop :=
  d1.sr030pc50_ctrls = d.sr030pc50_ctrls ∧ d1.stats_init = d.stats_init ∧
  d1.adapter = d.adapter ∧ d1.xfer_ok = d.xfer_ok ∧ d1.rx = d.rx

/-- The slot `index` of a regset table exists and holds a register list. -/
def SlotOk (table : List regset_table) (index : Int) : Prop :=
  0 ≤ index ∧ ∃ t regs, table.get? index.toNat = some t ∧ t.reg = some regs

/-- No register write of `sr030pc50_start_preview` can fail: the bus is
healthy and the tables it plays back are present (the stream-start table, the
frame-rate slots of `sr030pc50_framerates`, and in a GARDA build the
preview-size slot of the selected frame size, or of the `PREVIEW_SZ_VGA`
entry when none is selected). -/
def PreviewWritesOk (h : Header) (d : Dev) : Prop :=
  BusOk d ∧
  d.state.regs.stream_start.reg ≠ none ∧
  (∀ e ∈ sr030pc50_framerates h, 0 ≤ e.index → SlotOk d.state.regs.fps e.index) ∧
  (h.CONFIG_MACH_GARDA = true →
    ∀ f, (d.state.preview.frmsize = some f ∨
          (d.state.preview.frmsize = none ∧
            sr030pc50_get_framesize (sr030pc50_preview_frmsizes h) h.PREVIEW_SZ_VGA = some f)) →
      SlotOk d.state.regs.preview_size (f.index : Int))

/-- A powered-up sensor in `RUNMODE_INIT` with all tables of the preview path
present, on a healthy bus. -/
def preview_ready_dev : Dev :=
  { state := { runmode := RUNMODE_INIT, power_on := 1, initialized := 1, req_fps := 15,
               preview := { update_frmsize := 1 },
               regs := { stream_start := { reg := some [0x0301] },
                         stream_stop := { reg := some [0x0100] },
                         fps := List.replicate 6 { reg := some [0x0300, 0x1120] } } } }

/-- What playing back one regset entry hands to the environment: a delay
entry (high byte `DELAY_SEQ`) is a sleep of ten times its low byte in
milliseconds (nothing for `0x00` and for `0xFF`), every other entry is the
register write `(high byte, low byte)`. -/
def playback_entry (h : Header) (r : Nat) : Option Event :=
  if h.DELAY_SEQ = (r / 256) % 256 then
    (if r % 256 = 0xFF ∨ r % 256 = 0 then none else some (Event.sleep (r % 256 * 10)))
  else some (Event.i2c_write ((r / 256) % 256) (r % 256))

/-- A regset table read verbatim as `(register address, value)` pairs:
high byte and low byte of every entry, in table order. -/
def regset_pairs (regs : List Nat) : List (Nat × Nat) :=
  regs.map (fun r => ((r / 256) % 256, r % 256))

/-- The environment actions of powering the sensor on, in order. -/
def power_on_events (h : Header) : List Event :=
  [Event.gpio_request GPIO_VT_CAM_MEGA_nRST, Event.gpio_request GPIO_VT_CAM_MEGA_EN] ++
  (if h.CONFIG_MACH_GARDA then
    [Event.regulator_enable vt_cam_sensor_a2v8_regulator, Event.udelay 10,
     Event.regulator_enable vt_cam_core_1v8_regulator, Event.udelay 10,
     Event.regulator_enable vt_cam_io_1v8_regulator, Event.udelay 10,
     Event.regulator_enable main_cam_core_1v2_regulator, Event.usleep_range 1050 1150,
     Event.regulator_disable main_cam_core_1v2_regulator, Event.usleep_range 1050 1150]
   else []) ++
  [Event.mdelay 5, Event.clk_enable, Event.mdelay 5,
   Event.gpio_direction_output GPIO_VT_CAM_MEGA_EN 1, Event.sleep 8,
   Event.gpio_direction_output GPIO_VT_CAM_MEGA_nRST 1, Event.sleep 57,
   Event.gpio_free GPIO_VT_CAM_MEGA_nRST, Event.gpio_free GPIO_VT_CAM_MEGA_EN]

/-- The environment actions of powering the sensor off, in order. -/
def power_off_events (h : Header) : List Event :=
  [Event.gpio_request GPIO_VT_CAM_MEGA_nRST, Event.gpio_request GPIO_VT_CAM_MEGA_EN,
   Event.gpio_direction_output GPIO_VT_CAM_MEGA_nRST 0, Event.udelay 15,
   Event.gpio_direction_output GPIO_VT_CAM_MEGA_EN 0, Event.udelay 60,
   Event.clk_disable, Event.udelay 30] ++
  (if h.CONFIG_MACH_GARDA then
    [Event.regulator_disable vt_cam_io_1v8_regulator, Event.udelay 10,
     Event.regulator_disable vt_cam_core_1v8_regulator, Event.udelay 10,
     Event.regulator_disable vt_cam_sensor_a2v8_regulator, Event.udelay 10]
   else []) ++
  [Event.gpio_free GPIO_VT_CAM_MEGA_nRST, Event.gpio_free GPIO_VT_CAM_MEGA_EN]

/-- The trace entry of `flush_workqueue`, made only when the work queue exists. -/
def flush_events (d : Dev) : List Event :=
  if d.state.wq then [Event.flush_workqueue] else []

/-- The driver state right after the unconditional assignments of
`sr030pc50_reset` and its final `reset_done = 1`, power state aside. -/
def reset_state (h : Header) (s : sr030pc50_state) : sr030pc50_state :=
  { s with vt_initialized := if h.CONFIG_MACH_DELOSLTE_KOR then 0 else s.vt_initialized,
           initialized := 0, need_wait_streamoff := 0, runmode := RUNMODE_NOTREADY,
           reset_done := 1 }

/-- The saved value of a control id: the value of the first entry of the
table with that id, `none` when the table has no such entry. -/
def saved_value (id : v4l2_cid) : List sr030pc50_control → Option Int
  | [] => none
  | c :: ctrls => if id = c.id then some c.value else saved_value id ctrls

/-- The frame-size pointers of the state are NULL or point into their table:
`preview.frmsize` at an entry of `sr030pc50_preview_frmsizes`,
`capture.frmsize` at an entry of `sr030pc50_capture_frmsizes`.  The pointers
start as NULL and every assignment in the driver stores the address of a
table entry or NULL. -/
def FrmsizeInv (h : Header) (s : sr030pc50_state) : Prop :=
  (∀ f, s.preview.frmsize = some f → f ∈ sr030pc50_preview_frmsizes h) ∧
  (∀ f, s.capture.frmsize = some f → f ∈ sr030pc50_capture_frmsizes h)

end Sr030pc50

/-! # The CM36686 light and proximity sensor driver -/

namespace Cm36686

/-! ## Constants of `cm36686.c` -/

def ENOENT : Int := 2
def EIO : Int := 5
def ENODEV : Int := 19
def EINVAL : Int := 22
def ERANGE : Int := 34

def REG_CS_CONF1 : Nat := 0x00
def REG_ALS_DATA : Nat := 0x09
def REG_WHITE_DATA : Nat := 0x0A
def REG_PS_CONF1 : Nat := 0x03
def REG_PS_CONF3 : Nat := 0x04
def REG_PS_CANC : Nat := 0x05
def REG_PS_THD_LOW : Nat := 0x06
def REG_PS_THD_HIGH : Nat := 0x07
def REG_PS_DATA : Nat := 0x08

def PS_REG_NUM : Nat := 5
def PROX_READ_NUM : Nat := 40
def DEFUALT_HI_THD : Nat := 0x0022
def DEFUALT_LOW_THD : Nat := 0x001E
def CANCEL_HI_THD : Nat := 0x0022
def CANCEL_LOW_THD : Nat := 0x001E
def LIGHT_LOG_TIME : Int := 30
def NSEC_PER_MSEC : Nat := 1000000

/-- `LIGHT_ENABLED = BIT(0)`. -/
def LIGHT_ENABLED : Nat := 1
/-- `PROXIMITY_ENABLED = BIT(1)`. -/
def PROXIMITY_ENABLED : Nat := 2

/-! Row and column indexes of `ps_reg_init_setting`. -/

def PS_CONF1 : Nat := 0
def PS_CONF3 : Nat := 1
def PS_THD_LOW : Nat := 2
def PS_THD_HIGH : Nat := 3
def PS_CANCEL : Nat := 4
def REG_ADDR : Nat := 0
def CMD : Nat := 1

/-- `IRQ_HANDLED` of `enum irqreturn`. -/
def IRQ_HANDLED : Int := 1

/-- The constant table `als_reg_setting[ALS_REG_NUM][2]`, cell `[i][j]`. -/
def als_reg_setting (i j : Nat) : Nat :=
  (([[REG_CS_CONF1, 0x0000], [REG_CS_CONF1, 0x0001]].getD i []).getD j 0)

/-- The initial contents of `ps_reg_init_setting[PS_REG_NUM][2]`, cell `[i][j]`. -/
def ps_reg_init_setting_init (i j : Nat) : Nat :=
  (([[REG_PS_CONF1, 0x0300], [REG_PS_CONF3, 0x4200], [REG_PS_THD_LOW, DEFUALT_LOW_THD],
     [REG_PS_THD_HIGH, DEFUALT_HI_THD], [REG_PS_CANC, 0x0000]].getD i []).getD j 0)

/-- The assignment `t[i][j] = v` to a cell of a `u16` table. -/
def set_cell (t : Nat → Nat → Nat) (i j v : Nat) : Nat → Nat → Nat :=
  fun a b => if a = i ∧ b = j then v % 2 ^ 16 else t a b

/-! ## Data model -/

/-- The two timers of the driver. -/
inductive Timer where
  | light_timer
  | prox_timer
deriving DecidableEq, Repr

/-- The two work items of the driver. -/
inductive Work where
  | work_light
  | work_prox
deriving DecidableEq, Repr

/-- The two input devices of the driver. -/
inductive InputDev where
  | proximity_input_dev
  | light_input_dev
deriving DecidableEq, Repr

/-- The relative axes the light sensor reports on. -/
inductive RelCode where
  | REL_DIAL
  | REL_WHEEL
deriving DecidableEq, Repr

/-- One observable action of the driver on its environment. -/
inductive Event where
  /-- One call of `i2c_smbus_write_word_data(client, command, val)`. -/
  | smbus_write_word (command val : Nat)
  /-- One call of `i2c_transfer` with the command message and the two-byte read message. -/
  | i2c_read_word (command : Nat)
  /-- The callback `cm36686_light_vddpower(enable)`. -/
  | light_vddpower (enable : Bool)
  /-- The callback `cm36686_proxi_vddpower(enable)`. -/
  | proxi_vddpower (enable : Bool)
  /-- The callback `pdata->cm36686_led_on(enable)`. -/
  | led_on (enable : Bool)
  | msleep (msecs : Nat)
  /-- The call `hrtimer_start(t, ns, HRTIMER_MODE_REL)`. -/
  | hrtimer_start (t : Timer) (ns : Nat)
  | hrtimer_cancel (t : Timer)
  | cancel_work_sync (w : Work)
  /-- The call `gpio_get_value(gpio)`. -/
  | gpio_get_value (gpio : Nat)
  /-- The call `input_report_abs(proximity_input_dev, ABS_DISTANCE, value)`. -/
  | input_report_abs (value : Nat)
  /-- The call `input_report_rel(light_input_dev, code, value)`. -/
  | input_report_rel (code : RelCode) (value : Nat)
  | input_sync (dev : InputDev)
  | enable_irq
  | enable_irq_wake
  | disable_irq_wake
  | disable_irq
  /-- The call `wake_lock_timeout(&prx_wake_lock, n * HZ)`. -/
  | wake_lock_timeout (n : Nat)
  /-- The call `filp_open` on the cancelation file, for writing or for reading. -/
  | filp_open (for_write : Bool)
  /-- The two-byte read from the cancelation file. -/
  | file_read
  /-- The two-byte write of `v` to the cancelation file. -/
  | file_write (v : Nat)
  | filp_close
  /-- The log line `pr_info("%s, %u,%u\n", __func__, als_data, white_data)` of
  `cm36686_work_func_light`. -/
  | log_light (als_data white_data : Nat)
deriving DecidableEq, Repr

/-- Modelled from the spec: the fields of `struct cm36686_platform_data`
(`linux/sensor/cm36686.h`, not among the sources) that `cm36686.c` reads. -/
structure cm36686_platform_data where
  /-- The GPIO of the proximity interrupt line. -/
  irq : Nat := 0
  default_hi_thd : Nat := 0
  default_low_thd : Nat := 0
  cancel_hi_thd : Nat := 0
  cancel_low_thd : Nat := 0
  /-- Whether the callback `cm36686_led_on` is set. -/
  cm36686_led_on : Bool := false
deriving DecidableEq, Repr

/-- The fields of `struct cm36686_data` that the modelled functions read or write. -/
structure cm36686_data where
  /-- Whether `i2c_client` is non-NULL. -/
  i2c_client : Bool := true
  /-- Whether `i2c_client->adapter` is non-NULL. -/
  adapter : Bool := true
  pdata : cm36686_platform_data := {}
  /-- In nanoseconds (a `ktime_t`). -/
  light_poll_delay : Int := 200 * NSEC_PER_MSEC
  /-- In nanoseconds. -/
  prox_poll_delay : Nat := 2000 * NSEC_PER_MSEC
  /-- The field `u8 power_state`. -/
  power_state : Nat := 0
  /-- The field `int avg[3]`. -/
  avg : Nat → Int := fun _ => 0
  als_data : Nat := 0
  white_data : Nat := 0
  count_log_time : Int := 0
  /-- Whether the callback `cm36686_light_vddpower` is set. -/
  cm36686_light_vddpower : Bool := false
  /-- Whether the callback `cm36686_proxi_vddpower` is set. -/
  cm36686_proxi_vddpower : Bool := false

/-- The driver data, the file-scope table and the environment. -/
structure Sys where
  cm36686 : cm36686_data := {}
  /-- The file-scope table `u16 ps_reg_init_setting[PS_REG_NUM][2]`, cell `[i][j]`. -/
  ps_reg_init_setting : Nat → Nat → Nat := ps_reg_init_setting_init
  /-- The result of the `n`-th bus call (`i2c_transfer` or
  `i2c_smbus_write_word_data`): negative is an error. -/
  xfer : Nat → Int := fun _ => 0
  /-- The bytes `data[0]`, `data[1]` that the `n`-th bus call leaves in a read buffer. -/
  rx : Nat → Nat × Nat := fun _ => (0, 0)
  /-- Number of bus calls so far. -/
  calls : Nat := 0
  /-- The level that the `n`-th call of `gpio_get_value` returns. -/
  gpio : Nat → Nat := fun _ => 1
  /-- Number of calls of `gpio_get_value` so far. -/
  gpio_reads : Nat := 0
  /-- What `filp_open` gives for reading the cancelation file: 0 for a file,
  a negative `PTR_ERR` otherwise. -/
  cal_open_err : Int := 0
  /-- The bytes of the cancelation file. -/
  cal_file : List Nat := []
  /-- What `filp_open` gives for writing the cancelation file: 0 for a file,
  a negative `PTR_ERR` otherwise. -/
  cal_create_err : Int := 0
  /-- The return value of `f_op->write` on the cancelation file (2 when both
  bytes are written). -/
  cal_write_ret : Int := 2
  /-- The indeterminate value that the local `u16 ps_data` of
  `proximity_state_show` holds before the read (it has no initializer). -/
  ps_data_uninit : Nat := 0
  /-- Every action on the environment so far, oldest first. -/
  trace : List Event := []

/-- Appends environment actions to the trace. -/
def emit (es : List Event) (d : Sys) : Sys := { d with trace := d.trace ++ es }

/-- The test `x & mask` of C, as a condition. -/
def has_bits (x mask : Nat) : Bool := x &&& mask != 0

/-- The assignment `x |= mask` on a `u8`. -/
def set_bits8 (x mask : Nat) : Nat := (x ||| mask) % 2 ^ 8

/-- The assignment `x &= ~mask` on a `u8`. -/
def clear_bits8 (x mask : Nat) : Nat := (x &&& (0xFF ^^^ (mask % 2 ^ 8))) % 2 ^ 8

/-! ## Bus access -/

/-- The retry loop of `cm36686_i2c_read_word`: `while (retry--)`; `err` is the
last result, `val` the current contents of `*val`. -/
def cm36686_i2c_read_word_loop (command : Nat) : Nat → Int → Nat → Sys → (Int × Nat) × Sys
  | 0, err, val, d => ((err, val), d)
  | retry + 1, _, val, d =>
    let err := d.xfer d.calls
    let data := d.rx d.calls
    let d1 := { d with calls := d.calls + 1,
                       trace := d.trace ++ [Event.i2c_read_word command] }
    if err ≥ 0 then
      ((err, (((data.2 % 2 ^ 8) <<< 8) ||| (data.1 % 2 ^ 8)) % 2 ^ 16), d1)
    else cm36686_i2c_read_word_loop command retry err val d1

/-- The function `cm36686_i2c_read_word`; the second component of the result
is the contents of `*val` afterwards. -/
def cm36686_i2c_read_word (command : Nat) (val : Nat) (d : Sys) : (Int × Nat) × Sys :=
  if d.cm36686.i2c_client = false ∨ d.cm36686.adapter = false then ((-ENODEV, val), d)
  else cm36686_i2c_read_word_loop command 3 0 val d

/-- The retry loop of `cm36686_i2c_write_word`: `while (retry--)`. -/
def cm36686_i2c_write_word_loop (command val : Nat) : Nat → Int → Sys → Int × Sys
  | 0, err, d => (err, d)
  | retry + 1, _, d =>
    let err := d.xfer d.calls
    let d1 := { d with calls := d.calls + 1,
                       trace := d.trace ++ [Event.smbus_write_word command val] }
    if err ≥ 0 then (0, d1)
    else cm36686_i2c_write_word_loop command val retry err d1

/-- The function `cm36686_i2c_write_word`. -/
def cm36686_i2c_write_word (command val : Nat) (d : Sys) : Int × Sys :=
  if d.cm36686.i2c_client = false ∨ d.cm36686.adapter = false then (-ENODEV, d)
  else cm36686_i2c_write_word_loop command val 3 0 d

/-- The function `cm36686_light_enable`. -/
def cm36686_light_enable (d : Sys) : Sys :=
  let d1 := (cm36686_i2c_write_word REG_CS_CONF1 (als_reg_setting 0 1) d).2
  emit [Event.hrtimer_start Timer.light_timer (200 * NSEC_PER_MSEC)] d1

/-- The function `cm36686_light_disable`. -/
def cm36686_light_disable (d : Sys) : Sys :=
  let d1 := (cm36686_i2c_write_word REG_CS_CONF1 (als_reg_setting 1 1) d).2
  emit [Event.hrtimer_cancel Timer.light_timer, Event.cancel_work_sync Work.work_light] d1

/-! ## Kernel library functions used by the sysfs handlers -/

/-- The end of `sysfs_streq`, once the common prefix has been skipped: equal
(both at their end), or one at its end and the other a lone newline. -/
def sysfs_streq_tail : List Char → List Char → Bool
  | [], [] => true
  | [], [c] => c = '\n'
  | [c], [] => c = '\n'
  | _, _ => false

/-- Modelled from the spec: the kernel library function `sysfs_streq`
(`lib/string.c`, not among the sources) on C strings given by their
characters: the strings are equal, a single trailing newline of either one
left aside. -/
def sysfs_streq : List Char → List Char → Bool
  | c1 :: s1, c2 :: s2 =>
    if c1 = c2 then sysfs_streq s1 s2 else sysfs_streq_tail (c1 :: s1) (c2 :: s2)
  | s1, s2 => sysfs_streq_tail s1 s2

/-- The value of a run of decimal digits. -/
def parse_decimal (digits : List Char) : Nat :=
  digits.foldl (fun acc c => 10 * acc + (c.toNat - '0'.toNat)) 0

/-- Modelled from the spec: the kernel library function `kstrtou16` with base
10 (`lib/kstrtox.c`, not among the sources) on a C string given by its
characters: an optional `+`, at least one decimal digit, an optional single
newline, then the end of the string; `-ERANGE` for a value that does not fit
(64 bits while parsing, 16 bits at the end), `-EINVAL` for every other
malformed string.  On an error `*res` is not written. -/
def kstrtou16 (s : List Char) : Except Int Nat :=
  let s1 := match s with
    | '+' :: t => t
    | _ => s
  let digits := s1.takeWhile Char.isDigit
  let rest := s1.dropWhile Char.isDigit
  let v := parse_decimal digits
  if v ≥ 2 ^ 64 then Except.error (-ERANGE)
  else if digits = [] then Except.error (-EINVAL)
  else if rest ≠ [] ∧ rest ≠ ['\n'] then Except.error (-EINVAL)
  else if v ≥ 2 ^ 16 then Except.error (-ERANGE)
  else Except.ok v

/-- The text `sprintf(buf, "%d\n", v)` or `sprintf(buf, "%u\n", v)` writes for `v ≥ 0`. -/
def sprintf_line (v : Nat) : String := toString v ++ "\n"

/-! ## Light sensor enable -/

/-- The part of `light_enable_store` under `power_lock`. -/
def light_enable_store_locked (new_value : Bool) (d : Sys) : Sys :=
  if new_value ∧ ¬ has_bits d.cm36686.power_state LIGHT_ENABLED then
    let d1 := if d.cm36686.cm36686_light_vddpower then emit [Event.light_vddpower true] d else d
    let d2 := { d1 with cm36686 :=
      { d1.cm36686 with power_state := set_bits8 d1.cm36686.power_state LIGHT_ENABLED } }
    cm36686_light_enable d2
  else if ¬ new_value ∧ has_bits d.cm36686.power_state LIGHT_ENABLED then
    let d1 := cm36686_light_disable d
    let d2 := { d1 with cm36686 :=
      { d1.cm36686 with power_state := clear_bits8 d1.cm36686.power_state LIGHT_ENABLED } }
    if d2.cm36686.cm36686_light_vddpower then emit [Event.light_vddpower false] d2 else d2
  else d

/-- The function `light_enable_store`. -/
def light_enable_store (buf : List Char) (size : Nat) (d : Sys) : Int × Sys :=
  if sysfs_streq (cstring buf) "1".toList then (size, light_enable_store_locked true d)
  else if sysfs_streq (cstring buf) "0".toList then (size, light_enable_store_locked false d)
  else (-EINVAL, d)

/-- The function `light_enable_show`: the text written to `buf`. -/
def light_enable_show (d : Sys) : String :=
  sprintf_line (if has_bits d.cm36686.power_state LIGHT_ENABLED then 1 else 0)

/-! ## Proximity cancelation -/

/-- The threshold taken from the platform data, or the built-in one when the
platform data has 0 there. -/
def thd_or (pdata_thd builtin : Nat) : Nat := if pdata_thd ≠ 0 then pdata_thd else builtin

/-- The two-byte read of `proximity_open_cancelation` into a `u16` cell
(little endian): the return value of `f_op->read` and the cell afterwards. -/
def cal_file_read (cell : Nat) : List Nat → Int × Nat
  | b0 :: b1 :: _ => (2, b0 % 2 ^ 8 + 2 ^ 8 * (b1 % 2 ^ 8))
  | [b0] => (1, b0 % 2 ^ 8 + 2 ^ 8 * (cell / 2 ^ 8 % 2 ^ 8))
  | [] => (0, cell)

/-- The function `proximity_open_cancelation`. -/
def proximity_open_cancelation (d : Sys) : Int × Sys :=
  if d.cal_open_err < 0 then (d.cal_open_err, emit [Event.filp_open false] d)
  else
    let r := cal_file_read (d.ps_reg_init_setting PS_CANCEL CMD) d.cal_file
    let err : Int := if r.1 ≠ 2 then - EIO else r.1
    let t1 := set_cell d.ps_reg_init_setting PS_CANCEL CMD r.2
    let t2 :=
      if t1 PS_CANCEL CMD ≠ 0 then
        let t := set_cell t1 PS_THD_HIGH CMD (thd_or d.cm36686.pdata.cancel_hi_thd CANCEL_HI_THD)
        set_cell t PS_THD_LOW CMD (thd_or d.cm36686.pdata.cancel_low_thd CANCEL_LOW_THD)
      else t1
    (err, emit [Event.filp_open false, Event.file_read, Event.filp_close]
      { d with ps_reg_init_setting := t2 })

/-- The first half of `proximity_store_cancelation`: the new contents of the
cancel, high-threshold and low-threshold rows. -/
def proximity_store_cancelation_select (do_calib : Bool) (d : Sys) : Sys :=
  if do_calib then
    let r := cm36686_i2c_read_word REG_PS_DATA 0 d
    let d1 := r.2
    let t1 := set_cell d1.ps_reg_init_setting PS_CANCEL CMD r.1.2
    let t2 := set_cell t1 PS_THD_HIGH CMD (thd_or d1.cm36686.pdata.cancel_hi_thd CANCEL_HI_THD)
    let t3 := set_cell t2 PS_THD_LOW CMD (thd_or d1.cm36686.pdata.cancel_low_thd DEFUALT_LOW_THD)
    { d1 with ps_reg_init_setting := t3 }
  else
    let t1 := set_cell d.ps_reg_init_setting PS_CANCEL CMD 0
    let t2 := set_cell t1 PS_THD_HIGH CMD (thd_or d.cm36686.pdata.default_hi_thd DEFUALT_HI_THD)
    let t3 := set_cell t2 PS_THD_LOW CMD (thd_or d.cm36686.pdata.default_low_thd DEFUALT_LOW_THD)
    { d with ps_reg_init_setting := t3 }

/-- The middle of `proximity_store_cancelation`: the three register writes,
whose errors are only logged. -/
def proximity_store_cancelation_write (d : Sys) : Sys :=
  let d1 := (cm36686_i2c_write_word REG_PS_CANC (d.ps_reg_init_setting PS_CANCEL CMD) d).2
  let d2 := (cm36686_i2c_write_word REG_PS_THD_HIGH (d1.ps_reg_init_setting PS_THD_HIGH CMD) d1).2
  (cm36686_i2c_write_word REG_PS_THD_LOW (d2.ps_reg_init_setting PS_THD_LOW CMD) d2).2

/-- The end of `proximity_store_cancelation`: the cancel value is saved to the
cancelation file. -/
def proximity_store_cancelation_save (do_calib : Bool) (d : Sys) : Int × Sys :=
  if d.cal_create_err < 0 then (d.cal_create_err, emit [Event.filp_open true] d)
  else
    let v := d.ps_reg_init_setting PS_CANCEL CMD
    let err : Int := if d.cal_write_ret ≠ 2 then - EIO else d.cal_write_ret
    let d1 := emit [Event.filp_open true, Event.file_write v, Event.filp_close]
      { d with cal_file := if d.cal_write_ret = 2 then [v % 2 ^ 8, v / 2 ^ 8 % 2 ^ 8]
                           else if d.cal_write_ret = 1 then [v % 2 ^ 8] else [] }
    (err, if ¬ do_calib then emit [Event.msleep 150] d1 else d1)

/-- The function `proximity_store_cancelation`. -/
def proximity_store_cancelation (do_calib : Bool) (d : Sys) : Int × Sys :=
  proximity_store_cancelation_save do_calib
    (proximity_store_cancelation_write (proximity_store_cancelation_select do_calib d))

/-- The function `proximity_cancel_store`. -/
def proximity_cancel_store (buf : List Char) (size : Nat) (d : Sys) : Int × Sys :=
  if sysfs_streq (cstring buf) "1".toList then
    match proximity_store_cancelation true d with
    | (err, d1) => if err < 0 then (err, d1) else (size, d1)
  else if sysfs_streq (cstring buf) "0".toList then
    match proximity_store_cancelation false d with
    | (err, d1) => if err < 0 then (err, d1) else (size, d1)
  else (-EINVAL, d)

/-- The function `proximity_cancel_show`: the text written to `buf`. -/
def proximity_cancel_show (d : Sys) : String :=
  toString (d.ps_reg_init_setting PS_CANCEL CMD) ++ "," ++
  toString (d.ps_reg_init_setting PS_THD_HIGH CMD) ++ "," ++
  toString (d.ps_reg_init_setting PS_THD_LOW CMD) ++ "\n"

/-! ## Proximity sensor enable -/

/-- The loop `for (i = 0; i < PS_REG_NUM; i++)` of `proximity_enable_store`,
`n` iterations from row `i` on; the result of each write is dropped. -/
def ps_reg_init_loop : Nat → Nat → Sys → Sys
  | 0, _, d => d
  | n + 1, i, d =>
    ps_reg_init_loop n (i + 1)
      (cm36686_i2c_write_word (d.ps_reg_init_setting i REG_ADDR)
        (d.ps_reg_init_setting i CMD) d).2

/-- The first statements of the enable branch of `proximity_enable_store`:
the enable bit is set, then sensor and LED are powered. -/
def proximity_power_up (d : Sys) : Sys :=
  let d1 := { d with cm36686 :=
    { d.cm36686 with power_state := set_bits8 d.cm36686.power_state PROXIMITY_ENABLED } }
  let d2 := if d1.cm36686.cm36686_proxi_vddpower then emit [Event.proxi_vddpower true] d1 else d1
  if d2.cm36686.pdata.cm36686_led_on then emit [Event.led_on true, Event.msleep 20] d2 else d2

/-- The part of `proximity_enable_store` under `power_lock`. -/
def proximity_enable_store_locked (new_value : Bool) (d : Sys) : Sys :=
  if new_value ∧ ¬ has_bits d.cm36686.power_state PROXIMITY_ENABLED then
    let d3 := proximity_power_up d
    let d4 := (proximity_open_cancelation d3).2
    let d5 := ps_reg_init_loop PS_REG_NUM 0 d4
    let val := d5.gpio d5.gpio_reads % 2 ^ 8
    emit [Event.gpio_get_value d5.cm36686.pdata.irq, Event.input_report_abs val,
          Event.input_sync InputDev.proximity_input_dev, Event.enable_irq,
          Event.enable_irq_wake]
      { d5 with gpio_reads := d5.gpio_reads + 1 }
  else if ¬ new_value ∧ has_bits d.cm36686.power_state PROXIMITY_ENABLED then
    let d1 := { d with cm36686 :=
      { d.cm36686 with power_state := clear_bits8 d.cm36686.power_state PROXIMITY_ENABLED } }
    let d2 := emit [Event.disable_irq_wake, Event.disable_irq] d1
    let d3 := (cm36686_i2c_write_word REG_PS_CONF1 0x0001 d2).2
    let d4 := if d3.cm36686.pdata.cm36686_led_on then emit [Event.led_on false] d3 else d3
    if d4.cm36686.cm36686_proxi_vddpower then emit [Event.proxi_vddpower false] d4 else d4
  else d

/-- The function `proximity_enable_store`. -/
def proximity_enable_store (buf : List Char) (size : Nat) (d : Sys) : Int × Sys :=
  if sysfs_streq (cstring buf) "1".toList then (size, proximity_enable_store_locked true d)
  else if sysfs_streq (cstring buf) "0".toList then
    (size, proximity_enable_store_locked false d)
  else (-EINVAL, d)

/-- The function `proximity_enable_show`: the text written to `buf`. -/
def proximity_enable_show (d : Sys) : String :=
  sprintf_line (if has_bits d.cm36686.power_state PROXIMITY_ENABLED then 1 else 0)

/-- The part of `proximity_avg_store` under `power_lock`. -/
def proximity_avg_store_locked (new_value : Bool) (d : Sys) : Sys :=
  if new_value then
    let d3 :=
      if ¬ has_bits d.cm36686.power_state PROXIMITY_ENABLED then
        let d1 := if d.cm36686.cm36686_proxi_vddpower
          then emit [Event.proxi_vddpower true] d else d
        let d2 := if d1.cm36686.pdata.cm36686_led_on
          then emit [Event.led_on true, Event.msleep 20] d1 else d1
        (cm36686_i2c_write_word REG_PS_CONF1 (d2.ps_reg_init_setting PS_CONF1 CMD) d2).2
      else d
    emit [Event.hrtimer_start Timer.prox_timer d3.cm36686.prox_poll_delay] d3
  else
    let d1 := emit [Event.hrtimer_cancel Timer.prox_timer,
                    Event.cancel_work_sync Work.work_prox] d
    if ¬ has_bits d1.cm36686.power_state PROXIMITY_ENABLED then
      let d2 := (cm36686_i2c_write_word REG_PS_CONF1 0x0001 d1).2
      let d3 := if d2.cm36686.pdata.cm36686_led_on then emit [Event.led_on false] d2 else d2
      if d3.cm36686.cm36686_proxi_vddpower then emit [Event.proxi_vddpower false] d3 else d3
    else d1

/-- The function `proximity_avg_store`. -/
def proximity_avg_store (buf : List Char) (size : Nat) (d : Sys) : Int × Sys :=
  if sysfs_streq (cstring buf) "1".toList then (size, proximity_avg_store_locked true d)
  else if sysfs_streq (cstring buf) "0".toList then (size, proximity_avg_store_locked false d)
  else (-EINVAL, d)

/-! ## Proximity thresholds -/

/-- The common body of `proximity_thresh_high_store` and
`proximity_thresh_low_store`, which differ in the table row and the register
only. -/
def proximity_thresh_store (row reg : Nat) (buf : List Char) (size : Nat) (d : Sys) :
    Int × Sys :=
  let thresh_value :=
    match kstrtou16 (cstring buf) with
    | Except.ok v => v
    | Except.error _ => d.ps_reg_init_setting row CMD
  if thresh_value > 2 then
    let d1 := { d with ps_reg_init_setting := set_cell d.ps_reg_init_setting row CMD thresh_value }
    let d2 := (cm36686_i2c_write_word reg (d1.ps_reg_init_setting row CMD) d1).2
    (size, emit [Event.msleep 150] d2)
  else (size, d)

/-- The function `proximity_thresh_high_store`. -/
def proximity_thresh_high_store (buf : List Char) (size : Nat) (d : Sys) : Int × Sys :=
  proximity_thresh_store PS_THD_HIGH REG_PS_THD_HIGH buf size d

/-- The function `proximity_thresh_low_store`. -/
def proximity_thresh_low_store (buf : List Char) (size : Nat) (d : Sys) : Int × Sys :=
  proximity_thresh_store PS_THD_LOW REG_PS_THD_LOW buf size d

/-! ## Interrupt, polling, power management -/

/-- The function `cm36686_irq_thread_fn`. -/
def cm36686_irq_thread_fn (d : Sys) : Int × Sys :=
  let val := d.gpio d.gpio_reads % 2 ^ 8
  let d1 := emit [Event.gpio_get_value d.cm36686.pdata.irq]
    { d with gpio_reads := d.gpio_reads + 1 }
  let d2 := (cm36686_i2c_read_word REG_PS_DATA 0 d1).2
  let d3 :=
    if has_bits d2.cm36686.power_state PROXIMITY_ENABLED then
      emit [Event.input_report_abs val, Event.input_sync InputDev.proximity_input_dev] d2
    else d2
  (IRQ_HANDLED, emit [Event.wake_lock_timeout 3] d3)

/-- The local variables of `proxsensor_get_avg_val`. -/
structure avg_locals where
  min : Int := 0
  max : Int := 0
  avg : Int := 0
  ps_data : Nat := 0
deriving DecidableEq, Repr

/-- The loop `for (i = 0; i < PROX_READ_NUM; i++)` of `proxsensor_get_avg_val`,
`n` iterations from index `i` on.  The accumulator is an `int`; it stays far
below `2^31` (40 samples of 16 bits). -/
def proxsensor_get_avg_loop : Nat → Nat → avg_locals → Sys → avg_locals × Sys
  | 0, _, l, d => (l, d)
  | n + 1, i, l, d =>
    let r := cm36686_i2c_read_word REG_PS_DATA l.ps_data (emit [Event.msleep 40] d)
    let ps_data := r.1.2
    let avg := l.avg + ps_data
    let min : Int := if i = 0 then ps_data else if (ps_data : Int) < l.min then ps_data else l.min
    let max : Int := if (ps_data : Int) > l.max then ps_data else l.max
    proxsensor_get_avg_loop n (i + 1) { min := min, max := max, avg := avg, ps_data := ps_data } r.2

/-- The function `proxsensor_get_avg_val`. -/
def proxsensor_get_avg_val (d : Sys) : Sys :=
  let r := proxsensor_get_avg_loop PROX_READ_NUM 0 {} d
  let l := r.1
  let avg := Int.tdiv l.avg (PROX_READ_NUM : Int)
  { r.2 with cm36686 := { r.2.cm36686 with
      avg := fun k => if k = 0 then l.min else if k = 1 then avg else if k = 2 then l.max
                      else r.2.cm36686.avg k } }

/-- The function `cm36686_suspend`. -/
def cm36686_suspend (d : Sys) : Int × Sys :=
  if has_bits d.cm36686.power_state LIGHT_ENABLED then (0, cm36686_light_disable d) else (0, d)

/-- The function `cm36686_resume`. -/
def cm36686_resume (d : Sys) : Int × Sys :=
  if has_bits d.cm36686.power_state LIGHT_ENABLED then (0, cm36686_light_enable d) else (0, d)

/-! ## Light polling -/

/-- The function `cm36686_work_func_light`.  A failed read leaves the field
it reads into as it was.  The reported values are `int` sums of a `u16` and
1, so they do not wrap. -/
def cm36686_work_func_light (d : Sys) : Sys :=
  let r1 := cm36686_i2c_read_word REG_ALS_DATA d.cm36686.als_data d
  let d1 := { r1.2 with cm36686 := { r1.2.cm36686 with als_data := r1.1.2 } }
  let r2 := cm36686_i2c_read_word REG_WHITE_DATA d1.cm36686.white_data d1
  let d2 := { r2.2 with cm36686 := { r2.2.cm36686 with white_data := r2.1.2 } }
  let d3 := emit [Event.input_report_rel RelCode.REL_DIAL (d2.cm36686.als_data + 1),
                  Event.input_report_rel RelCode.REL_WHEEL (d2.cm36686.white_data + 1),
                  Event.input_sync InputDev.light_input_dev] d2
  if d3.cm36686.count_log_time ≥ LIGHT_LOG_TIME then
    emit [Event.log_light d3.cm36686.als_data d3.cm36686.white_data]
      { d3 with cm36686 := { d3.cm36686 with count_log_time := 0 } }
  else
    { d3 with cm36686 := { d3.cm36686 with count_log_time := d3.cm36686.count_log_time + 1 } }

/-! ## The remaining sysfs handlers -/

/-- Modelled from the spec: the kernel library function `_kstrtoull` with
base 10 (`lib/kstrtox.c`, not among the sources): at least one decimal digit,
an optional single newline, then the end of the string; `-ERANGE` when the
value does not fit 64 bits, `-EINVAL` for a malformed string. -/
def _kstrtoull (s : List Char) : Except Int Nat :=
  let digits := s.takeWhile Char.isDigit
  let rest := s.dropWhile Char.isDigit
  let v := parse_decimal digits
  if v ≥ 2 ^ 64 then Except.error (-ERANGE)
  else if digits = [] then Except.error (-EINVAL)
  else if rest ≠ [] ∧ rest ≠ ['\n'] then Except.error (-EINVAL)
  else Except.ok v

/-- Modelled from the spec: the kernel library function `kstrtoll` with base
10 (`lib/kstrtox.c`, not among the sources; `strict_strtoll` is its old
name): an optional sign, then as `_kstrtoull`; the value has to fit a signed
64-bit number, and in this kernel a negative sign with the value 0 is
refused with `-ERANGE` as well. -/
def kstrtoll (s : List Char) : Except Int Int :=
  match s with
  | '-' :: t =>
    match _kstrtoull t with
    | Except.error e => Except.error e
    | Except.ok tmp =>
      if tmp = 0 ∨ tmp > 2 ^ 63 then Except.error (-ERANGE) else Except.ok (-(tmp : Int))
  | _ =>
    let s1 := match s with
      | '+' :: t => t
      | _ => s
    match _kstrtoull s1 with
    | Except.error e => Except.error e
    | Except.ok tmp => if tmp ≥ 2 ^ 63 then Except.error (-ERANGE) else Except.ok (tmp : Int)

/-- The function `cm36686_poll_delay_store`. -/
def cm36686_poll_delay_store (buf : List Char) (size : Nat) (d : Sys) : Int × Sys :=
  match kstrtoll (cstring buf) with
  | Except.error err => (err, d)
  | Except.ok new_delay =>
    if new_delay ≠ d.cm36686.light_poll_delay then
      let d1 := { d with cm36686 := { d.cm36686 with light_poll_delay := new_delay } }
      if has_bits d1.cm36686.power_state LIGHT_ENABLED then
        (size, cm36686_light_enable (cm36686_light_disable d1))
      else (size, d1)
    else (size, d)

/-- The function `proximity_state_show` (also behind `raw_data`): the text
written to `buf` and the next state. -/
def proximity_state_show (d : Sys) : String × Sys :=
  let d3 :=
    if ¬ has_bits d.cm36686.power_state PROXIMITY_ENABLED then
      let d1 := if d.cm36686.cm36686_proxi_vddpower
        then emit [Event.proxi_vddpower true] d else d
      let d2 := if d1.cm36686.pdata.cm36686_led_on
        then emit [Event.led_on true, Event.msleep 20] d1 else d1
      (cm36686_i2c_write_word REG_PS_CONF1 (d2.ps_reg_init_setting PS_CONF1 CMD) d2).2
    else d
  let r := cm36686_i2c_read_word REG_PS_DATA (d.ps_data_uninit % 2 ^ 16) d3
  let ps_data := r.1.2
  let d4 := r.2
  let d7 :=
    if ¬ has_bits d4.cm36686.power_state PROXIMITY_ENABLED then
      let d5 := (cm36686_i2c_write_word REG_PS_CONF1 0x0001 d4).2
      let d6 := if d5.cm36686.pdata.cm36686_led_on then emit [Event.led_on false] d5 else d5
      if d6.cm36686.cm36686_proxi_vddpower then emit [Event.proxi_vddpower false] d6 else d6
    else d4
  (sprintf_line ps_data, d7)

/-- The handlers of the sysfs attributes of the driver.  `show_only` stands
for the show handlers that only format fields of the driver data or of the
table (`cm36686_poll_delay_show`, `light_enable_show`, `proximity_enable_show`,
`proximity_cancel_show`, `proximity_avg_show`, `proximity_thresh_high_show`,
`proximity_thresh_low_show`, `light_lux_show`, `light_data_show`,
`cm36686_vendor_show`, `cm36686_name_show`). -/
inductive SysfsOp where
  | poll_delay_store (buf : List Char) (size : Nat)
  | light_enable_store (buf : List Char) (size : Nat)
  | proximity_enable_store (buf : List Char) (size : Nat)
  | proximity_cancel_store (buf : List Char) (size : Nat)
  | proximity_avg_store (buf : List Char) (size : Nat)
  | proximity_thresh_high_store (buf : List Char) (size : Nat)
  | proximity_thresh_low_store (buf : List Char) (size : Nat)
  | proximity_state_show
  | show_only
deriving DecidableEq, Repr

/-- The state after one sysfs operation. -/
def sysfs_step (op : SysfsOp) (d : Sys) : Sys :=
  match op with
  | SysfsOp.poll_delay_store buf size => (cm36686_poll_delay_store buf size d).2
  | SysfsOp.light_enable_store buf size => (light_enable_store buf size d).2
  | SysfsOp.proximity_enable_store buf size => (proximity_enable_store buf size d).2
  | SysfsOp.proximity_cancel_store buf size => (proximity_cancel_store buf size d).2
  | SysfsOp.proximity_avg_store buf size => (proximity_avg_store buf size d).2
  | SysfsOp.proximity_thresh_high_store buf size => (proximity_thresh_high_store buf size d).2
  | SysfsOp.proximity_thresh_low_store buf size => (proximity_thresh_low_store buf size d).2
  | SysfsOp.proximity_state_show => (proximity_state_show d).2
  | SysfsOp.show_only => d

/-- The state after a sequence of sysfs operations, first one first. -/
def sysfs_run : List SysfsOp → Sys → Sys
  | [], d => d
  | op :: ops, d => sysfs_run ops (sysfs_step op d)

/-! ## Vocabulary of the statements -/

/-- The bus is healthy: client and adapter are there and no bus call fails. -/
def HealthyBus (d : Sys) : Prop :=
  d.cm36686.i2c_client = true ∧ d.cm36686.adapter = true ∧ ∀ n, 0 ≤ d.xfer n

/-- The system after `n` bus calls, each recorded as `e`; nothing else changes. -/
def after_attempts (n : Nat) (e : Event) (d : Sys) : Sys :=
  { d with calls := d.calls + n, trace := d.trace ++ List.replicate n e }

/-- The word writes handed to the bus in a trace, as `(command, val)` pairs, oldest first. -/
def smbus_writes : List Event → List (Nat × Nat)
  | [] => []
  | Event.smbus_write_word c v :: es => (c, v) :: smbus_writes es
  | _ :: es => smbus_writes es

/-- The values reported as `ABS_DISTANCE` in a trace, oldest first. -/
def reported_distances : List Event → List Nat
  | [] => []
  | Event.input_report_abs v :: es => v :: reported_distances es
  | _ :: es => reported_distances es

/-- The inputs that the enable and calibration stores take for "on". -/
def on_inputs : List (List Char) := ["1".toList, "1\n".toList]

/-- The inputs that the enable and calibration stores take for "off". -/
def off_inputs : List (List Char) := ["0".toList, "0\n".toList]

/-- The four thresholds of the platform data are 16-bit values, as the
registers they are written to. -/
def PdataU16 (p : cm36686_platform_data) : Prop :=
  p.default_hi_thd < 2 ^ 16 ∧ p.default_low_thd < 2 ^ 16 ∧
  p.cancel_hi_thd < 2 ^ 16 ∧ p.cancel_low_thd < 2 ^ 16

/-- The values of `ps_data` after each of `n` polls of `proxsensor_get_avg_val`
(a sleep of 40 ms, then a read of `REG_PS_DATA` into `ps_data`), from
`ps_data = v` on. -/
def ps_samples : Nat → Nat → Sys → List Nat
  | 0, _, _ => []
  | n + 1, v, d =>
    let r := cm36686_i2c_read_word REG_PS_DATA v (emit [Event.msleep 40] d)
    r.1.2 :: ps_samples n r.1.2 r.2

/-- The cancel value that `proximity_store_cancelation` selects: on calibrate
the contents of `ps_data` after the read of `REG_PS_DATA` (the word read, or
the initial 0 when the read fails), on reset 0. -/
def selected_cancel (do_calib : Bool) (d : Sys) : Nat :=
  if do_calib then (cm36686_i2c_read_word REG_PS_DATA 0 d).1.2 else 0

/-- The high threshold that goes with a calibration (`do_calib`) or a reset:
the one of the platform data if non-zero, else 0x0022. -/
def selected_hi_thd (do_calib : Bool) (p : cm36686_platform_data) : Nat :=
  if do_calib then (if p.cancel_hi_thd ≠ 0 then p.cancel_hi_thd else 0x0022)
  else (if p.default_hi_thd ≠ 0 then p.default_hi_thd else 0x0022)

/-- The low threshold that goes with a calibration (`do_calib`) or a reset:
the one of the platform data if non-zero, else 0x001E. -/
def selected_low_thd (do_calib : Bool) (p : cm36686_platform_data) : Nat :=
  if do_calib then (if p.cancel_low_thd ≠ 0 then p.cancel_low_thd else 0x001E)
  else (if p.default_low_thd ≠ 0 then p.default_low_thd else 0x001E)

/-- What a threshold store does with an input, for the table row `row` and
the register `reg`: it always returns `size`; a value `v > 2` that parses is
stored in the row and written to the register (then a 150 ms sleep); a value
`v ≤ 2` that parses changes nothing at all; an input that does not parse
leaves the table as it is, and the stored threshold takes the place of the
parsed value (so it is written to the register again when it is above 2). -/
def ThreshStoreSpec (store : List Char → Nat → Sys → Int × Sys) (row reg : Nat)
    (buf : List Char) (size : Nat) (d : Sys) : Prop :=
  (store buf size d).1 = size ∧
  (∀ v, kstrtou16 (cstring buf) = Except.ok v → 2 < v →
    (store buf size d).2.ps_reg_init_setting row CMD = v ∧
    (∀ i j, ¬ (i = row ∧ j = CMD) →
      (store buf size d).2.ps_reg_init_setting i j = d.ps_reg_init_setting i j) ∧
    ∃ n, n ≤ 3 ∧
      (store buf size d).2.trace =
        d.trace ++ List.replicate n (Event.smbus_write_word reg v) ++ [Event.msleep 150] ∧
      (d.cm36686.i2c_client = true → d.cm36686.adapter = true → 1 ≤ n) ∧
      (HealthyBus d → n = 1)) ∧
  (∀ v, kstrtou16 (cstring buf) = Except.ok v → v ≤ 2 → (store buf size d).2 = d) ∧
  (∀ e, kstrtou16 (cstring buf) = Except.error e →
    (store buf size d).2.ps_reg_init_setting = d.ps_reg_init_setting ∧
    (d.ps_reg_init_setting row CMD ≤ 2 → (store buf size d).2 = d) ∧
    (2 < d.ps_reg_init_setting row CMD →
      ∃ n, n ≤ 3 ∧
        (store buf size d).2.trace =
          d.trace ++
            List.replicate n (Event.smbus_write_word reg (d.ps_reg_init_setting row CMD)) ++
            [Event.msleep 150]))

/-- The table `ps_reg_init_setting` once the cancelation file has been loaded. -/
def loaded_table (d : Sys) : Nat → Nat → Nat :=
  (proximity_open_cancelation d).2.ps_reg_init_setting

/-- The rows `i`, `i + 1`, ... of a table as `(address, value)` pairs, the
`k`-th of them repeated `ns[k]` times. -/
def playback (t : Nat → Nat → Nat) : List Nat → Nat → List (Nat × Nat)
  | [], _ => []
  | k :: ns, i => List.replicate k (t i REG_ADDR, t i CMD) ++ playback t ns (i + 1)

/-- The address column of a table is the one `ps_reg_init_setting` starts with. -/
def AddrColumnIntact (t : Nat → Nat → Nat) : Prop :=
  ∀ i, t i REG_ADDR = ps_reg_init_setting_init i REG_ADDR

/-- The state after `n` invocations of `cm36686_work_func_light`. -/
def light_polls : Nat → Sys → Sys
  | 0, d => d
  | n + 1, d => cm36686_work_func_light (light_polls n d)

/-- The number of light log lines in a trace. -/
def light_logs : List Event → Nat
  | [] => 0
  | Event.log_light _ _ :: es => light_logs es + 1
  | _ :: es => light_logs es

/-- The relative-axis values reported in a trace, oldest first. -/
def reported_rel : List Event → List (RelCode × Nat)
  | [] => []
  | Event.input_report_rel c v :: es => (c, v) :: reported_rel es
  | _ :: es => reported_rel es

/-- The word assembled little-endian from the two bytes of a read buffer. -/
def word_of (data : Nat × Nat) : Nat := data.1 % 2 ^ 8 + 256 * (data.2 % 2 ^ 8)

/-- A state with `count_log_time` put to 0. -/
def log_time_zero (d : Sys) : Sys :=
  { d with cm36686 := { d.cm36686 with count_log_time := 0 } }

/-- A state with `power_state` put to 0, as `kzalloc` leaves it. -/
def power_state_zero (d : Sys) : Sys :=
  { d with cm36686 := { d.cm36686 with power_state := 0 } }

end Cm36686

/-! # Theorems -/

namespace Sr030pc50

/-! ## Register playback -/

theorem i2c_writes_append (l1 l2 : List Event) :
    i2c_writes (l1 ++ l2) = i2c_writes l1 ++ i2c_writes l2 := by
  induction l1 with
  | nil => rfl
  | cons e es ih => cases e <;> simp [i2c_writes, ih]

theorem i2c_write_of_busOk (h : Header) (a v : Nat) (d : Dev) (hb : BusOk d) :
    sr030pc50_i2c_write h a v d
      = (0, { d with calls := d.calls + 1, trace := d.trace ++ [Event.i2c_write a v] }) := by
  obtain ⟨ha, hx⟩ := hb
  simp [sr030pc50_i2c_write, sr030pc50_i2c_write_loop, ha, hx]

theorem busOk_msleep (m : Nat) (d : Dev) (hb : BusOk d) : BusOk (msleep_debug m d) := by
  unfold msleep_debug
  split
  · exact hb
  · exact hb

theorem write_regs_of_busOk (h : Header) (regs : List Nat) :
    ∀ d : Dev, BusOk d →
      (sr030pc50_write_regs h regs d).1 = 0 ∧
      BusOk (sr030pc50_write_regs h regs d).2 ∧
      (sr030pc50_write_regs h regs d).2.state = d.state ∧
      (sr030pc50_write_regs h regs d).2.sr030pc50_ctrls = d.sr030pc50_ctrls ∧
      (sr030pc50_write_regs h regs d).2.stats_init = d.stats_init ∧
      (sr030pc50_write_regs h regs d).2.trace = d.trace ++ regs.filterMap (playback_entry h) := by
  induction regs with
  | nil => intro d hb; simp [sr030pc50_write_regs, hb]
  | cons r rs ih =>
    intro d hb
    by_cases hd : h.DELAY_SEQ = (r / 256) % 256
    · by_cases hv : r % 256 = 0xFF
      · have := ih d hb
        simpa [sr030pc50_write_regs, playback_entry, hd, hv] using this
      · by_cases h0 : r % 256 = 0
        · have := ih d hb
          simpa [sr030pc50_write_regs, playback_entry, hd, hv, h0, msleep_debug] using this
        · have := ih (msleep_debug (r % 256 * 10) d) (busOk_msleep _ d hb)
          simpa [sr030pc50_write_regs, playback_entry, hd, hv, h0, msleep_debug] using this
    · have := ih ({ d with calls := d.calls + 1, trace := d.trace ++
        [Event.i2c_write ((r / 256) % 256) (r % 256)] }) hb
      simpa [sr030pc50_write_regs, playback_entry, hd, i2c_write_of_busOk h _ _ d hb] using this

theorem i2c_writes_playback (h : Header) (regs : List Nat) :
    i2c_writes (regs.filterMap (playback_entry h))
      = regset_pairs (regs.filter (fun r => decide (h.DELAY_SEQ ≠ (r / 256) % 256))) := by
  induction regs with
  | nil => rfl
  | cons r rs ih =>
    by_cases hd : h.DELAY_SEQ = (r / 256) % 256
    · by_cases hv : r % 256 = 0xFF ∨ r % 256 = 0
      · simpa [List.filterMap_cons, playback_entry, hd, hv] using ih
      · simpa [List.filterMap_cons, playback_entry, hd, hv, i2c_writes] using ih
    · simp only [regset_pairs] at ih
      simp [List.filterMap_cons, playback_entry, hd, i2c_writes, regset_pairs, ih]

theorem write_regs_trace_of_busOk (h : Header) (regs : List Nat) (d : Dev)
    (hb : BusOk d) :
    (sr030pc50_write_regs h regs d).1 = 0 ∧
    (sr030pc50_write_regs h regs d).2.trace = d.trace ++ regs.filterMap (playback_entry h) ∧
    i2c_writes (sr030pc50_write_regs h regs d).2.trace
      = i2c_writes d.trace
        ++ regset_pairs (regs.filter (fun r => decide (h.DELAY_SEQ ≠ (r / 256) % 256))) := by
  obtain ⟨h1, _, _, _, _, h2⟩ := write_regs_of_busOk h regs d hb
  refine ⟨h1, h2, ?_⟩
  rw [h2, i2c_writes_append, i2c_writes_playback]

theorem busOk_default : BusOk ({} : Dev) := ⟨rfl, fun _ => rfl⟩

set_option maxRecDepth 20000 in
/-- C1, as stated, fails: on a healthy bus the one-entry table `[0xFF0A]`
(high byte `DELAY_SEQ = 0xFF`) makes `sr030pc50_write_regs` return 0 after a
100 ms sleep without any I2C write, so the writes issued are not the table
read verbatim; and whatever byte `DELAY_SEQ` is, the entry with that high
byte is not written. -/
theorem write_regs_skips_delay_entries :
    BusOk ({} : Dev) ∧
    (sr030pc50_write_regs {} [0xFF0A] {}).1 = 0 ∧
    (sr030pc50_write_regs {} [0xFF0A] {}).2.trace = [Event.sleep 100] ∧
    i2c_writes (sr030pc50_write_regs {} [0xFF0A] {}).2.trace
      ≠ i2c_writes ({} : Dev).trace ++ regset_pairs [0xFF0A] ∧
    (∀ b ∈ List.range 256,
      i2c_writes (sr030pc50_write_regs { DELAY_SEQ := b } [b * 256 + 1] {}).2.trace = []) := by
  refine ⟨busOk_default, by decide, by decide, by decide, by decide⟩

/-- C1, amended: when every I2C write succeeds, `sr030pc50_write_regs`
returns 0 and hands the table to the environment entry by entry, in table
order: an entry whose high byte is `DELAY_SEQ` is a sleep (ten times the low
byte in ms, nothing for `0x00`/`0xFF`) and is not written; every other entry
is exactly one register write with address = high byte and value = low byte.
So the I2C writes issued are the non-delay entries read verbatim. -/
theorem write_regs_plays_back_table (h : Header) (regs : List Nat) (d : Dev) (hb : BusOk d) :
    (sr030pc50_write_regs h regs d).1 = 0 ∧
    (sr030pc50_write_regs h regs d).2.trace = d.trace ++ regs.filterMap (playback_entry h) ∧
    i2c_writes (sr030pc50_write_regs h regs d).2.trace
      = i2c_writes d.trace
        ++ regset_pairs (regs.filter (fun r => decide (h.DELAY_SEQ ≠ (r / 256) % 256))) := by
  exact write_regs_trace_of_busOk h regs d hb

theorem write_regs_plays_back_table_witness :
    BusOk ({} : Dev) ∧
    (sr030pc50_write_regs {} [0x0320, 0xFF0A, 0x1001] {}).1 = 0 ∧
    (sr030pc50_write_regs {} [0x0320, 0xFF0A, 0x1001] {}).2.trace
      = [Event.i2c_write 0x03 0x20, Event.sleep 100, Event.i2c_write 0x10 0x01] ∧
    i2c_writes (sr030pc50_write_regs {} [0x0320, 0xFF0A, 0x1001] {}).2.trace
      = [(0x03, 0x20), (0x10, 0x01)] :=
  ⟨busOk_default, write_regs_plays_back_table {} [0x0320, 0xFF0A, 0x1001] {} busOk_default⟩

/-- C2: `sr030pc50_set_from_table` is a bounds-checked lookup.  An index
below 0 or at least `table_size` gives `-EINVAL` and leaves everything
(trace included) as it was; an in-range index whose slot has a NULL register
list gives `-EFAULT` and leaves everything as it was; an in-range index with
a non-burst list, on a healthy bus, plays back exactly that slot's list
(the playback of `sr030pc50_write_regs`) and returns 0. -/
theorem set_from_table_bounds_checked (h : Header) (table : List regset_table)
    (index : Int) (d : Dev) :
    ((index < 0 ∨ (table.length : Int) ≤ index) →
      sr030pc50_set_from_table h table index d = (-EINVAL, d)) ∧
    (∀ t, 0 ≤ index → table.get? index.toNat = some t → t.reg = none →
      sr030pc50_set_from_table h table index d = (-EFAULT, d)) ∧
    (∀ t regs, 0 ≤ index → table.get? index.toNat = some t → t.reg = some regs →
      t.burst = false → BusOk d →
      sr030pc50_set_from_table h table index d = (0, (sr030pc50_write_regs h regs d).2) ∧
      (sr030pc50_set_from_table h table index d).2.trace
        = d.trace ++ regs.filterMap (playback_entry h) ∧
      i2c_writes (sr030pc50_set_from_table h table index d).2.trace
        = i2c_writes d.trace
          ++ regset_pairs (regs.filter (fun r => decide (h.DELAY_SEQ ≠ (r / 256) % 256)))) := by
  refine ⟨?_, ?_, ?_⟩
  · intro hi
    have : index < 0 ∨ index ≥ (table.length : Int) := hi
    simp [sr030pc50_set_from_table, this]
  · intro t h0 ht hr
    have hlt : index.toNat < table.length := by
      rcases List.get?_eq_some.1 ht with ⟨hl, _⟩; exact hl
    have hn : ¬ (index < 0 ∨ index ≥ (table.length : Int)) := by omega
    simp only [sr030pc50_set_from_table, hn, ht, hr, if_false]
  · intro t regs h0 ht hr hbst hb
    have hlt : index.toNat < table.length := by
      rcases List.get?_eq_some.1 ht with ⟨hl, _⟩; exact hl
    have hn : ¬ (index < 0 ∨ index ≥ (table.length : Int)) := by omega
    obtain ⟨h1, h2, h3⟩ := write_regs_trace_of_busOk h regs d hb
    have hset : sr030pc50_set_from_table h table index d
        = (0, (sr030pc50_write_regs h regs d).2) := by
      simp only [sr030pc50_set_from_table, hn, ht, hr, hbst, if_false]
      have hnn : ¬ (sr030pc50_write_regs h regs d).1 < 0 := by rw [h1]; decide
      simp [hnn]
    rw [hset]
    exact ⟨rfl, h2, h3⟩

theorem set_from_table_bounds_checked_witness :
    sr030pc50_set_from_table {} [{ reg := some [0x0320] }, { reg := none }] 2 {}
      = (-EINVAL, {}) ∧
    sr030pc50_set_from_table {} [{ reg := some [0x0320] }, { reg := none }] 1 {}
      = (-EFAULT, {}) ∧
    (sr030pc50_set_from_table {} [{ reg := some [0x0320] }, { reg := none }] 0 {}).1 = 0 ∧
    (sr030pc50_set_from_table {} [{ reg := some [0x0320] }, { reg := none }] 0 {}).2.trace
      = [Event.i2c_write 0x03 0x20] :=
  have hw := set_from_table_bounds_checked {} [{ reg := some [0x0320] }, { reg := none }]
  ⟨(hw 2 {}).1 (Or.inr (by decide)),
   (hw 1 {}).2.1 { reg := none } (by decide) rfl rfl,
   by rw [((hw 0 {}).2.2 { reg := some [0x0320] } [0x0320] (by decide) rfl rfl rfl
        busOk_default).1],
   ((hw 0 {}).2.2 { reg := some [0x0320] } [0x0320] (by decide) rfl rfl rfl busOk_default).2.1⟩

/-! ## Frame lemmas: register I/O leaves the driver state alone -/

theorem sameDriver_refl (d : Dev) : SameDriver d d := ⟨rfl, rfl, rfl, rfl, rfl, rfl⟩

theorem sameDriver_trans {d d1 d2 : Dev} (h1 : SameDriver d d1) (h2 : SameDriver d1 d2) :
    SameDriver d d2 :=
  ⟨h2.1.trans h1.1, h2.2.1.trans h1.2.1, h2.2.2.1.trans h1.2.2.1,
   h2.2.2.2.1.trans h1.2.2.2.1, h2.2.2.2.2.1.trans h1.2.2.2.2.1,
   h2.2.2.2.2.2.trans h1.2.2.2.2.2⟩

theorem sameDriver_busOk {d d1 : Dev} (hs : SameDriver d d1) (hb : BusOk d) : BusOk d1 := by
  obtain ⟨_, _, _, a4, a5, _⟩ := hs
  exact ⟨a4.trans hb.1, fun n => by rw [a5]; exact hb.2 n⟩

theorem sameDriver_msleep (m : Nat) (d : Dev) : SameDriver d (msleep_debug m d) := by
  unfold msleep_debug
  split
  · exact sameDriver_refl d
  · exact ⟨rfl, rfl, rfl, rfl, rfl, rfl⟩

theorem sameDriver_i2c_write_loop (h : Header) (a v : Nat) :
    ∀ (retry : Nat) (d : Dev), SameDriver d (sr030pc50_i2c_write_loop h a v retry d).2 := by
  intro retry
  induction retry with
  | zero => intro d; exact sameDriver_refl d
  | succ n ih =>
    intro d
    rw [sr030pc50_i2c_write_loop]
    by_cases hx : d.xfer_ok d.calls = true
    · simp only [hx, if_true]
      exact ⟨rfl, rfl, rfl, rfl, rfl, rfl⟩
    · simp only [hx, if_false]
      refine sameDriver_trans ?_ (ih _)
      have hm := sameDriver_msleep h.POLL_TIME_MS
        { d with calls := d.calls + 1, trace := d.trace ++ [Event.i2c_write a v] }
      obtain ⟨a1, a2, a3, a4, a5, a6⟩ := hm
      exact ⟨a1, a2, a3, a4, a5, a6⟩

theorem sameDriver_i2c_write (h : Header) (a v : Nat) (d : Dev) :
    SameDriver d (sr030pc50_i2c_write h a v d).2 := by
  unfold sr030pc50_i2c_write
  by_cases ha : d.adapter = false
  · simp only [ha, if_true]; exact sameDriver_refl d
  · simp only [ha, if_false]
    have hl := sameDriver_i2c_write_loop h a v 5 d
    rcases hloop : sr030pc50_i2c_write_loop h a v 5 d with ⟨b, d1⟩
    rw [hloop] at hl
    cases b <;> exact hl

theorem sameDriver_write_regs (h : Header) (regs : List Nat) :
    ∀ d : Dev, SameDriver d (sr030pc50_write_regs h regs d).2 := by
  induction regs with
  | nil => intro d; exact sameDriver_refl d
  | cons r rs ih =>
    intro d
    rw [sr030pc50_write_regs]
    by_cases hd : h.DELAY_SEQ = (r / 256) % 256
    · simp only [hd, if_true]
      refine sameDriver_trans ?_ (ih _)
      split
      · exact sameDriver_msleep _ d
      · exact sameDriver_refl d
    · simp only [hd, if_false]
      have hw := sameDriver_i2c_write h ((r / 256) % 256) (r % 256) d
      rcases hres : sr030pc50_i2c_write h ((r / 256) % 256) (r % 256) d with ⟨err, d1⟩
      rw [hres] at hw
      by_cases he : err < 0
      · simp only [he, if_true]; exact hw
      · simp only [he, if_false]; exact sameDriver_trans hw (ih d1)

theorem sameDriver_set_from_table (h : Header) (table : List regset_table) (index : Int)
    (d : Dev) : SameDriver d (sr030pc50_set_from_table h table index d).2 := by
  unfold sr030pc50_set_from_table
  by_cases hi : index < 0 ∨ index ≥ (table.length : Int)
  · simp only [hi, if_true]; exact sameDriver_refl d
  · simp only [hi, if_false]
    rcases ht : table.get? index.toNat with _ | t
    · exact sameDriver_refl d
    · rcases hr : t.reg with _ | reg
      · simp only [hr]; exact sameDriver_refl d
      · simp only [hr]
        by_cases hb : t.burst = true
        · simp only [hb, if_true, sr030pc50_i2c_burst_write_list]
          split <;> exact sameDriver_refl d
        · simp only [hb, Bool.false_eq_true, if_false]
          have hw := sameDriver_write_regs h reg d
          rcases hres : sr030pc50_write_regs h reg d with ⟨err, d1⟩
          rw [hres] at hw
          by_cases he : err < 0
          · simp only [he, if_true]; exact hw
          · simp only [he, if_false]; exact hw

theorem set_from_table_state (h : Header) (table : List regset_table) (index : Int)
    (d : Dev) : (sr030pc50_set_from_table h table index d).2.state = d.state :=
  (sameDriver_set_from_table h table index d).1

theorem set_from_table_ctrls (h : Header) (table : List regset_table) (index : Int)
    (d : Dev) :
    (sr030pc50_set_from_table h table index d).2.sr030pc50_ctrls = d.sr030pc50_ctrls :=
  (sameDriver_set_from_table h table index d).2.1

theorem set_from_table_busOk (h : Header) (table : List regset_table) (index : Int)
    (d : Dev) (hb : BusOk d) : BusOk (sr030pc50_set_from_table h table index d).2 :=
  sameDriver_busOk (sameDriver_set_from_table h table index d) hb

theorem set_from_table_ok (h : Header) (table : List regset_table) (index : Int) (d : Dev)
    (hb : BusOk d) (h0 : 0 ≤ index) (t : regset_table) (regs : List Nat)
    (ht : table.get? index.toNat = some t) (hr : t.reg = some regs) :
    (sr030pc50_set_from_table h table index d).1 = 0 := by
  have hlt : index.toNat < table.length := by
    rcases List.get?_eq_some.1 ht with ⟨hl, _⟩; exact hl
  have hn : ¬ (index < 0 ∨ index ≥ (table.length : Int)) := by omega
  simp only [sr030pc50_set_from_table, hn, ht, hr, if_false]
  by_cases hbst : t.burst = true
  · simp [hbst, sr030pc50_i2c_burst_write_list]
  · simp only [hbst, Bool.false_eq_true, if_false]
    have h1 := (write_regs_of_busOk h regs d hb).1
    rcases hres : sr030pc50_write_regs h regs d with ⟨err, d1⟩
    rw [hres] at h1
    simp only at h1
    simp [h1]

/-! ## Frame lemmas: the control functions leave `runmode` alone -/

theorem set_sensor_mode_runmode (h : Header) (val : Int) (d : Dev) :
    (sr030pc50_set_sensor_mode h val d).2.state.runmode = d.state.runmode := by
  unfold sr030pc50_set_sensor_mode
  split_ifs <;> rfl

theorem set_frame_rate_loop_none (fps : Int) :
    ∀ table : List sr030pc50_fps, fps ∉ table.map (fun e => e.fps) →
      set_frame_rate_loop fps table = none := by
  intro table
  induction table with
  | nil => intro _; rfl
  | cons e es ih =>
    intro hn
    simp only [List.map_cons, List.mem_cons, not_or] at hn
    rw [set_frame_rate_loop, if_neg hn.1]
    exact ih hn.2

theorem set_frame_rate_loop_some (fps : Int) :
    ∀ table : List sr030pc50_fps, fps ∈ table.map (fun e => e.fps) →
      ∃ idx, set_frame_rate_loop fps table = some idx := by
  intro table
  induction table with
  | nil => intro hm; simp at hm
  | cons e es ih =>
    intro hm
    rw [set_frame_rate_loop]
    by_cases he : fps = e.fps
    · exact ⟨e.index, by simp [he]⟩
    · simp only [List.map_cons, List.mem_cons] at hm
      rcases hm with hm | hm
      · exact absurd hm he
      · simpa [he] using ih hm

theorem clamp_fps_eq (h : Header) (fps : Int) :
    (if fps < h.FRAME_RATE_AUTO ∨ fps > h.FRAME_RATE_25 then
      (if fps < h.FRAME_RATE_AUTO then h.FRAME_RATE_AUTO else h.FRAME_RATE_25) else fps)
      = clamp_fps h fps := by
  unfold clamp_fps
  by_cases h1 : fps < h.FRAME_RATE_AUTO
  · simp [h1]
  · by_cases h2 : fps > h.FRAME_RATE_25
    · simp [h1, h2]
    · simp [h1, h2]

theorem sameEnv_refl (d : Dev) : SameEnv d d := ⟨rfl, rfl, rfl, rfl, rfl⟩

theorem sameEnv_trans {d d1 d2 : Dev} (h1 : SameEnv d d1) (h2 : SameEnv d1 d2) :
    SameEnv d d2 :=
  ⟨h2.1.trans h1.1, h2.2.1.trans h1.2.1, h2.2.2.1.trans h1.2.2.1,
   h2.2.2.2.1.trans h1.2.2.2.1, h2.2.2.2.2.trans h1.2.2.2.2⟩

theorem sameDriver_env {d d1 : Dev} (hs : SameDriver d d1) : SameEnv d d1 := hs.2

theorem sameEnv_busOk {d d1 : Dev} (hs : SameEnv d d1) (hb : BusOk d) : BusOk d1 := by
  obtain ⟨_, _, a4, a5, _⟩ := hs
  exact ⟨a4.trans hb.1, fun n => by rw [a5]; exact hb.2 n⟩

theorem sameEnv_set_from_table (h : Header) (table : List regset_table) (index : Int)
    (d : Dev) : SameEnv d (sr030pc50_set_from_table h table index d).2 :=
  sameDriver_env (sameDriver_set_from_table h table index d)

theorem sameEnv_with_state (d : Dev) (st : sr030pc50_state) :
    SameEnv d { d with state := st } := ⟨rfl, rfl, rfl, rfl, rfl⟩

/-- The frame rate setter changes `fps` and `req_fps` only. -/
theorem set_frame_rate_shape (h : Header) (fps : Int) (d : Dev) :
    (∃ a b, (sr030pc50_set_frame_rate h fps d).2.state
        = { d.state with fps := a, req_fps := b }) ∧
    SameEnv d (sr030pc50_set_frame_rate h fps d).2 := by
  by_cases hg : h.CONFIG_MACH_DELOSLTE_KOR = true ∧ d.state.vt_initialized = 1
      ∧ fps = h.FRAME_RATE_7
  · simp only [sr030pc50_set_frame_rate, if_pos hg]
    exact ⟨⟨d.state.fps, d.state.req_fps, rfl⟩, sameEnv_refl d⟩
  · by_cases hi : d.state.initialized = 0
    · simp only [sr030pc50_set_frame_rate, if_neg hg, clamp_fps_eq, if_pos hi]
      exact ⟨⟨d.state.fps, clamp_fps h fps, rfl⟩, sameEnv_with_state d _⟩
    · rcases hl : set_frame_rate_loop (clamp_fps h fps) (sr030pc50_framerates h) with _ | idx
      · simp only [sr030pc50_set_frame_rate, if_neg hg, clamp_fps_eq, if_neg hi, hl]
        exact ⟨⟨d.state.fps, d.state.req_fps, rfl⟩, sameEnv_refl d⟩
      · simp only [sr030pc50_set_frame_rate, if_neg hg, clamp_fps_eq, if_neg hi, hl]
        by_cases hneg : idx < 0
        · simp only [if_pos hneg]
          exact ⟨⟨clamp_fps h fps, -1, rfl⟩, sameEnv_with_state d _⟩
        · simp only [if_neg hneg]
          have hsd := sameDriver_set_from_table h d.state.regs.fps idx
            { d with state := { d.state with fps := clamp_fps h fps, req_fps := -1 } }
          rcases hres : sr030pc50_set_from_table h d.state.regs.fps idx
            { d with state := { d.state with fps := clamp_fps h fps, req_fps := -1 } }
            with ⟨err, d2⟩
          rw [hres] at hsd
          have hst : d2.state = { d.state with fps := clamp_fps h fps, req_fps := -1 } := hsd.1
          have henv : SameEnv d d2 :=
            sameEnv_trans (sameEnv_with_state d _) (sameDriver_env hsd)
          by_cases he : err < 0
          · simp only [if_pos he]
            exact ⟨⟨clamp_fps h fps, -1, hst⟩, henv⟩
          · simp only [if_neg he]
            exact ⟨⟨clamp_fps h fps, -1, hst⟩, henv⟩

theorem set_frame_rate_runmode (h : Header) (fps : Int) (d : Dev) :
    (sr030pc50_set_frame_rate h fps d).2.state.runmode = d.state.runmode := by
  obtain ⟨⟨a, b, hs⟩, _⟩ := set_frame_rate_shape h fps d
  rw [hs]

theorem set_exposure_frame (h : Header) (val : Int) (d : Dev) :
    (sr030pc50_set_exposure h val d).2.state.runmode = d.state.runmode ∧
    SameEnv d (sr030pc50_set_exposure h val d).2 := by
  unfold sr030pc50_set_exposure
  by_cases hv : val < h.EV_MINUS_4 ∨ val > h.EV_PLUS_4
  · rw [if_pos hv]
    exact ⟨rfl, sameEnv_refl d⟩
  · rw [if_neg hv]
    have hsd := sameDriver_set_from_table h d.state.regs.ev (h.GET_EV_INDEX val) d
    refine ⟨?_, ?_⟩
    · show (sr030pc50_set_from_table h d.state.regs.ev (h.GET_EV_INDEX val) d).2.state.runmode
        = d.state.runmode
      rw [hsd.1]
    · exact sameEnv_trans (sameDriver_env hsd) (sameEnv_with_state _ _)

theorem set_scene_mode_retry_frame (h : Header) :
    ∀ (fuel : Nat) (val : Int) (d : Dev) (r : Int × Dev),
      sr030pc50_set_scene_mode_retry h fuel val d = some r →
      r.2.state.runmode = d.state.runmode ∧ SameEnv d r.2 := by
  intro fuel
  induction fuel with
  | zero => intro val d r hr; simp [sr030pc50_set_scene_mode_retry] at hr
  | succ n ih =>
    intro val d r hr
    rw [sr030pc50_set_scene_mode_retry] at hr
    by_cases hs : is_scene_mode h val = true
    · simp only [hs, if_true, Option.some.injEq] at hr
      have hsd := sameDriver_set_from_table h d.state.regs.scene_mode val d
      rw [← hr]
      refine ⟨?_, ?_⟩
      · show (sr030pc50_set_from_table h d.state.regs.scene_mode val d).2.state.runmode
          = d.state.runmode
        rw [hsd.1]
      · exact sameEnv_trans (sameDriver_env hsd) (sameEnv_with_state _ _)
    · simp only [hs, Bool.false_eq_true, if_false] at hr
      exact ih _ _ _ hr

theorem set_scene_mode_frame (h : Header) (val : Int) (d : Dev) :
    (sr030pc50_set_scene_mode h val d).2.state.runmode = d.state.runmode ∧
    SameEnv d (sr030pc50_set_scene_mode h val d).2 := by
  unfold sr030pc50_set_scene_mode
  rcases hr : sr030pc50_set_scene_mode_retry h 2 val d with _ | r
  · exact ⟨rfl, sameEnv_refl d⟩
  · exact set_scene_mode_retry_frame h 2 val d r hr

theorem set_iso_frame (h : Header) (val : Int) (d : Dev) :
    (sr030pc50_set_iso h val d).2.state.runmode = d.state.runmode ∧
    SameEnv d (sr030pc50_set_iso h val d).2 := by
  unfold sr030pc50_set_iso
  have hsd := sameDriver_set_from_table h d.state.regs.iso val d
  refine ⟨?_, ?_⟩
  · show (sr030pc50_set_from_table h d.state.regs.iso val d).2.state.runmode = d.state.runmode
    rw [hsd.1]
  · exact sameEnv_trans (sameDriver_env hsd) (sameEnv_with_state _ _)

theorem set_sensor_mode_env (h : Header) (val : Int) (d : Dev) :
    SameEnv d (sr030pc50_set_sensor_mode h val d).2 := by
  unfold sr030pc50_set_sensor_mode
  split_ifs <;> exact sameEnv_with_state d _

theorem table_write_frame (h : Header) (table : List regset_table) (index : Int) (d : Dev) :
    (sr030pc50_set_from_table h table index d).2.state.runmode = d.state.runmode ∧
    SameEnv d (sr030pc50_set_from_table h table index d).2 :=
  ⟨by rw [set_from_table_state], sameEnv_set_from_table h table index d⟩

/-- The function `sr030pc50_s_ctrl` never changes `runmode`, the saved
controls or the bus script. -/
theorem s_ctrl_frame (h : Header) (ctrl : v4l2_control) (d : Dev) :
    (sr030pc50_s_ctrl h ctrl d).2.state.runmode = d.state.runmode ∧
    SameEnv d (sr030pc50_s_ctrl h ctrl d).2 := by
  unfold sr030pc50_s_ctrl
  by_cases hi : d.state.initialized = 0 ∧ ctrl.id ≠ V4L2_CID_CAMERA_SENSOR_MODE
      ∧ ctrl.id ≠ V4L2_CID_CAMERA_VT_MODE
  · rw [if_pos hi]
    exact ⟨rfl, sameEnv_refl d⟩
  · rw [if_neg hi]
    have key : ∀ r : Int × Dev, (r.2.state.runmode = d.state.runmode ∧ SameEnv d r.2) →
        ((if r.1 < 0 then (r.1, r.2) else (0, r.2)).2.state.runmode = d.state.runmode ∧
          SameEnv d (if r.1 < 0 then (r.1, r.2) else (0, r.2)).2) := by
      intro r hr
      split_ifs <;> exact hr
    apply key
    rcases ctrl with ⟨id, value⟩
    have hwb := table_write_frame h d.state.regs.white_balance value d
    cases id
    all_goals first
      | exact ⟨set_sensor_mode_runmode h value d, set_sensor_mode_env h value d⟩
      | exact set_exposure_frame h value d
      | exact ⟨hwb.1, sameEnv_trans hwb.2 (sameEnv_with_state _ _)⟩
      | exact table_write_frame h _ _ d
      | exact set_scene_mode_frame h value d
      | exact set_iso_frame h value d
      | exact ⟨set_frame_rate_runmode h value d, (set_frame_rate_shape h value d).2⟩
      | exact ⟨rfl, sameEnv_with_state d _⟩

theorem set_frame_rate_loop_mem (fps : Int) :
    ∀ (table : List sr030pc50_fps) (idx : Int), set_frame_rate_loop fps table = some idx →
      ∃ e ∈ table, e.index = idx := by
  intro table
  induction table with
  | nil => intro idx hh; simp [set_frame_rate_loop] at hh
  | cons e es ih =>
    intro idx hh
    rw [set_frame_rate_loop] at hh
    by_cases he : fps = e.fps
    · rw [if_pos he] at hh
      exact ⟨e, List.mem_cons_self _ _, Option.some.inj hh⟩
    · rw [if_neg he] at hh
      obtain ⟨x, hx, hxi⟩ := ih idx hh
      exact ⟨x, List.mem_cons_of_mem _ hx, hxi⟩

theorem slotOk_write (h : Header) (table : List regset_table) (index : Int) (d : Dev)
    (hb : BusOk d) (hs : SlotOk table index) :
    (sr030pc50_set_from_table h table index d).1 = 0 := by
  obtain ⟨h0, t, regs, ht, hr⟩ := hs
  exact set_from_table_ok h table index d hb h0 t regs ht hr

theorem set_frame_rate_ok (h : Header) (fps : Int) (d : Dev) (hb : BusOk d)
    (hs : ∀ e ∈ sr030pc50_framerates h, 0 ≤ e.index → SlotOk d.state.regs.fps e.index) :
    (sr030pc50_set_frame_rate h fps d).1 = 0 := by
  by_cases hg : h.CONFIG_MACH_DELOSLTE_KOR = true ∧ d.state.vt_initialized = 1
      ∧ fps = h.FRAME_RATE_7
  · simp only [sr030pc50_set_frame_rate, if_pos hg]
  · by_cases hi : d.state.initialized = 0
    · simp only [sr030pc50_set_frame_rate, if_neg hg, clamp_fps_eq, if_pos hi]
    · rcases hl : set_frame_rate_loop (clamp_fps h fps) (sr030pc50_framerates h) with _ | idx
      · simp only [sr030pc50_set_frame_rate, if_neg hg, clamp_fps_eq, if_neg hi, hl]
      · simp only [sr030pc50_set_frame_rate, if_neg hg, clamp_fps_eq, if_neg hi, hl]
        by_cases hneg : idx < 0
        · simp only [if_pos hneg]
        · simp only [if_neg hneg]
          obtain ⟨e, hem, hei⟩ := set_frame_rate_loop_mem _ _ _ hl
          have hslot : SlotOk d.state.regs.fps idx := by
            rw [← hei]; exact hs e hem (by rw [hei]; omega)
          have hok := slotOk_write h d.state.regs.fps idx
            { d with state := { d.state with fps := clamp_fps h fps, req_fps := -1 } } hb hslot
          rcases hres : sr030pc50_set_from_table h d.state.regs.fps idx
            { d with state := { d.state with fps := clamp_fps h fps, req_fps := -1 } }
            with ⟨err, d2⟩
          rw [hres] at hok
          simp only at hok
          subst hok
          simp

theorem preview_frmsizes_has_vga (h : Header) :
    ∃ f, sr030pc50_get_framesize (sr030pc50_preview_frmsizes h) h.PREVIEW_SZ_VGA = some f := by
  unfold sr030pc50_preview_frmsizes
  by_cases hg : h.CONFIG_MACH_GARDA = true
  · by_cases hx : h.PREVIEW_SZ_528x432 = h.PREVIEW_SZ_VGA
    · exact ⟨⟨h.PREVIEW_SZ_528x432, 528, 432⟩, by simp [hg, sr030pc50_get_framesize, hx]⟩
    · exact ⟨⟨h.PREVIEW_SZ_VGA, 640, 480⟩, by simp [hg, sr030pc50_get_framesize, hx]⟩
  · exact ⟨⟨h.PREVIEW_SZ_VGA, 640, 480⟩, by simp [hg, sr030pc50_get_framesize]⟩

/-- The part of `sr030pc50_set_preview_size` after the frame size `f` has been
read from the state `d1`: it changes `state->preview` only. -/
theorem set_preview_size_tail_frame (h : Header) (d1 : Dev) (f : sr030pc50_framesize) :
    (∃ p, (sr030pc50_set_preview_size_write h f d1).2.state = { d1.state with preview := p }) ∧
    SameEnv d1 (sr030pc50_set_preview_size_write h f d1).2 := by
  unfold sr030pc50_set_preview_size_write
  by_cases hg : h.CONFIG_MACH_GARDA = true
  · rw [if_pos hg]
    have hsd := sameDriver_set_from_table h d1.state.regs.preview_size (f.index : Int) d1
    rcases hres : sr030pc50_set_from_table h d1.state.regs.preview_size (f.index : Int) d1
      with ⟨err, d2⟩
    rw [hres] at hsd
    have hst2 : d2.state = d1.state := hsd.1
    by_cases he : err < 0
    · simp only [if_pos he]
      exact ⟨⟨d1.state.preview, by rw [hst2]⟩, sameDriver_env hsd⟩
    · simp only [if_neg he]
      exact ⟨⟨{ d1.state.preview with update_frmsize := 0 }, by rw [hst2]⟩,
        sameEnv_trans (sameDriver_env hsd) (sameEnv_with_state _ _)⟩
  · rw [if_neg hg]
    exact ⟨⟨{ d1.state.preview with update_frmsize := 0 }, rfl⟩, sameEnv_with_state _ _⟩

theorem set_preview_size_tail_ok (h : Header) (d1 : Dev) (f : sr030pc50_framesize)
    (hb : BusOk d1)
    (hs : h.CONFIG_MACH_GARDA = true → SlotOk d1.state.regs.preview_size (f.index : Int)) :
    (sr030pc50_set_preview_size_write h f d1).1 = 0 := by
  unfold sr030pc50_set_preview_size_write
  by_cases hg : h.CONFIG_MACH_GARDA = true
  · rw [if_pos hg]
    have hok := slotOk_write h d1.state.regs.preview_size (f.index : Int) d1 hb (hs hg)
    rcases hres : sr030pc50_set_from_table h d1.state.regs.preview_size (f.index : Int) d1
      with ⟨err, d2⟩
    rw [hres] at hok
    simp only at hok
    subst hok
    simp
  · rw [if_neg hg]

/-- The preview-size setter changes `state->preview` only. -/
theorem set_preview_size_frame (h : Header) (d : Dev) :
    (∃ p, (sr030pc50_set_preview_size h d).2.state = { d.state with preview := p }) ∧
    SameEnv d (sr030pc50_set_preview_size h d).2 := by
  unfold sr030pc50_set_preview_size
  by_cases hu : d.state.preview.update_frmsize = 0
  · rw [if_pos hu]
    exact ⟨⟨d.state.preview, rfl⟩, sameEnv_refl d⟩
  · rw [if_neg hu]
    obtain ⟨vga, hvga⟩ := preview_frmsizes_has_vga h
    rcases hfs : d.state.preview.frmsize with _ | f
    · simp only [hvga]
      obtain ⟨⟨p, hp⟩, henv⟩ := set_preview_size_tail_frame h
        { d with state := { d.state with preview.frmsize := some vga } } vga
      exact ⟨⟨p, hp⟩, sameEnv_trans (sameEnv_with_state d _) henv⟩
    · simp only [hfs]
      exact set_preview_size_tail_frame h d f

/-- The preview-size setter returns 0 when the bus is healthy and the slot
it plays back is present. -/
theorem set_preview_size_ok (h : Header) (d : Dev) (hb : BusOk d)
    (hs : h.CONFIG_MACH_GARDA = true →
      ∀ f, (d.state.preview.frmsize = some f ∨
            (d.state.preview.frmsize = none ∧
              sr030pc50_get_framesize (sr030pc50_preview_frmsizes h) h.PREVIEW_SZ_VGA
                = some f)) →
        SlotOk d.state.regs.preview_size (f.index : Int)) :
    (sr030pc50_set_preview_size h d).1 = 0 := by
  unfold sr030pc50_set_preview_size
  by_cases hu : d.state.preview.update_frmsize = 0
  · rw [if_pos hu]
  · rw [if_neg hu]
    obtain ⟨vga, hvga⟩ := preview_frmsizes_has_vga h
    rcases hfs : d.state.preview.frmsize with _ | f
    · simp only [hvga]
      exact set_preview_size_tail_ok h
        { d with state := { d.state with preview.frmsize := some vga } } vga hb
        (fun hg => hs hg vga (Or.inr ⟨hfs, hvga⟩))
    · simp only [hfs]
      exact set_preview_size_tail_ok h d f hb (fun hg => hs hg f (Or.inl hfs))

/-- A stream start leaves the driver state alone; it returns 0 when the bus
is healthy and the stream-start table is present, a negative value or 0
otherwise. -/
theorem control_stream_start_frame (h : Header) (cmd : Nat) (d : Dev)
    (hc : cmd ≠ h.STREAM_STOP) :
    SameDriver d (sr030pc50_control_stream h cmd d).2 ∧
    (BusOk d → d.state.regs.stream_start.reg ≠ none →
      (sr030pc50_control_stream h cmd d).1 = 0) := by
  unfold sr030pc50_control_stream
  rw [if_neg hc]
  have hsd := sameDriver_set_from_table h [d.state.regs.stream_start] 0 d
  have hok : BusOk d → d.state.regs.stream_start.reg ≠ none →
      (sr030pc50_set_from_table h [d.state.regs.stream_start] 0 d).1 = 0 := by
    intro hb hr
    obtain ⟨r, hr1⟩ := Option.ne_none_iff_exists'.1 hr
    exact set_from_table_ok h _ 0 d hb (le_refl _) _ r rfl hr1
  rcases hres : sr030pc50_set_from_table h [d.state.regs.stream_start] 0 d with ⟨err, d1⟩
  rw [hres] at hsd hok
  show SameDriver d (if err < 0 then (err, d1) else (0, d1)).2 ∧
    (BusOk d → d.state.regs.stream_start.reg ≠ none →
      (if err < 0 then (err, d1) else (0, d1)).1 = 0)
  by_cases he : err < 0
  · rw [if_pos he]
    refine ⟨hsd, fun hb hr => hok hb hr⟩
  · rw [if_neg he]
    exact ⟨hsd, fun _ _ => rfl⟩

theorem control_stream_ret (h : Header) (cmd : Nat) (d : Dev) :
    (sr030pc50_control_stream h cmd d).1 ≤ 0 := by
  unfold sr030pc50_control_stream
  by_cases hc : cmd = h.STREAM_STOP
  · rw [if_pos hc]
    rcases hres : sr030pc50_set_from_table h [d.state.regs.stream_stop] 0 d with ⟨err, d1⟩
    show (if err < 0 then (err, d1) else _ : Int × Dev).1 ≤ 0
    by_cases he : err < 0
    · rw [if_pos he]; exact le_of_lt he
    · rw [if_neg he]
      split <;> exact le_refl _
  · rw [if_neg hc]
    rcases hres : sr030pc50_set_from_table h [d.state.regs.stream_start] 0 d with ⟨err, d1⟩
    show (if err < 0 then (err, d1) else (0, d1)).1 ≤ 0
    by_cases he : err < 0
    · rw [if_pos he]; exact le_of_lt he
    · rw [if_neg he]

/-! ## Resolution lookup -/

theorem abs32_sub32 (a b : Nat) (ha : a < 2 ^ 31) (hb : b < 2 ^ 31) :
    abs32 (sub32 a b) = absdiff a b := by
  unfold abs32 sub32 absdiff
  split <;> split <;> omega

theorem find_resolution_err_exact (f : sr030pc50_resolution) (mf : v4l2_mbus_framefmt)
    (hw : mf.width < 2 ^ 31) (hh : mf.height < 2 ^ 31)
    (hf : f.width < 2 ^ 31 ∧ f.height < 2 ^ 31) :
    (abs32 (sub32 f.width mf.width) + abs32 (sub32 f.height mf.height)) % 2 ^ 32
      = resolution_error f mf ∧ resolution_error f mf < 2 ^ 32 - 1 := by
  rw [abs32_sub32 _ _ hf.1 hw, abs32_sub32 _ _ hf.2 hh]
  unfold resolution_error absdiff
  obtain ⟨h1, h2⟩ := hf
  constructor
  · split <;> split <;> omega
  · split <;> split <;> omega

theorem findInv_skip (stype : Nat) (mf : v4l2_mbus_framefmt)
    (seen : List sr030pc50_resolution) (f : sr030pc50_resolution) (min_err : Nat)
    (m : Option sr030pc50_resolution) (hinv : FindInv stype mf seen min_err m)
    (hf : f.type = stype → min_err ≤ resolution_error f mf ∧ m ≠ none) :
    FindInv stype mf (seen ++ [f]) min_err m := by
  rcases hinv with ⟨hm, he, hall⟩ | ⟨e, hm, he, pre, post, hs, hty, hpre, hpost⟩
  · left
    refine ⟨hm, he, ?_⟩
    intro x hx
    rcases List.mem_append.1 hx with hx | hx
    · exact hall x hx
    · have hxf : x = f := by simpa using hx
      subst hxf
      intro hty
      exact (hf hty).2 hm
  · right
    refine ⟨e, hm, he, pre, post ++ [f], ?_, hty, hpre, ?_⟩
    · simp [hs]
    · intro x hx hxt
      rcases List.mem_append.1 hx with hx | hx
      · exact hpost x hx hxt
      · have hxf : x = f := by simpa using hx
        subst hxf
        have := (hf hxt).1
        omega

theorem findInv_take (stype : Nat) (mf : v4l2_mbus_framefmt)
    (seen : List sr030pc50_resolution) (f : sr030pc50_resolution) (min_err : Nat)
    (m : Option sr030pc50_resolution) (hinv : FindInv stype mf seen min_err m)
    (hty : f.type = stype) (hlt : resolution_error f mf < min_err) :
    FindInv stype mf (seen ++ [f]) (resolution_error f mf) (some f) := by
  right
  refine ⟨f, rfl, rfl, seen, [], rfl, hty, ?_, ?_⟩
  · intro x hx hxt
    rcases hinv with ⟨_, _, hall⟩ | ⟨e, _, he, pre, post, hs, _, hpre, hpost⟩
    · exact absurd hxt (hall x hx)
    · subst hs
      rcases List.mem_append.1 hx with hx | hx
      · have := hpre x hx hxt
        omega
      · rcases List.mem_cons.1 hx with hx | hx
        · subst hx; omega
        · have := hpost x hx hxt
          omega
  · intro x hx
    simp at hx

theorem find_resolution_loop_spec (mf : v4l2_mbus_framefmt) (stype : Nat)
    (hw : mf.width < 2 ^ 31) (hh : mf.height < 2 ^ 31) :
    ∀ (rest seen : List sr030pc50_resolution) (min_err : Nat)
      (m : Option sr030pc50_resolution),
      (∀ x ∈ rest, x.width < 2 ^ 31 ∧ x.height < 2 ^ 31) →
      FindInv stype mf seen min_err m →
      (find_resolution_loop mf rest stype min_err m).1 = stype ∧
      ∃ min_err1, FindInv stype mf (seen ++ rest) min_err1
        (find_resolution_loop mf rest stype min_err m).2 := by
  intro rest
  induction rest with
  | nil =>
    intro seen min_err m _ hinv
    exact ⟨rfl, min_err, by simpa using hinv⟩
  | cons f rest ih =>
    intro seen min_err m hb hinv
    have hbf := hb f (List.mem_cons_self _ _)
    have hbr : ∀ x ∈ rest, x.width < 2 ^ 31 ∧ x.height < 2 ^ 31 :=
      fun x hx => hb x (List.mem_cons_of_mem _ hx)
    obtain ⟨herr, hlt⟩ := find_resolution_err_exact f mf hw hh hbf
    have happ : seen ++ f :: rest = (seen ++ [f]) ++ rest := by simp
    rw [happ]
    by_cases hty : stype = f.type
    · by_cases hcmp : resolution_error f mf < min_err
      · have hstep : find_resolution_loop mf (f :: rest) stype min_err m
            = find_resolution_loop mf rest stype (resolution_error f mf) (some f) := by
          rw [find_resolution_loop, if_pos hty]
          simp only [herr, if_pos hcmp]
          rw [← hty]
        rw [hstep]
        exact ih _ _ _ hbr (findInv_take stype mf seen f min_err m hinv hty.symm hcmp)
      · have hstep : find_resolution_loop mf (f :: rest) stype min_err m
            = find_resolution_loop mf rest stype min_err m := by
          rw [find_resolution_loop, if_pos hty]
          simp only [herr, if_neg hcmp]
        rw [hstep]
        refine ih _ _ _ hbr (findInv_skip stype mf seen f min_err m hinv ?_)
        intro _
        refine ⟨by omega, ?_⟩
        intro hm
        rcases hinv with ⟨_, he, _⟩ | ⟨e, hme, _, _⟩
        · omega
        · rw [hm] at hme; cases hme
    · have hstep : find_resolution_loop mf (f :: rest) stype min_err m
          = find_resolution_loop mf rest stype min_err m := by
        rw [find_resolution_loop, if_neg hty]
      rw [hstep]
      exact ih _ _ _ hbr (findInv_skip stype mf seen f min_err m hinv
        (fun h => absurd h.symm hty))

theorem find_resolution_loop_none (mf : v4l2_mbus_framefmt) (stype : Nat) :
    ∀ (rest : List sr030pc50_resolution) (min_err : Nat),
      (∀ x ∈ rest, x.type ≠ stype) →
      find_resolution_loop mf rest stype min_err none = (stype, none) := by
  intro rest
  induction rest with
  | nil => intro _ _; rfl
  | cons f rest ih =>
    intro min_err hall
    have hty : ¬ stype = f.type := fun h => hall f (List.mem_cons_self _ _) h.symm
    rw [find_resolution_loop, if_neg hty]
    exact ih min_err (fun x hx => hall x (List.mem_cons_of_mem _ hx))

/-- C3 (code differs): with the two VIDEO entries 640x480 and 1280x960 and
the requested size 4294967295x480, `__find_resolution` returns 0 and writes
640x480 into `mf`, although the entry 1280x960 has the strictly smaller error
`|entry.width - width| + |entry.height - height|`: the unguarded 32-bit
difference wraps, against the doc comment of the function ("Find nearest
resolution"). -/
theorem find_resolution_wraps_for_huge_request :
    __find_resolution [⟨0, 0, 640, 480⟩, ⟨1, 0, 1280, 960⟩] {}
        { width := 4294967295, height := 480 } 7 9
      = (0, { width := 640, height := 480 }, 0, 0) ∧
    resolution_error ⟨1, 0, 1280, 960⟩ { width := 4294967295, height := 480 }
      < resolution_error ⟨0, 0, 640, 480⟩ { width := 4294967295, height := 480 } := by
  constructor <;> decide

/-- Where the 32-bit arithmetic of `__find_resolution` does not wrap, the
function does what its doc comment says.  For every resolution table and
every requested size, with all widths and heights (requested and in the
table) below 2^31:
if the table has an entry whose type is the current operating mode,
`__find_resolution` returns 0, overwrites `mf->width`/`mf->height` with those
of the first entry of that type that minimises
`|entry.width - width| + |entry.height - height|`, sets `*resolution` to that
entry's value and `*type` to the operating mode.  For every requested size
(no bound), if no entry has that type it returns `-EINVAL` and leaves `mf`
(and `*type`, `*resolution`) unchanged. -/
theorem find_resolution_nearest (table : List sr030pc50_resolution)
    (state : sr030pc50_state) (mf : v4l2_mbus_framefmt) (type resolution : Nat) :
    (mf.width < 2 ^ 31 → mf.height < 2 ^ 31 →
      (∀ x ∈ table, x.width < 2 ^ 31 ∧ x.height < 2 ^ 31) →
      (∃ x ∈ table, x.type = state.oprmode) →
      ∃ e, FirstNearest table state.oprmode mf e ∧
        __find_resolution table state mf type resolution
          = (0, { mf with width := e.width, height := e.height }, state.oprmode, e.value)) ∧
    ((∀ x ∈ table, x.type ≠ state.oprmode) →
      __find_resolution table state mf type resolution = (-EINVAL, mf, type, resolution)) := by
  constructor
  · intro hw hh hb ⟨x, hx, hxt⟩
    have h0 : FindInv state.oprmode mf [] (2 ^ 32 - 1) none :=
      Or.inl ⟨rfl, rfl, fun x hx => by simp at hx⟩
    obtain ⟨hs, me, hinv⟩ :=
      find_resolution_loop_spec mf state.oprmode hw hh table [] (2 ^ 32 - 1) none hb h0
    simp only [List.nil_append] at hinv
    rcases hinv with ⟨_, _, hall⟩ | ⟨e, hm, _, hfn⟩
    · exact absurd hxt (hall x hx)
    · refine ⟨e, hfn, ?_⟩
      have hpair : find_resolution_loop mf table state.oprmode (2 ^ 32 - 1) none
          = (state.oprmode, some e) := Prod.ext hs hm
      simp only [__find_resolution, hpair]
  · intro hall
    simp only [__find_resolution, find_resolution_loop_none mf state.oprmode table _ hall]

theorem find_resolution_nearest_witness :
    (∃ e, FirstNearest [⟨0, 0, 640, 480⟩, ⟨1, 0, 1280, 960⟩, ⟨2, 1, 1280, 960⟩] 0
          { width := 1000, height := 700 } e ∧
        __find_resolution [⟨0, 0, 640, 480⟩, ⟨1, 0, 1280, 960⟩, ⟨2, 1, 1280, 960⟩] {}
            { width := 1000, height := 700 } 7 9
          = (0, { width := e.width, height := e.height }, 0, e.value)) ∧
    __find_resolution [⟨0, 0, 640, 480⟩, ⟨1, 0, 1280, 960⟩] { oprmode := 1 }
        { width := 1000, height := 700 } 7 9
      = (-EINVAL, { width := 1000, height := 700 }, 7, 9) :=
  ⟨(find_resolution_nearest [⟨0, 0, 640, 480⟩, ⟨1, 0, 1280, 960⟩, ⟨2, 1, 1280, 960⟩] {}
      { width := 1000, height := 700 } 7 9).1 (by decide) (by decide) (by decide)
      ⟨⟨0, 0, 640, 480⟩, by decide, rfl⟩,
   (find_resolution_nearest [⟨0, 0, 640, 480⟩, ⟨1, 0, 1280, 960⟩] { oprmode := 1 }
      { width := 1000, height := 700 } 7 9).2 (by decide)⟩

/-! ## Frame size selection -/

/-- C4 (code differs): in a GARDA build the preview table is
`528x432, 640x480`.  For the request 320x240 with no frame size selected
before, the first entry at least as large as the request is 528x432, but
`sr030pc50_set_framesize` compares with `==`, finds no entry, and falls back to
the `PREVIEW_SZ_VGA` entry 640x480. -/
theorem set_framesize_wants_exact_match :
    first_larger_frmsize 320 240 (sr030pc50_preview_frmsizes { CONFIG_MACH_GARDA := true })
      = some ⟨1, 528, 432⟩ ∧
    (sr030pc50_set_framesize { CONFIG_MACH_GARDA := true }
        (sr030pc50_preview_frmsizes { CONFIG_MACH_GARDA := true }) true
        { state := { req_fmt := { width := 320, height := 240 } } }).map
        (selected_frmsize true)
      = some (some ⟨0, 640, 480⟩) := by
  constructor <;> decide

/-- C5 (code differs): in a GARDA build, with 528x432 selected before, the
request 2000x2000 matches no entry of the preview table, yet after
`sr030pc50_set_framesize` the selected frame size is still 528x432 and not
the last entry 640x480; only with nothing selected before does the call
select the last entry. -/
theorem set_framesize_keeps_stale_selection :
    set_framesize_loop 2000 2000 (sr030pc50_preview_frmsizes { CONFIG_MACH_GARDA := true })
      = none ∧
    first_larger_frmsize 2000 2000 (sr030pc50_preview_frmsizes { CONFIG_MACH_GARDA := true })
      = none ∧
    (sr030pc50_preview_frmsizes { CONFIG_MACH_GARDA := true }).getLast? = some ⟨0, 640, 480⟩ ∧
    (sr030pc50_set_framesize { CONFIG_MACH_GARDA := true }
        (sr030pc50_preview_frmsizes { CONFIG_MACH_GARDA := true }) true
        { state := { req_fmt := { width := 2000, height := 2000 },
                     preview := { frmsize := some ⟨1, 528, 432⟩ } } }).map
        (selected_frmsize true)
      = some (some ⟨1, 528, 432⟩) ∧
    (sr030pc50_set_framesize { CONFIG_MACH_GARDA := true }
        (sr030pc50_preview_frmsizes { CONFIG_MACH_GARDA := true }) true
        { state := { req_fmt := { width := 2000, height := 2000 } } }).map
        (selected_frmsize true)
      = some (some ⟨0, 640, 480⟩) := by
  refine ⟨by decide, by decide, by decide, by decide, by decide⟩

/-! ## Sensor mode, frame rate, EXIF -/

/-- C9: `sr030pc50_set_sensor_mode` does not support movie mode in VT.  With
`SENSOR_CAMERA` and `SENSOR_MOVIE` distinct (they are labels of one `switch`),
for every requested value and every `vt_mode` the call returns 0, leaves
`sensor_mode` equal to `SENSOR_CAMERA` or `SENSOR_MOVIE`, and it is
`SENSOR_MOVIE` exactly when `SENSOR_MOVIE` was requested and `vt_mode` is 0. -/
theorem set_sensor_mode_no_movie_in_vt (h : Header) (hne : h.SENSOR_CAMERA ≠ h.SENSOR_MOVIE)
    (val : Int) (d : Dev) :
    (sr030pc50_set_sensor_mode h val d).1 = 0 ∧
    ((sr030pc50_set_sensor_mode h val d).2.state.sensor_mode = h.SENSOR_CAMERA ∨
      (sr030pc50_set_sensor_mode h val d).2.state.sensor_mode = h.SENSOR_MOVIE) ∧
    ((sr030pc50_set_sensor_mode h val d).2.state.sensor_mode = h.SENSOR_MOVIE ↔
      (val = h.SENSOR_MOVIE ∧ d.state.vt_mode = 0)) := by
  unfold sr030pc50_set_sensor_mode
  by_cases hm : val = h.SENSOR_MOVIE
  · by_cases hv : d.state.vt_mode = 0
    · simp [hm, hv]
    · simp [hm, hv, hne]
  · by_cases hc : val = h.SENSOR_CAMERA
    · simp [hm, hc, hne]
    · simp [hm, hc, hne]

theorem set_sensor_mode_no_movie_in_vt_witness :
    (sr030pc50_set_sensor_mode {} 1 { state := { vt_mode := 1 } }).1 = 0 ∧
    ((sr030pc50_set_sensor_mode {} 1 { state := { vt_mode := 1 } }).2.state.sensor_mode = 0 ∨
      (sr030pc50_set_sensor_mode {} 1 { state := { vt_mode := 1 } }).2.state.sensor_mode = 1) ∧
    ((sr030pc50_set_sensor_mode {} 1 { state := { vt_mode := 1 } }).2.state.sensor_mode = 1 ↔
      ((1 : Int) = 1 ∧ (1 : Int) = 0)) :=
  set_sensor_mode_no_movie_in_vt {} (by decide) 1 { state := { vt_mode := 1 } }

theorem exif_iso_of_gain_eq (r : Nat) (hr : r < 256) :
    exif_iso_of_gain r = iso_of_register r := by
  unfold exif_iso_of_gain iso_of_register
  have : (r * 100 / 32 + 50) % 2 ^ 16 = r * 100 / 32 + 50 := by omega
  simp only [this]

theorem iso_of_register_mono (r1 r2 : Nat) (hle : r1 ≤ r2) :
    iso_of_register r1 ≤ iso_of_register r2 := by
  unfold iso_of_register
  have : r1 * 100 / 32 ≤ r2 * 100 / 32 := Nat.div_le_div_right (Nat.mul_le_mul_right _ hle)
  simp only
  split_ifs <;> omega

theorem i2c_read_loop_byte_lt (h : Header) (subaddr : Nat) :
    ∀ (n : Nat) (d : Dev) (x : Nat) (dd : Dev),
      sr030pc50_i2c_read_loop h subaddr n d = (some x, dd) → x < 256 := by
  intro n
  induction n with
  | zero => intro d x dd hh; simp [sr030pc50_i2c_read_loop] at hh
  | succ n ih =>
    intro d x dd hh
    rw [sr030pc50_i2c_read_loop] at hh
    by_cases hx : d.xfer_ok d.calls = true
    · simp only [hx, if_true, Prod.mk.injEq, Option.some.injEq] at hh
      rw [← hh.1]; exact Nat.mod_lt _ (by decide)
    · simp only [hx, if_false] at hh
      exact ih _ _ _ hh

/-- The byte `sr030pc50_i2c_read` stores, and 0 where it stores none, is a `u8`. -/
theorem i2c_read_byte_lt (h : Header) (subaddr : Nat) (d : Dev) :
    (sr030pc50_i2c_read h subaddr d).1.2.getD 0 < 256 := by
  unfold sr030pc50_i2c_read
  by_cases ha : d.adapter = false
  · rw [if_pos ha]
    show (0 : Nat) < 256
    decide
  · rw [if_neg ha]
    rcases hrd : sr030pc50_i2c_read_loop h subaddr 5 d with ⟨data, d2⟩
    cases data with
    | none =>
      show (0 : Nat) < 256
      decide
    | some b => exact i2c_read_loop_byte_lt h subaddr 5 d b d2 hrd

/-- The two transfers of `sr030pc50_get_exif_iso` on a bus where both succeed
at the first attempt: the ISO is computed from the byte read from 0xb0. -/
theorem get_exif_iso_of_byte (h : Header) (d : Dev) (ha : d.adapter = true)
    (h0 : d.xfer_ok d.calls = true) (h1 : d.xfer_ok (d.calls + 1) = true) :
    sr030pc50_get_exif_iso h d =
      ((0, some (exif_iso_of_gain (d.rx (d.calls + 1) % 256))),
        { d with calls := d.calls + 1 + 1,
                 trace := d.trace ++ [Event.i2c_write 0x03 0x20] ++ [Event.i2c_read 0xb0] }) := by
  simp [sr030pc50_get_exif_iso, sr030pc50_i2c_write, sr030pc50_i2c_write_loop,
    sr030pc50_i2c_read, sr030pc50_i2c_read_loop, ha, h0, h1]

/-- C10: when the page-select write succeeds, `sr030pc50_get_exif_iso`
returns 0 and stores the ISO derived from the gain register value `r` that
`sr030pc50_readb` leaves in `read_value` for register 0xb0 (the byte read, 0
when the read fails), an 8-bit value; when both transfers succeed at the
first attempt `r` is the byte the bus delivers for the read of 0xb0, the bus
sees the write of 0x20 to 0x03 and then the read of 0xb0, and the ISO stored
is the one computed from `gain = floor(r * 100 / 32) + 50` by the thresholds
114, 214, 264, 825.  For every 8-bit `r` that ISO is the one computed by
these thresholds (no 16-bit truncation occurs); it is one of 50, 100, 200,
400, 800; it is monotonically non-decreasing in `r`; and each of the five
values is produced by some `r` in 0..255. -/
theorem get_exif_iso_maps_gain (h : Header) (d : Dev)
    (hw : 0 ≤ (sr030pc50_i2c_write h 0x03 0x20 d).1) :
    sr030pc50_get_exif_iso h d =
      ((0, some (exif_iso_of_gain
          ((sr030pc50_i2c_read h 0xb0 (sr030pc50_i2c_write h 0x03 0x20 d).2).1.2.getD 0))),
        (sr030pc50_i2c_read h 0xb0 (sr030pc50_i2c_write h 0x03 0x20 d).2).2) ∧
    (sr030pc50_i2c_read h 0xb0 (sr030pc50_i2c_write h 0x03 0x20 d).2).1.2.getD 0 < 256 ∧
    (d.adapter = true → d.xfer_ok d.calls = true → d.xfer_ok (d.calls + 1) = true →
      (sr030pc50_get_exif_iso h d).1 =
        (0, some (iso_of_register (d.rx (d.calls + 1) % 256))) ∧
      (sr030pc50_get_exif_iso h d).2.trace =
        d.trace ++ [Event.i2c_write 0x03 0x20, Event.i2c_read 0xb0]) ∧
    (∃ r, r < 256 ∧ (sr030pc50_get_exif_iso h d).1 = (0, some (exif_iso_of_gain r))) ∧
    (∀ r, r < 256 → exif_iso_of_gain r = iso_of_register r ∧
      exif_iso_of_gain r ∈ [50, 100, 200, 400, 800]) ∧
    (∀ r1 r2, r1 ≤ r2 → r2 < 256 → exif_iso_of_gain r1 ≤ exif_iso_of_gain r2) ∧
    (∀ v ∈ [50, 100, 200, 400, 800], ∃ r, r < 256 ∧ exif_iso_of_gain r = v) := by
  have e1 : sr030pc50_get_exif_iso h d =
      ((0, some (exif_iso_of_gain
          ((sr030pc50_i2c_read h 0xb0 (sr030pc50_i2c_write h 0x03 0x20 d).2).1.2.getD 0))),
        (sr030pc50_i2c_read h 0xb0 (sr030pc50_i2c_write h 0x03 0x20 d).2).2) := by
    unfold sr030pc50_get_exif_iso
    rcases hres : sr030pc50_i2c_write h 0x03 0x20 d with ⟨err, d1⟩
    rw [hres] at hw
    have he : ¬ err < 0 := not_lt.2 hw
    simp only [he, if_false]
  have e2 := i2c_read_byte_lt h 0xb0 (sr030pc50_i2c_write h 0x03 0x20 d).2
  refine ⟨e1, e2, ?_, ⟨_, e2, by rw [e1]⟩, ?_, ?_, ?_⟩
  · intro ha h0 h1
    rw [get_exif_iso_of_byte h d ha h0 h1,
      exif_iso_of_gain_eq _ (Nat.mod_lt _ (by decide))]
    exact ⟨rfl, by simp⟩
  · intro r hr
    refine ⟨exif_iso_of_gain_eq r hr, ?_⟩
    rw [exif_iso_of_gain_eq r hr]
    unfold iso_of_register
    simp only
    split_ifs <;> simp
  · intro r1 r2 hle hr2
    rw [exif_iso_of_gain_eq r1 (by omega), exif_iso_of_gain_eq r2 hr2]
    exact iso_of_register_mono r1 r2 hle
  · intro v hv
    simp only [List.mem_cons, List.mem_singleton, List.not_mem_nil, or_false] at hv
    rcases hv with rfl | rfl | rfl | rfl | rfl
    · exact ⟨0, by decide, by decide⟩
    · exact ⟨21, by decide, by decide⟩
    · exact ⟨60, by decide, by decide⟩
    · exact ⟨100, by decide, by decide⟩
    · exact ⟨255, by decide, by decide⟩

theorem get_exif_iso_maps_gain_witness :
    (0 : Int) ≤ (sr030pc50_i2c_write {} 0x03 0x20 { rx := fun _ => 0x40 }).1 ∧
    (sr030pc50_get_exif_iso {} { rx := fun _ => 0x40 }).1 = (0, some 200) ∧
    (sr030pc50_get_exif_iso {} { rx := fun n => if n = 1 then 0x15 else 0xFF }).1 =
      (0, some 100) ∧
    (sr030pc50_get_exif_iso {} { rx := fun _ => 0x40 }).1 =
      (0, some (exif_iso_of_gain
        ((sr030pc50_i2c_read {} 0xb0
          (sr030pc50_i2c_write {} 0x03 0x20 { rx := fun _ => 0x40 }).2).1.2.getD 0))) :=
  ⟨by decide, by decide, by decide,
    congrArg Prod.fst (get_exif_iso_maps_gain {} { rx := fun _ => 0x40 } (by decide)).1⟩

/-- C8, as stated, fails: in a build for the KOR SKT/LGT boards, with the
sensor initialized and `vt_initialized == 1`, the request `FRAME_RATE_7` (one
of the five rates of `sr030pc50_framerates`) returns 0 at once: `state->fps`
stays 15 and `req_fps` stays 3 instead of becoming 7 and -1; and with the
sensor not initialized the request is not stored in `req_fps` either. -/
theorem set_frame_rate_kor_guard_skips_request :
    (7 : Int) ∈ (sr030pc50_framerates { CONFIG_MACH_DELOSLTE_KOR := true }).map (fun e => e.fps) ∧
    clamp_fps { CONFIG_MACH_DELOSLTE_KOR := true } 7 = 7 ∧
    (sr030pc50_set_frame_rate { CONFIG_MACH_DELOSLTE_KOR := true } 7
      { state := { initialized := 1, vt_initialized := 1, fps := 15, req_fps := 3 } }).1 = 0 ∧
    (sr030pc50_set_frame_rate { CONFIG_MACH_DELOSLTE_KOR := true } 7
      { state := { initialized := 1, vt_initialized := 1, fps := 15, req_fps := 3 } }).2.state.fps
      = 15 ∧
    (sr030pc50_set_frame_rate { CONFIG_MACH_DELOSLTE_KOR := true } 7
      { state := { initialized := 1, vt_initialized := 1, fps := 15, req_fps := 3 } }).2.state.req_fps
      = 3 ∧
    (sr030pc50_set_frame_rate { CONFIG_MACH_DELOSLTE_KOR := true } 7
      { state := { initialized := 0, vt_initialized := 1, fps := 15, req_fps := 3 } }).2.state.req_fps
      = 3 := by
  refine ⟨by decide, by decide, by decide, by decide, by decide, by decide⟩

/-- C8, amended: in a build for the KOR SKT/LGT boards a request of
`FRAME_RATE_7` while `vt_initialized == 1` returns 0 at once and changes
nothing.  In every other case the requested value is first clamped into
`[FRAME_RATE_AUTO, FRAME_RATE_25]`; if the sensor is not initialized the
clamped value is stored in `req_fps`, nothing else changes (so `state->fps` is
unchanged and no register is written) and 0 is returned; if initialized and
the clamped value is one of the five rates of `sr030pc50_framerates`,
`state->fps` becomes that value and `req_fps` becomes -1; if initialized and
the clamped value is not in the table, nothing changes (no register is
written) and 0 is returned. -/
theorem set_frame_rate_clamps_then_stores (h : Header) (fps : Int) (d : Dev) :
    ((h.CONFIG_MACH_DELOSLTE_KOR = true ∧ d.state.vt_initialized = 1 ∧ fps = h.FRAME_RATE_7) →
      sr030pc50_set_frame_rate h fps d = (0, d)) ∧
    (¬ (h.CONFIG_MACH_DELOSLTE_KOR = true ∧ d.state.vt_initialized = 1 ∧ fps = h.FRAME_RATE_7) →
      (d.state.initialized = 0 →
        sr030pc50_set_frame_rate h fps d
          = (0, { d with state := { d.state with req_fps := clamp_fps h fps } })) ∧
      (d.state.initialized ≠ 0 →
        clamp_fps h fps ∈ (sr030pc50_framerates h).map (fun e => e.fps) →
        (sr030pc50_set_frame_rate h fps d).2.state.fps = clamp_fps h fps ∧
        (sr030pc50_set_frame_rate h fps d).2.state.req_fps = -1) ∧
      (d.state.initialized ≠ 0 →
        clamp_fps h fps ∉ (sr030pc50_framerates h).map (fun e => e.fps) →
        sr030pc50_set_frame_rate h fps d = (0, d))) := by
  constructor
  · intro hg
    simp only [sr030pc50_set_frame_rate, hg, and_self, if_true]
  · intro hg
    refine ⟨?_, ?_, ?_⟩
    · intro hi
      simp only [sr030pc50_set_frame_rate, hg, if_false, clamp_fps_eq, hi, if_true]
    · intro hi hm
      obtain ⟨idx, hidx⟩ := set_frame_rate_loop_some _ _ hm
      simp only [sr030pc50_set_frame_rate, hg, if_false, clamp_fps_eq, hi, hidx]
      by_cases hneg : idx < 0
      · simp only [hneg, if_true, and_self]
      · simp only [hneg, if_false]
        have hst := set_from_table_state h d.state.regs.fps idx
          { d with state := { d.state with fps := clamp_fps h fps, req_fps := -1 } }
        rcases hres : sr030pc50_set_from_table h d.state.regs.fps idx
          { d with state := { d.state with fps := clamp_fps h fps, req_fps := -1 } }
          with ⟨err, d2⟩
        rw [hres] at hst
        simp only at hst
        by_cases he : err < 0
        · simp only [he, if_true, hst, and_self]
        · simp only [he, if_false, hst, and_self]
    · intro hi hm
      simp only [sr030pc50_set_frame_rate, hg, if_false, clamp_fps_eq, hi,
        set_frame_rate_loop_none _ _ hm]

theorem set_frame_rate_clamps_then_stores_witness :
    sr030pc50_set_frame_rate {} 30 { state := { initialized := 0 } }
      = (0, { state := { initialized := 0, req_fps := 25 } }) ∧
    (sr030pc50_set_frame_rate {} 15 { state := { initialized := 1 } }).2.state.fps = 15 ∧
    (sr030pc50_set_frame_rate {} 15 { state := { initialized := 1 } }).2.state.req_fps = -1 ∧
    sr030pc50_set_frame_rate {} 10 { state := { initialized := 1, fps := 15 } }
      = (0, { state := { initialized := 1, fps := 15 } }) :=
  ⟨((set_frame_rate_clamps_then_stores {} 30 { state := { initialized := 0 } }).2
      (by decide)).1 rfl,
   (((set_frame_rate_clamps_then_stores {} 15 { state := { initialized := 1 } }).2
      (by decide)).2.1 (by decide) (by decide)).1,
   (((set_frame_rate_clamps_then_stores {} 15 { state := { initialized := 1 } }).2
      (by decide)).2.1 (by decide) (by decide)).2,
   ((set_frame_rate_clamps_then_stores {} 10 { state := { initialized := 1, fps := 15 } }).2
      (by decide)).2.2 (by decide) (by decide)⟩

/-! ## Stream control and preview start -/

/-- C6: `sr030pc50_start_preview` is gated on `runmode`.  In
`RUNMODE_NOTREADY` or `RUNMODE_CAPTURING` it returns `-EPERM` and leaves the
whole state, trace included, as it was (no register write, no field
changed).  In every other `runmode`: whenever it returns 0 it leaves
`runmode = RUNMODE_RUNNING` if `sensor_mode == SENSOR_CAMERA` and
`RUNMODE_RECORDING` otherwise; and when no register write can fail
(`PreviewWritesOk`, with `STREAM_START` different from `STREAM_STOP`) it does
return 0, with `sensor_mode` unchanged. -/
theorem start_preview_gate_and_runmode (h : Header) (d : Dev) :
    ((d.state.runmode = RUNMODE_NOTREADY ∨ d.state.runmode = RUNMODE_CAPTURING) →
      sr030pc50_start_preview h d = (-EPERM, d)) ∧
    (¬ (d.state.runmode = RUNMODE_NOTREADY ∨ d.state.runmode = RUNMODE_CAPTURING) →
      ((sr030pc50_start_preview h d).1 = 0 →
        (sr030pc50_start_preview h d).2.state.runmode
          = if (sr030pc50_start_preview h d).2.state.sensor_mode = h.SENSOR_CAMERA
            then RUNMODE_RUNNING else RUNMODE_RECORDING) ∧
      (h.STREAM_START ≠ h.STREAM_STOP → PreviewWritesOk h d →
        (sr030pc50_start_preview h d).1 = 0 ∧
        (sr030pc50_start_preview h d).2.state.sensor_mode = d.state.sensor_mode ∧
        (sr030pc50_start_preview h d).2.state.runmode
          = if d.state.sensor_mode = h.SENSOR_CAMERA
            then RUNMODE_RUNNING else RUNMODE_RECORDING)) := by
  constructor
  · intro hr
    unfold sr030pc50_start_preview
    rw [if_pos hr]
  · intro hr
    -- step 1: the pending frame rate
    have h1 : ∀ r1 : Int × Dev,
        r1 = (if d.state.req_fps ≥ 0 then sr030pc50_set_frame_rate h d.state.req_fps d
              else (0, d)) →
        ((∃ a b, r1.2.state = { d.state with fps := a, req_fps := b }) ∧ SameEnv d r1.2) ∧
        (PreviewWritesOk h d → r1.1 = 0) := by
      intro r1 hr1
      by_cases hq : d.state.req_fps ≥ 0
      · rw [if_pos hq] at hr1
        subst hr1
        exact ⟨set_frame_rate_shape h _ d, fun hok => set_frame_rate_ok h _ d hok.1 hok.2.2.1⟩
      · rw [if_neg hq] at hr1
        subst hr1
        exact ⟨⟨⟨d.state.fps, d.state.req_fps, rfl⟩, sameEnv_refl d⟩, fun _ => rfl⟩
    unfold sr030pc50_start_preview
    rw [if_neg hr]
    generalize hg1 : (if d.state.req_fps ≥ 0 then sr030pc50_set_frame_rate h d.state.req_fps d
      else (0, d)) = r1
    obtain ⟨⟨⟨a, b, hs1⟩, henv1⟩, hok1⟩ := h1 r1 hg1.symm
    rcases r1 with ⟨err1, d1⟩
    simp only at hs1 henv1 hok1
    show ((if err1 < 0 then (err1, d1) else _ : Int × Dev).1 = 0 → _) ∧ _
    by_cases he1 : err1 < 0
    · simp only [if_pos he1]
      refine ⟨fun h0 => absurd h0 (by omega), fun _ hok => absurd (hok1 hok) (by omega)⟩
    · simp only [if_neg he1]
      -- step 2: the preview size
      obtain ⟨⟨p, hs2⟩, henv2⟩ := set_preview_size_frame h d1
      have hok2 : PreviewWritesOk h d → (sr030pc50_set_preview_size h d1).1 = 0 := by
        intro hok
        refine set_preview_size_ok h d1 (sameEnv_busOk henv1 hok.1) ?_
        intro hg f hf
        have hpre : d1.state.preview = d.state.preview := by rw [hs1]
        have hregs : d1.state.regs = d.state.regs := by rw [hs1]
        rw [hpre] at hf
        rw [hregs]
        exact hok.2.2.2 hg f hf
      rcases hres2 : sr030pc50_set_preview_size h d1 with ⟨err2, d2⟩
      rw [hres2] at hs2 henv2 hok2
      simp only at hs2 henv2 hok2
      by_cases he2 : err2 < 0
      · simp only [if_pos he2]
        refine ⟨fun h0 => absurd h0 (by omega), fun _ hok => absurd (hok2 hok) (by omega)⟩
      · simp only [if_neg he2]
        -- step 3: stream start
        have hle3 := control_stream_ret h h.STREAM_START d2
        rcases hres3 : sr030pc50_control_stream h h.STREAM_START d2 with ⟨err3, d3⟩
        rw [hres3] at hle3
        simp only at hle3
        by_cases he3 : err3 < 0
        · simp only [if_pos he3]
          refine ⟨fun h0 => absurd h0 (by omega), ?_⟩
          intro hss hok
          have hf3 := control_stream_start_frame h h.STREAM_START d2 hss
          rw [hres3] at hf3
          have hregs : d2.state.regs = d.state.regs := by rw [hs2, hs1]
          have := hf3.2 (sameEnv_busOk (sameEnv_trans henv1 henv2) hok.1)
            (by rw [hregs]; exact hok.2.1)
          simp only at this
          omega
        · simp only [if_neg he3]
          constructor
          · intro _
            trivial
          · intro hss hok
            have hf3 := control_stream_start_frame h h.STREAM_START d2 hss
            rw [hres3] at hf3
            have hst3 : d3.state = d2.state := hf3.1.1
            have hsm : d3.state.sensor_mode = d.state.sensor_mode := by
              rw [hst3, hs2, hs1]
            have hms : (if d3.state.runmode = RUNMODE_INIT then msleep_debug 200 d3
                else d3).state = d3.state := by
              split_ifs
              · exact (sameDriver_msleep 200 d3).1
              · rfl
            refine ⟨trivial, ?_, ?_⟩
            · rw [hms, hsm]
            · rw [hms, hsm]

theorem preview_ready_dev_ok : PreviewWritesOk {} preview_ready_dev := by
  refine ⟨⟨rfl, fun _ => rfl⟩, by decide, ?_, ?_⟩
  · intro e he h0
    simp only [sr030pc50_framerates, List.mem_cons, List.mem_singleton, List.not_mem_nil,
      or_false] at he
    rcases he with rfl | rfl | rfl | rfl | rfl <;>
      exact ⟨by decide, { reg := some [0x0300, 0x1120] }, [0x0300, 0x1120], rfl, rfl⟩
  · intro hg
    exact absurd hg (by decide)

theorem start_preview_gate_and_runmode_witness :
    sr030pc50_start_preview {} {} = (-EPERM, {}) ∧
    (sr030pc50_start_preview {} preview_ready_dev).1 = 0 ∧
    (sr030pc50_start_preview {} preview_ready_dev).2.state.sensor_mode = 0 ∧
    (sr030pc50_start_preview {} preview_ready_dev).2.state.runmode = RUNMODE_RUNNING :=
  ⟨(start_preview_gate_and_runmode {} {}).1 (Or.inl rfl),
   ((start_preview_gate_and_runmode {} preview_ready_dev).2 (by decide)).2 (by decide)
     preview_ready_dev_ok⟩

theorem power_on_spec (h : Header) (flag : Int) (hf : flag ≠ 0) (d : Dev) :
    sr030pc50_power h flag d =
      (0, { d with state := { d.state with power_on := h.SR030PC50_HW_POWER_ON },
                   trace := d.trace ++ power_on_events h }) := by
  unfold sr030pc50_power
  rw [if_pos hf]
  cases hg : h.CONFIG_MACH_GARDA <;>
    simp [emit, msleep_debug, power_on_events, hg]

theorem power_off_spec (h : Header) (d : Dev) :
    sr030pc50_power h 0 d =
      (0, { d with state := { d.state with power_on := h.SR030PC50_HW_POWER_OFF },
                   trace := d.trace ++ power_off_events h }) := by
  unfold sr030pc50_power
  rw [if_neg (by decide)]
  cases hg : h.CONFIG_MACH_GARDA <;>
    simp [emit, power_off_events, hg]

theorem reset_power_on_spec (h : Header) (d : Dev) :
    sr030pc50_reset_power_on h d =
      (0, { d with state := { d.state with power_on := h.SR030PC50_HW_POWER_ON,
                                           reset_done := 1 },
                   stats_reset := (d.stats_reset + 1) % 2 ^ 32,
                   trace := d.trace ++ power_on_events h }) := by
  unfold sr030pc50_reset_power_on
  rw [power_on_spec h 1 (by decide) d]
  rfl

/-- What `sr030pc50_reset` returns and leaves behind, as one equation. -/
theorem reset_spec (h : Header) (val : Nat) (d : Dev) :
    sr030pc50_reset h val d =
      (0, { d with
        state := { reset_state h d.state with
                   power_on := if val ≠ 0 then h.SR030PC50_HW_POWER_ON else d.state.power_on },
        stats_reset := (d.stats_reset + 1) % 2 ^ 32,
        trace := d.trace ++ flush_events d ++
          (if val ≠ 0 then
            (if h.SR030PC50_HW_POWER_ON = d.state.power_on
              then power_off_events h ++ [Event.sleep 50] else []) ++ power_on_events h
           else []) }) := by
  unfold sr030pc50_reset
  by_cases hv : val ≠ 0
  · simp only [if_pos hv]
    by_cases hp : h.SR030PC50_HW_POWER_ON = d.state.power_on
    · cases hw : d.state.wq <;>
        simp [hp, hw, power_off_spec, reset_power_on_spec, msleep_debug, emit, flush_events,
          reset_state]
    · cases hw : d.state.wq <;>
        simp [hp, hw, reset_power_on_spec, emit, flush_events, reset_state]
  · simp only [if_neg hv]
    cases hw : d.state.wq <;>
      simp [hw, sr030pc50_reset_done, emit, flush_events, reset_state]

/-- C11: `sr030pc50_reset` returns 0 for every `val` and always leaves
`initialized = 0`, `runmode = RUNMODE_NOTREADY`, `reset_done = 1` and
`stats_reset` one higher (as a `u32`).  With `val = 0` no power sequencing
is done and `power_on` is unchanged; with `val ≠ 0` the sensor is powered off
(followed by a 50 ms sleep) exactly when it was powered on, then powered on,
and `power_on` ends as `SR030PC50_HW_POWER_ON`. -/
theorem reset_reinitializes_and_power_cycles (h : Header) (val : Nat) (d : Dev) :
    (sr030pc50_reset h val d).1 = 0 ∧
    (sr030pc50_reset h val d).2.state.initialized = 0 ∧
    (sr030pc50_reset h val d).2.state.runmode = RUNMODE_NOTREADY ∧
    (sr030pc50_reset h val d).2.state.reset_done = 1 ∧
    (sr030pc50_reset h val d).2.stats_reset = (d.stats_reset + 1) % 2 ^ 32 ∧
    (d.stats_reset + 1 < 2 ^ 32 →
      (sr030pc50_reset h val d).2.stats_reset = d.stats_reset + 1) ∧
    (val = 0 →
      (sr030pc50_reset h val d).2.state.power_on = d.state.power_on ∧
      (sr030pc50_reset h val d).2.trace = d.trace ++ flush_events d) ∧
    (val ≠ 0 →
      (sr030pc50_reset h val d).2.state.power_on = h.SR030PC50_HW_POWER_ON ∧
      (sr030pc50_reset h val d).2.trace =
        d.trace ++ flush_events d ++
          (if h.SR030PC50_HW_POWER_ON = d.state.power_on
            then power_off_events h ++ [Event.sleep 50] else []) ++
          power_on_events h) := by
  rw [reset_spec]
  refine ⟨rfl, rfl, rfl, rfl, rfl, fun hlt => Nat.mod_eq_of_lt hlt, ?_, ?_⟩
  · intro hv
    subst hv
    simp
  · intro hv
    simp [hv, List.append_assoc]

theorem reset_reinitializes_and_power_cycles_witness :
    (sr030pc50_reset { CONFIG_MACH_GARDA := true } 1
      { state := { power_on := 1, initialized := 1, runmode := RUNMODE_RUNNING },
        stats_reset := 6 }).1 = 0 ∧
    (sr030pc50_reset { CONFIG_MACH_GARDA := true } 1
      { state := { power_on := 1, initialized := 1, runmode := RUNMODE_RUNNING },
        stats_reset := 6 }).2.stats_reset = 7 ∧
    (sr030pc50_reset { CONFIG_MACH_GARDA := true } 1
      { state := { power_on := 1, initialized := 1, runmode := RUNMODE_RUNNING },
        stats_reset := 6 }).2.state.power_on = 1 ∧
    (sr030pc50_reset {} 0 { state := { power_on := 1, wq := true } }).2.state.power_on = 1 ∧
    (sr030pc50_reset {} 0 { state := { power_on := 1, wq := true } }).2.trace =
      [Event.flush_workqueue] :=
  ⟨(reset_reinitializes_and_power_cycles { CONFIG_MACH_GARDA := true } 1
      { state := { power_on := 1, initialized := 1, runmode := RUNMODE_RUNNING },
        stats_reset := 6 }).1,
   (reset_reinitializes_and_power_cycles { CONFIG_MACH_GARDA := true } 1
      { state := { power_on := 1, initialized := 1, runmode := RUNMODE_RUNNING },
        stats_reset := 6 }).2.2.2.2.2.1 (by decide),
   ((reset_reinitializes_and_power_cycles { CONFIG_MACH_GARDA := true } 1
      { state := { power_on := 1, initialized := 1, runmode := RUNMODE_RUNNING },
        stats_reset := 6 }).2.2.2.2.2.2.2 (by decide)).1,
   ((reset_reinitializes_and_power_cycles {} 0
      { state := { power_on := 1, wq := true } }).2.2.2.2.2.2.1 rfl).1,
   ((reset_reinitializes_and_power_cycles {} 0
      { state := { power_on := 1, wq := true } }).2.2.2.2.2.2.1 rfl).2⟩

/-! ## Debug log level -/

theorem strstr_iff (s1 s2 : List Char) : strstr s1 s2 = true ↔ s2 <:+: s1 := by
  induction s1 with
  | nil => simp [strstr, List.isEmpty_iff]
  | cons c s1 ih =>
    rw [strstr, Bool.or_eq_true, ih, List.infix_cons_iff, List.isPrefixOf_iff_prefix]

theorem testBit_set (x t k : Nat) :
    (x ||| 2 ^ t).testBit k = (x.testBit k || decide (t = k)) := by
  rw [Nat.testBit_or, Nat.testBit_two_pow]

theorem testBit_clear (x t k : Nat) (ht : t < 32) (hx : x < 2 ^ 32) :
    (x &&& not32 (2 ^ t)).testBit k = (x.testBit k && !decide (t = k)) := by
  have hm : 2 ^ t % 2 ^ 32 = 2 ^ t :=
    Nat.mod_eq_of_lt (Nat.pow_lt_pow_right (by decide) ht)
  rw [not32, hm, Nat.testBit_and, Nat.testBit_xor, Nat.testBit_two_pow_sub_one,
    Nat.testBit_two_pow]
  by_cases hk : k < 32
  · simp [hk]
  · have hz : x.testBit k = false :=
      Nat.testBit_lt_two_pow (lt_of_lt_of_le hx (Nat.pow_le_pow_right (by decide) (by omega)))
    simp [hz]

theorem set_bit_lt (x t : Nat) (ht : t < 32) (hx : x < 2 ^ 32) : x ||| 2 ^ t < 2 ^ 32 :=
  Nat.or_lt_two_pow hx (Nat.pow_lt_pow_right (by decide) ht)

theorem clear_bit_lt (x m : Nat) (hx : x < 2 ^ 32) : x &&& m < 2 ^ 32 :=
  lt_of_le_of_lt Nat.and_le_left hx

/-- One step of `cam_loglevel_store` on one level bit: `|=` when the keyword
is found and `&= ~` when it is not, read bit by bit. -/
theorem loglevel_step (b : Bool) (x t k : Nat) (ht : t < 32) (hx : x < 2 ^ 32) :
    (if b = true then x ||| 2 ^ t else x &&& not32 (2 ^ t)) < 2 ^ 32 ∧
    (if b = true then x ||| 2 ^ t else x &&& not32 (2 ^ t)).testBit k =
      (if t = k then b else x.testBit k) := by
  cases b
  · refine ⟨clear_bit_lt x _ hx, ?_⟩
    rw [if_neg (by decide), testBit_clear x t k ht hx]
    by_cases hk : t = k <;> simp [hk]
  · refine ⟨set_bit_lt x t ht hx, ?_⟩
    rw [if_pos rfl, testBit_set]
    by_cases hk : t = k <;> simp [hk]

/-- Every bit of `dbg_level` after `cam_loglevel_store`, when the three level
masks are single bits `t`, `g`, `i` of a `u32`. -/
theorem loglevel_bit (h : Header) (t g i : Nat) (ht : t < 32) (hg : g < 32) (hi : i < 32)
    (hT : h.CAMDBG_LEVEL_TRACE = 2 ^ t) (hD : h.CAMDBG_LEVEL_DEBUG = 2 ^ g)
    (hI : h.CAMDBG_LEVEL_INFO = 2 ^ i)
    (buf : List Char) (count : Nat) (d : Dev) (hd : d.dbg_level < 2 ^ 32) (k : Nat) :
    (cam_loglevel_store h buf count d).2.dbg_level < 2 ^ 32 ∧
    (cam_loglevel_store h buf count d).2.dbg_level.testBit k =
      (if strstr (cstring buf) "info".toList = true ∧ i = k then true
       else if g = k then strstr (cstring buf) "debug".toList
       else if t = k then strstr (cstring buf) "trace".toList
       else d.dbg_level.testBit k) := by
  unfold cam_loglevel_store
  simp only [hT, hD, hI]
  generalize strstr (cstring buf) "trace".toList = bT
  generalize strstr (cstring buf) "debug".toList = bD
  generalize strstr (cstring buf) "info".toList = bI
  have h1 := loglevel_step bT d.dbg_level t k ht hd
  have h2 := loglevel_step bD _ g k hg h1.1
  rw [h1.2] at h2
  cases bI
  · simp only [Bool.false_eq_true, false_and, if_false]
    exact h2
  · simp only [true_and, if_true]
    refine ⟨set_bit_lt _ i hi h2.1, ?_⟩
    rw [testBit_set, h2.2]
    by_cases hk : i = k <;> simp [hk]

/-- C12: `cam_loglevel_store`, for every input buffer, read as the C string
that starts at it: afterwards the TRACE bit of `dbg_level` is set iff the
string contains "trace", the DEBUG bit iff it contains "debug", the INFO bit
is set if it contains "info" and keeps its value otherwise, every other bit
and every other variable is unchanged, and the return value is `count`.  The
three masks of the header are taken as distinct single bits of a `u32`. -/
theorem loglevel_store_sets_level_bits (h : Header) (t g i : Nat)
    (ht : t < 32) (hg : g < 32) (hi : i < 32)
    (hT : h.CAMDBG_LEVEL_TRACE = 2 ^ t) (hD : h.CAMDBG_LEVEL_DEBUG = 2 ^ g)
    (hI : h.CAMDBG_LEVEL_INFO = 2 ^ i) (htg : t ≠ g) (hti : t ≠ i) (hgi : g ≠ i)
    (buf : List Char) (count : Nat) (d : Dev) (hd : d.dbg_level < 2 ^ 32) :
    (cam_loglevel_store h buf count d).1 = count ∧
    ((cam_loglevel_store h buf count d).2.dbg_level.testBit t = true ↔
      "trace".toList <:+: cstring buf) ∧
    ((cam_loglevel_store h buf count d).2.dbg_level.testBit g = true ↔
      "debug".toList <:+: cstring buf) ∧
    ((cam_loglevel_store h buf count d).2.dbg_level.testBit i = true ↔
      "info".toList <:+: cstring buf ∨ d.dbg_level.testBit i = true) ∧
    (∀ k, k ≠ t → k ≠ g → k ≠ i →
      (cam_loglevel_store h buf count d).2.dbg_level.testBit k = d.dbg_level.testBit k) ∧
    (cam_loglevel_store h buf count d).2.dbg_level < 2 ^ 32 ∧
    (cam_loglevel_store h buf count d).2 =
      { d with dbg_level := (cam_loglevel_store h buf count d).2.dbg_level } ∧
    (Char.ofNat 0 ∉ buf → cstring buf = buf) := by
  have hb := loglevel_bit h t g i ht hg hi hT hD hI buf count d hd
  refine ⟨rfl, ?_, ?_, ?_, ?_, (hb 0).1, rfl, ?_⟩
  · rw [(hb t).2, if_neg (fun hc => hti hc.2.symm), if_neg (fun hc => htg hc.symm),
      if_pos rfl, strstr_iff]
  · rw [(hb g).2, if_neg (fun hc => hgi hc.2.symm), if_pos rfl, strstr_iff]
  · rw [(hb i).2, ← strstr_iff]
    by_cases hs : strstr (cstring buf) "info".toList = true
    · rw [if_pos ⟨hs, rfl⟩]
      exact ⟨fun _ => Or.inl hs, fun _ => rfl⟩
    · rw [if_neg (fun hc => hs hc.1), if_neg hgi, if_neg hti]
      exact ⟨Or.inr, fun hc => hc.resolve_left hs⟩
  · intro k hkt hkg hki
    rw [(hb k).2, if_neg (fun hc => hki hc.2.symm), if_neg (fun hc => hkg hc.symm),
      if_neg (fun hc => hkt hc.symm)]
  · intro hn
    unfold cstring
    rw [List.takeWhile_eq_self_iff]
    intro c hc
    simp only [ne_eq, decide_eq_true_eq]
    intro h0
    exact hn (h0 ▸ hc)

theorem loglevel_store_sets_level_bits_witness :
    (cam_loglevel_store {} "debug info\n".toList 11 { dbg_level := 0x13 }).1 = 11 ∧
    ((cam_loglevel_store {} "debug info\n".toList 11 { dbg_level := 0x13 }).2.dbg_level.testBit 4
      = true ↔ "trace".toList <:+: cstring "debug info\n".toList) ∧
    (cam_loglevel_store {} "debug info\n".toList 11 { dbg_level := 0x13 }).2.dbg_level = 0x0f :=
  ⟨(loglevel_store_sets_level_bits {} 4 3 2 (by decide) (by decide) (by decide) rfl rfl rfl
      (by decide) (by decide) (by decide) "debug info\n".toList 11 { dbg_level := 0x13 }
      (by decide)).1,
   (loglevel_store_sets_level_bits {} 4 3 2 (by decide) (by decide) (by decide) rfl rfl rfl
      (by decide) (by decide) (by decide) "debug info\n".toList 11 { dbg_level := 0x13 }
      (by decide)).2.1,
   by decide⟩

/-! ## Scene mode -/

theorem is_scene_mode_none (h : Header) : is_scene_mode h h.SCENE_MODE_NONE = true := by
  simp [is_scene_mode]

/-- One pass more than needed changes nothing: the result of
`sr030pc50_set_scene_mode_retry` does not depend on the bound once it is met. -/
theorem set_scene_mode_retry_mono (h : Header) :
    ∀ (fuel : Nat) (val : Int) (d : Dev) (r : Int × Dev),
      sr030pc50_set_scene_mode_retry h fuel val d = some r →
      sr030pc50_set_scene_mode_retry h (fuel + 1) val d = some r := by
  intro fuel
  induction fuel with
  | zero => intro val d r hr; simp [sr030pc50_set_scene_mode_retry] at hr
  | succ fuel ih =>
    intro val d r hr
    rw [sr030pc50_set_scene_mode_retry] at hr ⊢
    by_cases hs : is_scene_mode h val = true
    · rw [if_pos hs] at hr ⊢
      exact hr
    · rw [if_neg hs] at hr ⊢
      exact ih _ _ _ hr

theorem set_scene_mode_retry_two (h : Header) (val : Int) (d : Dev) :
    sr030pc50_set_scene_mode_retry h 2 val d =
      some (0, { (sr030pc50_set_from_table h d.state.regs.scene_mode
                    (if is_scene_mode h val = true then val else h.SCENE_MODE_NONE) d).2 with
                 state := { (sr030pc50_set_from_table h d.state.regs.scene_mode
                    (if is_scene_mode h val = true then val else h.SCENE_MODE_NONE) d).2.state with
                   scene_mode := if is_scene_mode h val = true then val
                                 else h.SCENE_MODE_NONE } }) := by
  by_cases hs : is_scene_mode h val = true
  · simp only [sr030pc50_set_scene_mode_retry, if_pos hs]
  · simp only [sr030pc50_set_scene_mode_retry, if_neg hs, if_pos (is_scene_mode_none h)]

theorem set_scene_mode_retry_ge (h : Header) (val : Int) (d : Dev) :
    ∀ k, sr030pc50_set_scene_mode_retry h (2 + k) val d =
      sr030pc50_set_scene_mode_retry h 2 val d := by
  intro k
  induction k with
  | zero => rfl
  | succ k ih =>
    rw [set_scene_mode_retry_two] at ih ⊢
    exact set_scene_mode_retry_mono h (2 + k) val d _ ih

/-- C22: `sr030pc50_set_scene_mode` terminates for every input value.  Two
passes through the `switch` always give the result, and one pass does exactly
when the value is one of the fourteen supported scene modes: an unsupported
value is replaced by `SCENE_MODE_NONE`, which is supported.  On return
`scene_mode` is the requested value if supported and `SCENE_MODE_NONE`
otherwise, and the return value is 0 whatever the register-table write
returns. -/
theorem set_scene_mode_terminates (h : Header) (val : Int) (d : Dev) :
    (∀ fuel, 2 ≤ fuel →
      sr030pc50_set_scene_mode_retry h fuel val d = some (sr030pc50_set_scene_mode h val d)) ∧
    (sr030pc50_set_scene_mode_retry h 1 val d = some (sr030pc50_set_scene_mode h val d) ↔
      is_scene_mode h val = true) ∧
    (sr030pc50_set_scene_mode h val d).1 = 0 ∧
    (is_scene_mode h val = true → (sr030pc50_set_scene_mode h val d).2.state.scene_mode = val) ∧
    (is_scene_mode h val = false →
      (sr030pc50_set_scene_mode h val d).2.state.scene_mode = h.SCENE_MODE_NONE) ∧
    (is_scene_mode h val = true ↔
      val = h.SCENE_MODE_NONE ∨ val = h.SCENE_MODE_PORTRAIT ∨ val = h.SCENE_MODE_NIGHTSHOT ∨
      val = h.SCENE_MODE_BACK_LIGHT ∨ val = h.SCENE_MODE_LANDSCAPE ∨
      val = h.SCENE_MODE_SPORTS ∨ val = h.SCENE_MODE_PARTY_INDOOR ∨
      val = h.SCENE_MODE_BEACH_SNOW ∨ val = h.SCENE_MODE_SUNSET ∨
      val = h.SCENE_MODE_DUSK_DAWN ∨ val = h.SCENE_MODE_FALL_COLOR ∨
      val = h.SCENE_MODE_FIREWORKS ∨ val = h.SCENE_MODE_TEXT ∨
      val = h.SCENE_MODE_CANDLE_LIGHT) := by
  have h2 := set_scene_mode_retry_two h val d
  have hdef : sr030pc50_set_scene_mode_retry h 2 val d =
      some (sr030pc50_set_scene_mode h val d) := by
    unfold sr030pc50_set_scene_mode
    rw [h2]
  refine ⟨?_, ?_, ?_, ?_, ?_, ?_⟩
  · intro fuel hf
    obtain ⟨k, rfl⟩ := Nat.exists_eq_add_of_le hf
    rw [set_scene_mode_retry_ge, hdef]
  · constructor
    · intro h1
      by_contra hs
      simp only [sr030pc50_set_scene_mode_retry, if_neg hs] at h1
      exact absurd h1 (by simp)
    · intro hs
      rw [← hdef]
      simp only [sr030pc50_set_scene_mode_retry, if_pos hs]
  · unfold sr030pc50_set_scene_mode
    rw [h2]
  · intro hs
    unfold sr030pc50_set_scene_mode
    rw [h2]
    simp only [if_pos hs]
  · intro hs
    unfold sr030pc50_set_scene_mode
    rw [h2]
    simp only [hs, Bool.false_eq_true, if_false]
  · simp [is_scene_mode]

theorem set_scene_mode_terminates_witness :
    sr030pc50_set_scene_mode_retry {} 2 99 {} = some (sr030pc50_set_scene_mode {} 99 {}) ∧
    (sr030pc50_set_scene_mode {} 99 {}).2.state.scene_mode = 1 ∧
    (sr030pc50_set_scene_mode {} 5 { adapter := false }).2.state.scene_mode = 5 :=
  ⟨(set_scene_mode_terminates {} 99 {}).1 2 (le_refl 2),
   (set_scene_mode_terminates {} 99 {}).2.2.2.2.1 (by decide),
   (set_scene_mode_terminates {} 5 { adapter := false }).2.2.2.1 (by decide)⟩

/-! ## Saved controls -/

theorem save_ctrl_loop_saved (ctrl : v4l2_control) :
    ∀ ctrls : List sr030pc50_control, (∃ c ∈ ctrls, c.id = ctrl.id) →
      saved_value ctrl.id (sr030pc50_save_ctrl_loop ctrl ctrls) = some ctrl.value := by
  intro ctrls
  induction ctrls with
  | nil => intro hc; obtain ⟨c, hm, _⟩ := hc; exact absurd hm (List.not_mem_nil c)
  | cons c ctrls ih =>
    intro hc
    by_cases he : ctrl.id = c.id
    · simp only [sr030pc50_save_ctrl_loop, if_pos he, saved_value]
    · simp only [sr030pc50_save_ctrl_loop, if_neg he, saved_value]
      obtain ⟨c1, hm, hid⟩ := hc
      rcases List.mem_cons.1 hm with rfl | hm
      · exact absurd hid.symm he
      · exact ih ⟨c1, hm, hid⟩

theorem save_ctrl_loop_other (ctrl : v4l2_control) (id : v4l2_cid) (hne : id ≠ ctrl.id) :
    ∀ ctrls : List sr030pc50_control,
      saved_value id (sr030pc50_save_ctrl_loop ctrl ctrls) = saved_value id ctrls := by
  intro ctrls
  induction ctrls with
  | nil => rfl
  | cons c ctrls ih =>
    by_cases he : ctrl.id = c.id
    · have hn : ¬ id = c.id := fun hc => hne (hc.trans he.symm)
      simp only [sr030pc50_save_ctrl_loop, if_pos he, saved_value, if_neg hn]
    · simp only [sr030pc50_save_ctrl_loop, if_neg he, saved_value, ih]

theorem save_ctrl_loop_missing (ctrl : v4l2_control) :
    ∀ ctrls : List sr030pc50_control, (∀ c ∈ ctrls, c.id ≠ ctrl.id) →
      sr030pc50_save_ctrl_loop ctrl ctrls = ctrls := by
  intro ctrls
  induction ctrls with
  | nil => intro _; rfl
  | cons c ctrls ih =>
    intro hc
    have he : ¬ ctrl.id = c.id := fun hx => hc c (List.mem_cons_self _ _) hx.symm
    simp only [sr030pc50_save_ctrl_loop, if_neg he]
    rw [ih (fun c1 hm => hc c1 (List.mem_cons_of_mem _ hm))]

/-- C28: `sr030pc50_pre_s_ctrl` saves the control whatever `state->initialized`
is.  For every control that `sr030pc50_is_clear_ctrl` does not skip, the table
`sr030pc50_ctrls` after the call is the table after `sr030pc50_save_ctrl`, for
every state; so when the id is in the table its saved value is `ctrl->value`,
the saved values of the other ids are as before, and a table without the id
is unchanged.  A control with a negative value and an id other than the two
brightness ids is skipped: return 0 and nothing changed (no save, no register
write). -/
theorem pre_s_ctrl_saves_regardless_of_initialized (h : Header) (ctrl : v4l2_control)
    (d : Dev) :
    (sr030pc50_is_clear_ctrl ctrl = false →
      (sr030pc50_pre_s_ctrl h ctrl d).2.sr030pc50_ctrls =
        sr030pc50_save_ctrl_loop ctrl d.sr030pc50_ctrls ∧
      ((∃ c ∈ d.sr030pc50_ctrls, c.id = ctrl.id) →
        saved_value ctrl.id (sr030pc50_pre_s_ctrl h ctrl d).2.sr030pc50_ctrls =
          some ctrl.value) ∧
      (∀ id, id ≠ ctrl.id →
        saved_value id (sr030pc50_pre_s_ctrl h ctrl d).2.sr030pc50_ctrls =
          saved_value id d.sr030pc50_ctrls) ∧
      ((∀ c ∈ d.sr030pc50_ctrls, c.id ≠ ctrl.id) →
        (sr030pc50_pre_s_ctrl h ctrl d).2.sr030pc50_ctrls = d.sr030pc50_ctrls)) ∧
    (ctrl.value < 0 → ctrl.id ≠ V4L2_CID_CAMERA_BRIGHTNESS →
      ctrl.id ≠ V4L2_CID_CAM_BRIGHTNESS →
      sr030pc50_is_clear_ctrl ctrl = true ∧ sr030pc50_pre_s_ctrl h ctrl d = (0, d)) ∧
    (sr030pc50_is_clear_ctrl ctrl = true ↔
      ctrl.value < 0 ∧ ctrl.id ≠ V4L2_CID_CAMERA_BRIGHTNESS ∧
        ctrl.id ≠ V4L2_CID_CAM_BRIGHTNESS) := by
  have hiff : sr030pc50_is_clear_ctrl ctrl = true ↔
      ctrl.value < 0 ∧ ctrl.id ≠ V4L2_CID_CAMERA_BRIGHTNESS ∧
        ctrl.id ≠ V4L2_CID_CAM_BRIGHTNESS := by
    rcases ctrl with ⟨id, value⟩
    cases id <;> simp [sr030pc50_is_clear_ctrl]
  refine ⟨?_, ?_, hiff⟩
  · intro hc
    have ht : (sr030pc50_pre_s_ctrl h ctrl d).2.sr030pc50_ctrls =
        sr030pc50_save_ctrl_loop ctrl d.sr030pc50_ctrls := by
      unfold sr030pc50_pre_s_ctrl
      rw [hc]
      simp only [Bool.false_eq_true, if_false]
      exact (s_ctrl_frame h ctrl (sr030pc50_save_ctrl ctrl d).2).2.1
    refine ⟨ht, ?_, ?_, ?_⟩
    · intro hin
      rw [ht]
      exact save_ctrl_loop_saved ctrl _ hin
    · intro id hne
      rw [ht]
      exact save_ctrl_loop_other ctrl id hne _
    · intro hmiss
      rw [ht]
      exact save_ctrl_loop_missing ctrl _ hmiss
  · intro hv h1 h2
    have hc : sr030pc50_is_clear_ctrl ctrl = true := hiff.2 ⟨hv, h1, h2⟩
    refine ⟨hc, ?_⟩
    unfold sr030pc50_pre_s_ctrl
    rw [hc]
    rfl

theorem pre_s_ctrl_saves_regardless_of_initialized_witness :
    saved_value V4L2_CID_CAM_METERING
      (sr030pc50_pre_s_ctrl {} ⟨V4L2_CID_CAM_METERING, 2⟩
        { sr030pc50_ctrls := sr030pc50_ctrls_init {},
          state := { initialized := 1 } }).2.sr030pc50_ctrls = some 2 ∧
    saved_value V4L2_CID_CAM_METERING
      (sr030pc50_pre_s_ctrl {} ⟨V4L2_CID_CAM_METERING, 2⟩
        { sr030pc50_ctrls := sr030pc50_ctrls_init {},
          state := { initialized := 0 } }).2.sr030pc50_ctrls = some 2 ∧
    sr030pc50_pre_s_ctrl {} ⟨V4L2_CID_CAM_METERING, -1⟩
        { sr030pc50_ctrls := sr030pc50_ctrls_init {} } =
      (0, { sr030pc50_ctrls := sr030pc50_ctrls_init {} }) :=
  ⟨((pre_s_ctrl_saves_regardless_of_initialized {} ⟨V4L2_CID_CAM_METERING, 2⟩
      { sr030pc50_ctrls := sr030pc50_ctrls_init {},
        state := { initialized := 1 } }).1 (by decide)).2.1
      ⟨⟨V4L2_CID_CAM_METERING, 1, 1⟩, by decide, rfl⟩,
   ((pre_s_ctrl_saves_regardless_of_initialized {} ⟨V4L2_CID_CAM_METERING, 2⟩
      { sr030pc50_ctrls := sr030pc50_ctrls_init {},
        state := { initialized := 0 } }).1 (by decide)).2.1
      ⟨⟨V4L2_CID_CAM_METERING, 1, 1⟩, by decide, rfl⟩,
   ((pre_s_ctrl_saves_regardless_of_initialized {} ⟨V4L2_CID_CAM_METERING, -1⟩
      { sr030pc50_ctrls := sr030pc50_ctrls_init {} }).2.1 (by decide) (by decide)
      (by decide)).2⟩

/-! ## EXIF exposure time -/

/-- C26 (code differs): `sr030pc50_get_exif` divides by the exposure time
under `if (exposure_time)`, but the `V4L2_CID_CAMERA_EXIF_EXPTIME` case of
`sr030pc50_g_ctrl` divides `(24000000 / 2)` by `state->exif.exp_time_den`
without a test.  For an initialized sensor in camera mode the call is a
division by zero exactly when the exposure time it has just fetched is 0: with
the three exposure registers reading 0, and also when the page write fails
and the stored `exp_time_den` is 0.  On the same input `sr030pc50_get_exif`
returns 0 with `exp_time_den = 0`. -/
theorem g_ctrl_exptime_divides_unguarded (h : Header) (value : Int) (d : Dev) :
    ((sr030pc50_g_ctrl h ⟨V4L2_CID_CAMERA_EXIF_EXPTIME, value⟩ d).isNone = true ↔
      d.state.initialized ≠ 0 ∧ d.state.sensor_mode = h.SENSOR_CAMERA ∧
        (sr030pc50_get_exif_exptime h d.state.exif.exp_time_den d).1.2 = 0) ∧
    (sr030pc50_g_ctrl {} ⟨V4L2_CID_CAMERA_EXIF_EXPTIME, 0⟩
      { state := { initialized := 1, sensor_mode := 0 }, rx := fun _ => 0 }).isNone = true ∧
    (sr030pc50_g_ctrl {} ⟨V4L2_CID_CAMERA_EXIF_EXPTIME, 0⟩
      { state := { initialized := 1, sensor_mode := 0 }, adapter := false }).isNone = true ∧
    (sr030pc50_get_exif {}
      { state := { initialized := 1, sensor_mode := 0 }, rx := fun _ => 0 }).1 = 0 ∧
    (sr030pc50_get_exif {}
      { state := { initialized := 1, sensor_mode := 0 },
        rx := fun _ => 0 }).2.state.exif.exp_time_den = 0 := by
  refine ⟨?_, by decide, by decide, by decide, by decide⟩
  unfold sr030pc50_g_ctrl
  by_cases hi : d.state.initialized = 0
  · simp [hi]
  · by_cases hs : d.state.sensor_mode = h.SENSOR_CAMERA
    · by_cases he : (sr030pc50_get_exif_exptime h d.state.exif.exp_time_den d).1.2 = 0
      · simp [hi, hs, he]
      · simp [hi, hs, he]
    · simp [hi, hs]

/-! ## Format selection -/

theorem get_framesize_mem :
    ∀ (frmsizes : List sr030pc50_framesize) (index : Nat) (f : sr030pc50_framesize),
      sr030pc50_get_framesize frmsizes index = some f → f ∈ frmsizes := by
  intro frmsizes
  induction frmsizes with
  | nil => intro index f hf; simp [sr030pc50_get_framesize] at hf
  | cons g frmsizes ih =>
    intro index f hf
    rw [sr030pc50_get_framesize] at hf
    by_cases hg : g.index = index
    · rw [if_pos hg] at hf
      injection hf with hf
      rw [← hf]
      exact List.mem_cons_self _ _
    · rw [if_neg hg] at hf
      exact List.mem_cons_of_mem _ (ih index f hf)

theorem set_framesize_loop_mem (width height : Nat) :
    ∀ (frmsizes : List sr030pc50_framesize) (f : sr030pc50_framesize),
      set_framesize_loop width height frmsizes = some f → f ∈ frmsizes := by
  intro frmsizes
  induction frmsizes with
  | nil => intro f hf; simp [set_framesize_loop] at hf
  | cons g frmsizes ih =>
    intro f hf
    rw [set_framesize_loop] at hf
    by_cases hg : g.width = width ∧ g.height = height
    · rw [if_pos hg] at hf
      injection hf with hf
      rw [← hf]
      exact List.mem_cons_self _ _
    · rw [if_neg hg] at hf
      exact List.mem_cons_of_mem _ (ih f hf)

theorem capture_frmsizes_has_1mp (h : Header) :
    ∃ f, sr030pc50_get_framesize (sr030pc50_capture_frmsizes h) h.CAPTURE_SZ_1MP = some f :=
  ⟨⟨h.CAPTURE_SZ_1MP, 1280, 960⟩, by simp [sr030pc50_capture_frmsizes, sr030pc50_get_framesize]⟩

/-- What `sr030pc50_set_framesize` selects when the fallback entry exists: an
entry of the table, or the selection it found in the state; it never reaches
the `BUG_ON`. -/
theorem set_framesize_selects (h : Header) (frmsizes : List sr030pc50_framesize)
    (preview : Bool) (d : Dev)
    (hfb : ∃ f, sr030pc50_get_framesize frmsizes
      (if preview = true then h.PREVIEW_SZ_VGA else h.CAPTURE_SZ_1MP) = some f) :
    ∃ f, (f ∈ frmsizes ∨ selected_frmsize preview d = some f) ∧
      sr030pc50_set_framesize h frmsizes preview d =
        some (if preview = true
          then { d with state := { d.state with preview.frmsize := some f } }
          else { d with state := { d.state with capture.frmsize := some f } }) := by
  obtain ⟨fb, hfb⟩ := hfb
  unfold sr030pc50_set_framesize selected_frmsize
  rcases hl : set_framesize_loop d.state.req_fmt.width d.state.req_fmt.height frmsizes
    with _ | f
  · cases preview
    · rcases h0 : d.state.capture.frmsize with _ | f0
      · refine ⟨fb, Or.inl (get_framesize_mem _ _ _ hfb), ?_⟩
        simp only [Bool.false_eq_true, if_false] at hfb ⊢
        simp [hfb, hl, h0]
      · refine ⟨f0, Or.inr rfl, ?_⟩
        simp [hl, h0]
    · rcases h0 : d.state.preview.frmsize with _ | f0
      · refine ⟨fb, Or.inl (get_framesize_mem _ _ _ hfb), ?_⟩
        simp only [if_true] at hfb ⊢
        simp [hfb, hl, h0]
      · refine ⟨f0, Or.inr rfl, ?_⟩
        simp [hl, h0]
  · refine ⟨f, Or.inl (set_framesize_loop_mem _ _ _ _ hl), ?_⟩
    cases preview <;> simp [hl]

/-- The frame size selection of `sr030pc50_s_mbus_fmt` is always defined and
selects, for the active format mode, a frame size that is an entry of the
table of that mode whenever the pointers of the prior state are NULL or point
into their tables. -/
theorem s_mbus_fmt_select_spec (h : Header) (d1 : Dev) :
    ∃ d2, sr030pc50_s_mbus_fmt_select h d1 = some (0, d2) ∧
      d2.state.format_mode = d1.state.format_mode ∧
      (d1.state.format_mode ≠ h.V4L2_PIX_FMT_MODE_CAPTURE →
        d2.state.capture.frmsize = d1.state.capture.frmsize ∧
        ∃ f, d2.state.preview.frmsize = some f ∧
          (f ∈ sr030pc50_preview_frmsizes h ∨ d1.state.preview.frmsize = some f)) ∧
      (d1.state.format_mode = h.V4L2_PIX_FMT_MODE_CAPTURE →
        d2.state.preview.frmsize = d1.state.preview.frmsize ∧
        ∃ f, d2.state.capture.frmsize = some f ∧
          (f ∈ sr030pc50_capture_frmsizes h ∨ d1.state.capture.frmsize = some f)) := by
  unfold sr030pc50_s_mbus_fmt_select
  by_cases hm : d1.state.format_mode ≠ h.V4L2_PIX_FMT_MODE_CAPTURE
  · rw [if_pos hm]
    obtain ⟨f, hf, heq⟩ := set_framesize_selects h (sr030pc50_preview_frmsizes h) true d1
      (preview_frmsizes_has_vga h)
    rw [heq]
    simp only [if_true]
    by_cases hp : (match d1.state.preview.frmsize with
        | some f => (f.index : Int)
        | none => -1) ≠ (f.index : Int)
    · rw [if_pos hp]
      exact ⟨_, rfl, rfl, fun _ => ⟨rfl, f, rfl, hf⟩, fun hc => absurd hc hm⟩
    · rw [if_neg hp]
      exact ⟨_, rfl, rfl, fun _ => ⟨rfl, f, rfl, hf⟩, fun hc => absurd hc hm⟩
  · rw [if_neg hm]
    obtain ⟨f, hf, heq⟩ := set_framesize_selects h (sr030pc50_capture_frmsizes h) false d1
      (capture_frmsizes_has_1mp h)
    rw [heq]
    exact ⟨_, rfl, rfl, fun hc => absurd hc hm, fun _ => ⟨rfl, f, rfl, hf⟩⟩

/-- C27: after `sr030pc50_s_mbus_fmt`, for every requested format and every
prior state, the call returns 0 without reaching the `BUG_ON` of
`sr030pc50_set_framesize` or dereferencing a NULL `preview.frmsize`, and the
frame size selected for the active format mode (`preview.frmsize` unless the
mode is capture, `capture.frmsize` in capture mode) is non-NULL; it is an
entry of the table of that mode, given that the frame-size pointers of the
prior state are NULL or point into their tables, which the call preserves. -/
theorem s_mbus_fmt_selects_table_entry (h : Header) (fmt : v4l2_mbus_framefmt) (d : Dev) :
    ∃ d2, sr030pc50_s_mbus_fmt h fmt d = some (0, d2) ∧
      (d2.state.format_mode ≠ h.V4L2_PIX_FMT_MODE_CAPTURE →
        ∃ f, d2.state.preview.frmsize = some f ∧
          (FrmsizeInv h d.state → f ∈ sr030pc50_preview_frmsizes h)) ∧
      (d2.state.format_mode = h.V4L2_PIX_FMT_MODE_CAPTURE →
        ∃ f, d2.state.capture.frmsize = some f ∧
          (FrmsizeInv h d.state → f ∈ sr030pc50_capture_frmsizes h)) ∧
      (FrmsizeInv h d.state → FrmsizeInv h d2.state) := by
  unfold sr030pc50_s_mbus_fmt
  obtain ⟨d2, heq, hmode, hp, hc⟩ := s_mbus_fmt_select_spec h
    { d with state := { d.state with
        req_fmt := { width := fmt.width, height := fmt.height },
        format_mode := if h.IS_MODE_CAPTURE_STILL = fmt.field ∧
            h.SENSOR_CAMERA = d.state.sensor_mode
          then h.V4L2_PIX_FMT_MODE_CAPTURE else h.V4L2_PIX_FMT_MODE_PREVIEW } }
  refine ⟨d2, heq, ?_, ?_, ?_⟩
  · intro hm
    obtain ⟨_, f, hf, hmem⟩ := hp (by rw [← hmode]; exact hm)
    exact ⟨f, hf, fun hinv => hmem.elim id (fun hs => hinv.1 f hs)⟩
  · intro hm
    obtain ⟨_, f, hf, hmem⟩ := hc (by rw [← hmode]; exact hm)
    exact ⟨f, hf, fun hinv => hmem.elim id (fun hs => hinv.2 f hs)⟩
  · intro hinv
    by_cases hm : d2.state.format_mode = h.V4L2_PIX_FMT_MODE_CAPTURE
    · obtain ⟨hpre, f, hf, hmem⟩ := hc (by rw [← hmode]; exact hm)
      refine ⟨fun g hg => hinv.1 g (by rw [← hg, hpre]), fun g hg => ?_⟩
      rw [hf] at hg
      injection hg with hg
      rw [← hg]
      exact hmem.elim id (fun hs => hinv.2 f hs)
    · obtain ⟨hcap, f, hf, hmem⟩ := hp (by rw [← hmode]; exact hm)
      refine ⟨fun g hg => ?_, fun g hg => hinv.2 g (by rw [← hg, hcap])⟩
      rw [hf] at hg
      injection hg with hg
      rw [← hg]
      exact hmem.elim id (fun hs => hinv.1 f hs)

/-- The frame-size pointers start as NULL. -/
theorem frmsizeInv_init (h : Header) : FrmsizeInv h ({} : Dev).state :=
  ⟨fun _ hf => Option.noConfusion hf, fun _ hf => Option.noConfusion hf⟩

theorem s_mbus_fmt_selects_table_entry_witness :
    FrmsizeInv { CONFIG_MACH_GARDA := true } ({} : Dev).state ∧
    (sr030pc50_s_mbus_fmt { CONFIG_MACH_GARDA := true }
      { width := 2000, height := 2000 } {}).map (fun r => r.2.state.preview.frmsize) =
      some (some ⟨0, 640, 480⟩) ∧
    ∃ d2, sr030pc50_s_mbus_fmt { CONFIG_MACH_GARDA := true }
        { width := 2000, height := 2000 } {} = some (0, d2) ∧
      (d2.state.format_mode ≠ 1 →
        ∃ f, d2.state.preview.frmsize = some f ∧
          f ∈ sr030pc50_preview_frmsizes { CONFIG_MACH_GARDA := true }) :=
  ⟨frmsizeInv_init _,
   by decide,
   (s_mbus_fmt_selects_table_entry { CONFIG_MACH_GARDA := true }
      { width := 2000, height := 2000 } {}).imp
    (fun _ hd => ⟨hd.1, fun hm =>
      (hd.2.1 hm).imp (fun _ hf => ⟨hf.1, hf.2 (frmsizeInv_init _)⟩)⟩)⟩

end Sr030pc50

namespace Cm36686

/-! ## Bus access -/

theorem write_word_loop_spec (c v : Nat) :
    ∀ (retry : Nat) (err : Int) (d : Sys),
      ∃ n, n ≤ retry ∧
        (cm36686_i2c_write_word_loop c v retry err d).2 =
          after_attempts n (Event.smbus_write_word c v) d ∧
        (0 < retry → 1 ≤ n) ∧
        (0 < retry → 0 ≤ d.xfer d.calls →
          n = 1 ∧ (cm36686_i2c_write_word_loop c v retry err d).1 = 0) := by
  intro retry
  induction retry with
  | zero =>
    intro err d
    exact ⟨0, le_refl _, by simp [cm36686_i2c_write_word_loop, after_attempts],
      fun h => absurd h (by decide), fun h => absurd h (by decide)⟩
  | succ retry ih =>
    intro err d
    unfold cm36686_i2c_write_word_loop
    by_cases hx : d.xfer d.calls ≥ 0
    · rw [if_pos hx]
      exact ⟨1, by omega, by simp [after_attempts], fun _ => le_refl _, fun _ _ => ⟨rfl, rfl⟩⟩
    · rw [if_neg hx]
      obtain ⟨n, hn, heq, _, _⟩ := ih (d.xfer d.calls)
        { d with calls := d.calls + 1,
                 trace := d.trace ++ [Event.smbus_write_word c v] }
      refine ⟨n + 1, by omega, ?_, fun _ => by omega, fun _ h0 => absurd h0 hx⟩
      rw [heq]
      simp [after_attempts, List.replicate_succ, Nat.add_assoc, Nat.add_comm 1 n]

theorem write_word_spec (c v : Nat) (d : Sys) :
    ∃ n, n ≤ 3 ∧
      (cm36686_i2c_write_word c v d).2 = after_attempts n (Event.smbus_write_word c v) d ∧
      (d.cm36686.i2c_client = true → d.cm36686.adapter = true → 1 ≤ n) ∧
      (HealthyBus d → n = 1 ∧ (cm36686_i2c_write_word c v d).1 = 0) := by
  unfold cm36686_i2c_write_word
  by_cases hc : d.cm36686.i2c_client = false ∨ d.cm36686.adapter = false
  · rw [if_pos hc]
    refine ⟨0, by omega, by simp [after_attempts], ?_, ?_⟩
    · intro h1 h2
      rcases hc with hc | hc
      · rw [h1] at hc; exact absurd hc (by decide)
      · rw [h2] at hc; exact absurd hc (by decide)
    · intro hb
      rcases hc with hc | hc
      · rw [hb.1] at hc; exact absurd hc (by decide)
      · rw [hb.2.1] at hc; exact absurd hc (by decide)
  · rw [if_neg hc]
    obtain ⟨n, hn, heq, h1, h2⟩ := write_word_loop_spec c v 3 0 d
    exact ⟨n, hn, heq, fun _ _ => h1 (by decide), fun hb => h2 (by decide) (hb.2.2 _)⟩

theorem read_word_loop_spec (c : Nat) :
    ∀ (retry : Nat) (err : Int) (val : Nat) (d : Sys),
      ∃ n, n ≤ retry ∧
        (cm36686_i2c_read_word_loop c retry err val d).2 =
          after_attempts n (Event.i2c_read_word c) d := by
  intro retry
  induction retry with
  | zero =>
    intro err val d
    exact ⟨0, le_refl _, by simp [cm36686_i2c_read_word_loop, after_attempts]⟩
  | succ retry ih =>
    intro err val d
    unfold cm36686_i2c_read_word_loop
    by_cases hx : d.xfer d.calls ≥ 0
    · simp only [if_pos hx]
      exact ⟨1, by omega, by simp [after_attempts]⟩
    · simp only [if_neg hx]
      obtain ⟨n, hn, heq⟩ := ih (d.xfer d.calls) val
        { d with calls := d.calls + 1, trace := d.trace ++ [Event.i2c_read_word c] }
      refine ⟨n + 1, by omega, ?_⟩
      rw [heq]
      simp [after_attempts, List.replicate_succ, Nat.add_assoc, Nat.add_comm 1 n]

theorem read_word_spec (c val : Nat) (d : Sys) :
    ∃ n, n ≤ 3 ∧
      (cm36686_i2c_read_word c val d).2 = after_attempts n (Event.i2c_read_word c) d := by
  unfold cm36686_i2c_read_word
  by_cases hc : d.cm36686.i2c_client = false ∨ d.cm36686.adapter = false
  · rw [if_pos hc]
    exact ⟨0, by omega, by simp [after_attempts]⟩
  · rw [if_neg hc]
    exact read_word_loop_spec c 3 0 val d

theorem smbus_writes_append (a b : List Event) :
    smbus_writes (a ++ b) = smbus_writes a ++ smbus_writes b := by
  induction a with
  | nil => rfl
  | cons e a ih => cases e <;> simp [smbus_writes, ih]

theorem smbus_writes_replicate (n c v : Nat) :
    smbus_writes (List.replicate n (Event.smbus_write_word c v)) = List.replicate n (c, v) := by
  induction n with
  | zero => rfl
  | succ n ih => simp [List.replicate_succ, smbus_writes, ih]

theorem reported_distances_append (a b : List Event) :
    reported_distances (a ++ b) = reported_distances a ++ reported_distances b := by
  induction a with
  | nil => rfl
  | cons e a ih => cases e <;> simp [reported_distances, ih]

theorem reported_distances_replicate_read (n c : Nat) :
    reported_distances (List.replicate n (Event.i2c_read_word c)) = [] := by
  induction n with
  | zero => rfl
  | succ n ih => simp [List.replicate_succ, reported_distances, ih]

/-! ## Input parsing -/

theorem sysfs_streq_single (s : List Char) (k : Char) (hk : k ≠ '\n') :
    sysfs_streq s [k] = true ↔ s = [k] ∨ s = [k, '\n'] := by
  rcases s with _ | ⟨c, _ | ⟨c2, _ | ⟨c3, s3⟩⟩⟩
  · simp [sysfs_streq, sysfs_streq_tail, hk]
  · by_cases hck : c = k
    · simp [sysfs_streq, sysfs_streq_tail, hck]
    · simp [sysfs_streq, sysfs_streq_tail, hck]
  · by_cases hck : c = k
    · simp [sysfs_streq, sysfs_streq_tail, hck]
    · simp [sysfs_streq, sysfs_streq_tail, hck]
  · by_cases hck : c = k
    · simp [sysfs_streq, sysfs_streq_tail, hck]
    · simp [sysfs_streq, sysfs_streq_tail, hck]

theorem sysfs_streq_on (s : List Char) : sysfs_streq s "1".toList = true ↔ s ∈ on_inputs := by
  have h := sysfs_streq_single s '1' (by decide)
  simpa [on_inputs] using h

theorem sysfs_streq_off (s : List Char) : sysfs_streq s "0".toList = true ↔ s ∈ off_inputs := by
  have h := sysfs_streq_single s '0' (by decide)
  simpa [off_inputs] using h

/-- C13: the enable and calibration stores (`light_enable_store`,
`proximity_enable_store`, `proximity_cancel_store`, `proximity_avg_store`)
take only "1" and "0", each with at most one trailing newline.  For every
other input string they return `-EINVAL` and leave the whole system as it
was: `power_state`, the table `ps_reg_init_setting`, and the trace (no
register write, power callback or timer call).  The four accepted strings
are not refused: the enable and average stores return `size`, the
cancelation store returns `size` or the negative error of
`proximity_store_cancelation`. -/
theorem switch_stores_take_only_one_and_zero (buf : List Char) (size : Nat) (d : Sys) :
    (cstring buf ∉ on_inputs → cstring buf ∉ off_inputs →
      light_enable_store buf size d = (-EINVAL, d) ∧
      proximity_enable_store buf size d = (-EINVAL, d) ∧
      proximity_cancel_store buf size d = (-EINVAL, d) ∧
      proximity_avg_store buf size d = (-EINVAL, d)) ∧
    (cstring buf ∈ on_inputs ∨ cstring buf ∈ off_inputs →
      (light_enable_store buf size d).1 = size ∧
      (proximity_enable_store buf size d).1 = size ∧
      (proximity_avg_store buf size d).1 = size ∧
      ((proximity_cancel_store buf size d).1 = size ∨
        ((proximity_cancel_store buf size d).1 < 0 ∧
          (proximity_cancel_store buf size d).1 =
            (proximity_store_cancelation (decide (cstring buf ∈ on_inputs)) d).1))) := by
  constructor
  · intro h1 h0
    have e1 : ¬ sysfs_streq (cstring buf) "1".toList = true :=
      fun hc => h1 ((sysfs_streq_on _).1 hc)
    have e0 : ¬ sysfs_streq (cstring buf) "0".toList = true :=
      fun hc => h0 ((sysfs_streq_off _).1 hc)
    simp only [light_enable_store, proximity_enable_store, proximity_cancel_store,
      proximity_avg_store, if_neg e1, if_neg e0, and_self]
  · intro hv
    by_cases h1 : cstring buf ∈ on_inputs
    · have e1 : sysfs_streq (cstring buf) "1".toList = true := (sysfs_streq_on _).2 h1
      simp only [light_enable_store, proximity_enable_store, proximity_cancel_store,
        proximity_avg_store, if_pos e1, h1, decide_True, true_and]
      rcases hres : proximity_store_cancelation true d with ⟨err, d1⟩
      by_cases he : err < 0
      · simp only [if_pos he]
        exact Or.inr ⟨he, trivial⟩
      · simp only [if_neg he]
        exact Or.inl trivial
    · have h0 : cstring buf ∈ off_inputs := hv.resolve_left h1
      have e1 : ¬ sysfs_streq (cstring buf) "1".toList = true :=
        fun hc => h1 ((sysfs_streq_on _).1 hc)
      have e0 : sysfs_streq (cstring buf) "0".toList = true := (sysfs_streq_off _).2 h0
      simp only [light_enable_store, proximity_enable_store, proximity_cancel_store,
        proximity_avg_store, if_neg e1, if_pos e0, h1, decide_False, true_and]
      rcases hres : proximity_store_cancelation false d with ⟨err, d1⟩
      by_cases he : err < 0
      · simp only [if_pos he]
        exact Or.inr ⟨he, trivial⟩
      · simp only [if_neg he]
        exact Or.inl trivial

theorem switch_stores_take_only_one_and_zero_witness :
    (light_enable_store "2\n".toList 2 {} = (-EINVAL, {}) ∧
      proximity_enable_store "2\n".toList 2 {} = (-EINVAL, {}) ∧
      proximity_cancel_store "2\n".toList 2 {} = (-EINVAL, {}) ∧
      proximity_avg_store "2\n".toList 2 {} = (-EINVAL, {})) ∧
    (light_enable_store "1\n".toList 2 {}).1 = 2 :=
  ⟨(switch_stores_take_only_one_and_zero "2\n".toList 2 {}).1 (by decide) (by decide),
   ((switch_stores_take_only_one_and_zero "1\n".toList 2 {}).2 (Or.inl (by decide))).1⟩

/-! ## The bits of `power_state` -/

theorem has_bits_two_pow (x k : Nat) : has_bits x (2 ^ k) = x.testBit k := by
  unfold has_bits
  rw [Nat.and_comm, Nat.two_pow_and]
  cases x.testBit k <;> simp

theorem testBit_set_bits8 (x m i : Nat) :
    (set_bits8 x m).testBit i = (decide (i < 8) && (x.testBit i || m.testBit i)) := by
  unfold set_bits8
  rw [Nat.testBit_mod_two_pow, Nat.testBit_or]

theorem testBit_clear_bits8 (x k i : Nat) (hk : k < 8) :
    (clear_bits8 x (2 ^ k)).testBit i =
      (decide (i < 8) && (x.testBit i && !decide (k = i))) := by
  unfold clear_bits8
  have hm : 2 ^ k % 2 ^ 8 = 2 ^ k := Nat.mod_eq_of_lt (Nat.pow_lt_pow_right (by decide) hk)
  have hff : (0xFF : Nat) = 2 ^ 8 - 1 := rfl
  rw [hm, hff, Nat.testBit_mod_two_pow, Nat.testBit_and, Nat.testBit_xor,
    Nat.testBit_two_pow_sub_one, Nat.testBit_two_pow]
  by_cases h8 : i < 8 <;> simp [h8]

theorem has_bits_set (x k : Nat) (hk : k < 8) : has_bits (set_bits8 x (2 ^ k)) (2 ^ k) = true := by
  rw [has_bits_two_pow, testBit_set_bits8, Nat.testBit_two_pow_self]
  simp [show k < 8 from hk]

theorem has_bits_clear (x k : Nat) (hk : k < 8) :
    has_bits (clear_bits8 x (2 ^ k)) (2 ^ k) = false := by
  rw [has_bits_two_pow, testBit_clear_bits8 x k k hk]
  simp

theorem light_bit_set (x : Nat) : has_bits (set_bits8 x LIGHT_ENABLED) LIGHT_ENABLED = true :=
  has_bits_set x 0 (by decide)

theorem light_bit_clear (x : Nat) :
    has_bits (clear_bits8 x LIGHT_ENABLED) LIGHT_ENABLED = false :=
  has_bits_clear x 0 (by decide)

theorem proximity_bit_set (x : Nat) :
    has_bits (set_bits8 x PROXIMITY_ENABLED) PROXIMITY_ENABLED = true :=
  has_bits_set x 1 (by decide)

theorem proximity_bit_clear (x : Nat) :
    has_bits (clear_bits8 x PROXIMITY_ENABLED) PROXIMITY_ENABLED = false :=
  has_bits_clear x 1 (by decide)

/-! ## Frame lemmas: what the bus functions leave alone -/

theorem write_word_data (c v : Nat) (d : Sys) :
    (cm36686_i2c_write_word c v d).2.cm36686 = d.cm36686 := by
  obtain ⟨n, _, heq, _⟩ := write_word_spec c v d
  rw [heq]
  rfl

theorem write_word_table (c v : Nat) (d : Sys) :
    (cm36686_i2c_write_word c v d).2.ps_reg_init_setting = d.ps_reg_init_setting := by
  obtain ⟨n, _, heq, _⟩ := write_word_spec c v d
  rw [heq]
  rfl

theorem read_word_data (c val : Nat) (d : Sys) :
    (cm36686_i2c_read_word c val d).2.cm36686 = d.cm36686 := by
  obtain ⟨n, _, heq⟩ := read_word_spec c val d
  rw [heq]
  rfl

theorem read_word_table (c val : Nat) (d : Sys) :
    (cm36686_i2c_read_word c val d).2.ps_reg_init_setting = d.ps_reg_init_setting := by
  obtain ⟨n, _, heq⟩ := read_word_spec c val d
  rw [heq]
  rfl

theorem light_enable_data (d : Sys) : (cm36686_light_enable d).cm36686 = d.cm36686 := by
  unfold cm36686_light_enable
  exact write_word_data _ _ d

theorem light_disable_data (d : Sys) : (cm36686_light_disable d).cm36686 = d.cm36686 := by
  unfold cm36686_light_disable
  exact write_word_data _ _ d

theorem open_cancelation_data (d : Sys) :
    (proximity_open_cancelation d).2.cm36686 = d.cm36686 := by
  unfold proximity_open_cancelation
  split_ifs <;> rfl

theorem ps_reg_init_loop_data (n : Nat) :
    ∀ (i : Nat) (d : Sys),
      (ps_reg_init_loop n i d).cm36686 = d.cm36686 ∧
      (ps_reg_init_loop n i d).ps_reg_init_setting = d.ps_reg_init_setting := by
  induction n with
  | zero => intro i d; exact ⟨rfl, rfl⟩
  | succ n ih =>
    intro i d
    unfold ps_reg_init_loop
    obtain ⟨h1, h2⟩ := ih (i + 1)
      (cm36686_i2c_write_word (d.ps_reg_init_setting i REG_ADDR)
        (d.ps_reg_init_setting i CMD) d).2
    exact ⟨h1.trans (write_word_data _ _ d), h2.trans (write_word_table _ _ d)⟩

/-! ## Enable stores -/

/-- The driver data after the locked part of `light_enable_store`: only
`power_state` can differ, and only when the request changes the light state. -/
theorem light_enable_store_locked_data (new_value : Bool) (d : Sys) :
    (light_enable_store_locked new_value d).cm36686 =
      { d.cm36686 with power_state :=
          if new_value = true ∧ has_bits d.cm36686.power_state LIGHT_ENABLED = false
            then set_bits8 d.cm36686.power_state LIGHT_ENABLED
          else if new_value = false ∧ has_bits d.cm36686.power_state LIGHT_ENABLED = true
            then clear_bits8 d.cm36686.power_state LIGHT_ENABLED
          else d.cm36686.power_state } := by
  unfold light_enable_store_locked
  cases new_value <;> cases hb : has_bits d.cm36686.power_state LIGHT_ENABLED
  · simp
  · simp only [Bool.false_eq_true, false_and, if_false, not_false_eq_true, true_and, if_true,
      and_self]
    cases hv : d.cm36686.cm36686_light_vddpower <;>
      simp [hv, emit, light_disable_data]
  · simp only [true_and, Bool.false_eq_true, not_false_eq_true, if_true, and_self]
    rw [light_enable_data]
    cases hv : d.cm36686.cm36686_light_vddpower <;> simp [hv, emit]
  · simp

/-- The driver data after the locked part of `proximity_enable_store`. -/
theorem proximity_enable_store_locked_data (new_value : Bool) (d : Sys) :
    (proximity_enable_store_locked new_value d).cm36686 =
      { d.cm36686 with power_state :=
          if new_value = true ∧ has_bits d.cm36686.power_state PROXIMITY_ENABLED = false
            then set_bits8 d.cm36686.power_state PROXIMITY_ENABLED
          else if new_value = false ∧ has_bits d.cm36686.power_state PROXIMITY_ENABLED = true
            then clear_bits8 d.cm36686.power_state PROXIMITY_ENABLED
          else d.cm36686.power_state } := by
  unfold proximity_enable_store_locked
  cases new_value <;> cases hb : has_bits d.cm36686.power_state PROXIMITY_ENABLED
  · simp
  · simp only [Bool.false_eq_true, false_and, if_false, not_false_eq_true, true_and, if_true,
      and_self]
    cases hv : d.cm36686.cm36686_proxi_vddpower <;> cases hl : d.cm36686.pdata.cm36686_led_on <;>
      simp [hv, hl, emit, write_word_data]
  · simp only [true_and, Bool.false_eq_true, not_false_eq_true, if_true, and_self]
    show (ps_reg_init_loop PS_REG_NUM 0 _).cm36686 = _
    rw [(ps_reg_init_loop_data PS_REG_NUM 0 _).1, open_cancelation_data]
    cases hv : d.cm36686.cm36686_proxi_vddpower <;> cases hl : d.cm36686.pdata.cm36686_led_on <;>
      simp [proximity_power_up, hv, hl, emit]
  · simp

theorem sprintf_line_one : sprintf_line 1 = "1\n" := by decide

theorem sprintf_line_zero : sprintf_line 0 = "0\n" := by decide

theorem on_not_off (s : List Char) (h : s ∈ on_inputs) : s ∉ off_inputs := by
  intro h0
  simp only [on_inputs, off_inputs, List.mem_cons, List.mem_singleton, List.not_mem_nil,
    or_false] at h h0
  rcases h with rfl | rfl <;> rcases h0 with h0 | h0 <;> exact absurd h0 (by decide)

theorem light_show_after_store (new_value : Bool) (d : Sys) :
    light_enable_show (light_enable_store_locked new_value d) =
      sprintf_line (if new_value = true then 1 else 0) := by
  unfold light_enable_show
  rw [light_enable_store_locked_data]
  cases new_value <;> cases hb : has_bits d.cm36686.power_state LIGHT_ENABLED <;>
    simp [hb, light_bit_set, light_bit_clear]

theorem proximity_show_after_store (new_value : Bool) (d : Sys) :
    proximity_enable_show (proximity_enable_store_locked new_value d) =
      sprintf_line (if new_value = true then 1 else 0) := by
  unfold proximity_enable_show
  rw [proximity_enable_store_locked_data]
  cases new_value <;> cases hb : has_bits d.cm36686.power_state PROXIMITY_ENABLED <;>
    simp [hb, proximity_bit_set, proximity_bit_clear]

/-- C14: enable store/show round trip.  For every prior state (every
`power_state`, every outcome of the bus calls), `light_enable_store` with
"1" (resp. "0"), a trailing newline allowed, returns `size` and
`light_enable_show` then prints "1\n" (resp. "0\n"); the same holds for
`proximity_enable_store` and `proximity_enable_show`. -/
theorem enable_store_show_round_trip (buf : List Char) (size : Nat) (d : Sys) :
    (cstring buf ∈ on_inputs →
      (light_enable_store buf size d).1 = size ∧
      light_enable_show (light_enable_store buf size d).2 = "1\n" ∧
      (proximity_enable_store buf size d).1 = size ∧
      proximity_enable_show (proximity_enable_store buf size d).2 = "1\n") ∧
    (cstring buf ∈ off_inputs →
      (light_enable_store buf size d).1 = size ∧
      light_enable_show (light_enable_store buf size d).2 = "0\n" ∧
      (proximity_enable_store buf size d).1 = size ∧
      proximity_enable_show (proximity_enable_store buf size d).2 = "0\n") := by
  constructor
  · intro h1
    have e1 : sysfs_streq (cstring buf) "1".toList = true := (sysfs_streq_on _).2 h1
    simp only [light_enable_store, proximity_enable_store, if_pos e1]
    exact ⟨trivial, (light_show_after_store true d).trans sprintf_line_one, trivial,
      (proximity_show_after_store true d).trans sprintf_line_one⟩
  · intro h0
    have e1 : ¬ sysfs_streq (cstring buf) "1".toList = true :=
      fun hc => on_not_off _ ((sysfs_streq_on _).1 hc) h0
    have e0 : sysfs_streq (cstring buf) "0".toList = true := (sysfs_streq_off _).2 h0
    simp only [light_enable_store, proximity_enable_store, if_neg e1, if_pos e0]
    exact ⟨trivial, (light_show_after_store false d).trans sprintf_line_zero, trivial,
      (proximity_show_after_store false d).trans sprintf_line_zero⟩

theorem enable_store_show_round_trip_witness :
    light_enable_show (light_enable_store "1\n".toList 2
      { cm36686 := { power_state := 2 }, xfer := fun _ => -5 }).2 = "1\n" ∧
    proximity_enable_show (proximity_enable_store "0".toList 1
      { cm36686 := { power_state := 3 } }).2 = "0\n" :=
  ⟨((enable_store_show_round_trip "1\n".toList 2
      { cm36686 := { power_state := 2 }, xfer := fun _ => -5 }).1 (by decide)).2.1,
   ((enable_store_show_round_trip "0".toList 1
      { cm36686 := { power_state := 3 } }).2 (by decide)).2.2.2⟩

/-! ## Proximity cancelation -/

theorem read_word_loop_val_lt (c : Nat) :
    ∀ (retry : Nat) (err : Int) (val : Nat) (d : Sys), val < 2 ^ 16 →
      (cm36686_i2c_read_word_loop c retry err val d).1.2 < 2 ^ 16 := by
  intro retry
  induction retry with
  | zero => intro err val d hv; exact hv
  | succ retry ih =>
    intro err val d hv
    unfold cm36686_i2c_read_word_loop
    by_cases hx : d.xfer d.calls ≥ 0
    · simp only [if_pos hx]
      exact Nat.mod_lt _ (by decide)
    · simp only [if_neg hx]
      exact ih _ _ _ hv

theorem read_word_val_lt (c val : Nat) (d : Sys) (hv : val < 2 ^ 16) :
    (cm36686_i2c_read_word c val d).1.2 < 2 ^ 16 := by
  unfold cm36686_i2c_read_word
  split_ifs
  · exact hv
  · exact read_word_loop_val_lt c 3 0 val d hv

theorem smbus_writes_replicate_read (n c : Nat) :
    smbus_writes (List.replicate n (Event.i2c_read_word c)) = [] := by
  induction n with
  | zero => rfl
  | succ n ih => simp [List.replicate_succ, smbus_writes, ih]

theorem read_word_writes (c val : Nat) (d : Sys) :
    smbus_writes (cm36686_i2c_read_word c val d).2.trace = smbus_writes d.trace := by
  obtain ⟨n, _, heq⟩ := read_word_spec c val d
  rw [heq]
  simp [after_attempts, smbus_writes_append, smbus_writes_replicate_read]

theorem thd_or_lt (a b : Nat) (ha : a < 2 ^ 16) (hb : b < 2 ^ 16) : thd_or a b < 2 ^ 16 := by
  unfold thd_or
  split_ifs
  · exact ha
  · exact hb

theorem set_cell_same (t : Nat → Nat → Nat) (i j v : Nat) :
    set_cell t i j v i j = v % 2 ^ 16 := by
  unfold set_cell
  rw [if_pos ⟨rfl, rfl⟩]

theorem set_cell_other (t : Nat → Nat → Nat) (i j v a b : Nat) (h : ¬ (a = i ∧ b = j)) :
    set_cell t i j v a b = t a b := by
  unfold set_cell
  rw [if_neg h]

/-- The table after the selection step of `proximity_store_cancelation`. -/
theorem store_cancelation_select_table (do_calib : Bool) (d : Sys) :
    (proximity_store_cancelation_select do_calib d).ps_reg_init_setting =
      set_cell (set_cell (set_cell d.ps_reg_init_setting PS_CANCEL CMD
        (selected_cancel do_calib d)) PS_THD_HIGH CMD
        (selected_hi_thd do_calib d.cm36686.pdata)) PS_THD_LOW CMD
        (selected_low_thd do_calib d.cm36686.pdata) := by
  cases do_calib
  · rfl
  · unfold proximity_store_cancelation_select
    simp only [if_true]
    rw [read_word_table, read_word_data]
    rfl

theorem selected_cancel_lt (do_calib : Bool) (d : Sys) : selected_cancel do_calib d < 2 ^ 16 := by
  cases do_calib
  · exact (by decide : (0 : Nat) < 2 ^ 16)
  · exact read_word_val_lt REG_PS_DATA 0 d (by decide)

theorem selected_hi_thd_lt (do_calib : Bool) (p : cm36686_platform_data) (hp : PdataU16 p) :
    selected_hi_thd do_calib p < 2 ^ 16 := by
  cases do_calib
  · exact thd_or_lt p.default_hi_thd 0x0022 hp.1 (by decide)
  · exact thd_or_lt p.cancel_hi_thd 0x0022 hp.2.2.1 (by decide)

theorem selected_low_thd_lt (do_calib : Bool) (p : cm36686_platform_data) (hp : PdataU16 p) :
    selected_low_thd do_calib p < 2 ^ 16 := by
  cases do_calib
  · exact thd_or_lt p.default_low_thd 0x001E hp.2.1 (by decide)
  · exact thd_or_lt p.cancel_low_thd 0x001E hp.2.2.2 (by decide)

/-- The three rows that `proximity_store_cancelation` selects, and what it
leaves alone while selecting. -/
theorem store_cancelation_select_spec (do_calib : Bool) (d : Sys)
    (hp : PdataU16 d.cm36686.pdata) :
    (proximity_store_cancelation_select do_calib d).ps_reg_init_setting PS_CANCEL CMD =
      selected_cancel do_calib d ∧
    (proximity_store_cancelation_select do_calib d).ps_reg_init_setting PS_THD_HIGH CMD =
      selected_hi_thd do_calib d.cm36686.pdata ∧
    (proximity_store_cancelation_select do_calib d).ps_reg_init_setting PS_THD_LOW CMD =
      selected_low_thd do_calib d.cm36686.pdata ∧
    (∀ i j, ¬ (j = CMD ∧ (i = PS_CANCEL ∨ i = PS_THD_HIGH ∨ i = PS_THD_LOW)) →
      (proximity_store_cancelation_select do_calib d).ps_reg_init_setting i j =
        d.ps_reg_init_setting i j) := by
  rw [store_cancelation_select_table]
  refine ⟨?_, ?_, ?_, ?_⟩
  · rw [set_cell_other _ _ _ _ _ _ (by decide), set_cell_other _ _ _ _ _ _ (by decide),
      set_cell_same, Nat.mod_eq_of_lt (selected_cancel_lt do_calib d)]
  · rw [set_cell_other _ _ _ _ _ _ (by decide), set_cell_same,
      Nat.mod_eq_of_lt (selected_hi_thd_lt do_calib _ hp)]
  · rw [set_cell_same, Nat.mod_eq_of_lt (selected_low_thd_lt do_calib _ hp)]
  · intro i j hij
    rw [set_cell_other _ _ _ _ _ _ (fun hc => hij ⟨hc.2, Or.inr (Or.inr hc.1)⟩),
      set_cell_other _ _ _ _ _ _ (fun hc => hij ⟨hc.2, Or.inr (Or.inl hc.1)⟩),
      set_cell_other _ _ _ _ _ _ (fun hc => hij ⟨hc.2, Or.inl hc.1⟩)]

theorem store_cancelation_select_env (do_calib : Bool) (d : Sys) :
    (proximity_store_cancelation_select do_calib d).cm36686 = d.cm36686 ∧
    (proximity_store_cancelation_select do_calib d).xfer = d.xfer ∧
    smbus_writes (proximity_store_cancelation_select do_calib d).trace =
      smbus_writes d.trace := by
  cases do_calib
  · exact ⟨rfl, rfl, rfl⟩
  · obtain ⟨n, _, heq⟩ := read_word_spec REG_PS_DATA 0 d
    refine ⟨read_word_data REG_PS_DATA 0 d, ?_, read_word_writes REG_PS_DATA 0 d⟩
    show (cm36686_i2c_read_word REG_PS_DATA 0 d).2.xfer = d.xfer
    rw [heq]
    rfl

/-- The three register writes of `proximity_store_cancelation`, as bus attempts. -/
theorem store_cancelation_write_spec (d : Sys) :
    ∃ n1 n2 n3, n1 ≤ 3 ∧ n2 ≤ 3 ∧ n3 ≤ 3 ∧
      proximity_store_cancelation_write d =
        after_attempts n3
          (Event.smbus_write_word REG_PS_THD_LOW (d.ps_reg_init_setting PS_THD_LOW CMD))
          (after_attempts n2
            (Event.smbus_write_word REG_PS_THD_HIGH (d.ps_reg_init_setting PS_THD_HIGH CMD))
            (after_attempts n1
              (Event.smbus_write_word REG_PS_CANC (d.ps_reg_init_setting PS_CANCEL CMD)) d)) ∧
      (d.cm36686.i2c_client = true → d.cm36686.adapter = true →
        1 ≤ n1 ∧ 1 ≤ n2 ∧ 1 ≤ n3) ∧
      (HealthyBus d → n1 = 1 ∧ n2 = 1 ∧ n3 = 1) := by
  obtain ⟨n1, hn1, e1, c1, b1⟩ :=
    write_word_spec REG_PS_CANC (d.ps_reg_init_setting PS_CANCEL CMD) d
  obtain ⟨n2, hn2, e2, c2, b2⟩ :=
    write_word_spec REG_PS_THD_HIGH (d.ps_reg_init_setting PS_THD_HIGH CMD)
      (after_attempts n1
        (Event.smbus_write_word REG_PS_CANC (d.ps_reg_init_setting PS_CANCEL CMD)) d)
  obtain ⟨n3, hn3, e3, c3, b3⟩ :=
    write_word_spec REG_PS_THD_LOW (d.ps_reg_init_setting PS_THD_LOW CMD)
      (after_attempts n2
        (Event.smbus_write_word REG_PS_THD_HIGH (d.ps_reg_init_setting PS_THD_HIGH CMD))
        (after_attempts n1
          (Event.smbus_write_word REG_PS_CANC (d.ps_reg_init_setting PS_CANCEL CMD)) d))
  refine ⟨n1, n2, n3, hn1, hn2, hn3, ?_, fun hc ha => ⟨c1 hc ha, c2 hc ha, c3 hc ha⟩,
    fun hb => ⟨(b1 hb).1, (b2 hb).1, (b3 hb).1⟩⟩
  unfold proximity_store_cancelation_write
  simp only [e1]
  have t1 : (after_attempts n1
      (Event.smbus_write_word REG_PS_CANC (d.ps_reg_init_setting PS_CANCEL CMD))
      d).ps_reg_init_setting = d.ps_reg_init_setting := rfl
  rw [t1, e2]
  have t2 : (after_attempts n2
      (Event.smbus_write_word REG_PS_THD_HIGH (d.ps_reg_init_setting PS_THD_HIGH CMD))
      (after_attempts n1
        (Event.smbus_write_word REG_PS_CANC (d.ps_reg_init_setting PS_CANCEL CMD))
        d)).ps_reg_init_setting = d.ps_reg_init_setting := rfl
  rw [t2, e3]

theorem store_cancelation_save_spec (do_calib : Bool) (d : Sys) :
    (proximity_store_cancelation_save do_calib d).2.ps_reg_init_setting =
      d.ps_reg_init_setting ∧
    smbus_writes (proximity_store_cancelation_save do_calib d).2.trace =
      smbus_writes d.trace := by
  unfold proximity_store_cancelation_save
  by_cases ho : d.cal_create_err < 0
  · rw [if_pos ho]
    exact ⟨rfl, by simp [emit, smbus_writes_append, smbus_writes]⟩
  · rw [if_neg ho]
    cases do_calib
    · exact ⟨rfl, by simp [emit, smbus_writes_append, smbus_writes]⟩
    · exact ⟨rfl, by simp [emit, smbus_writes_append, smbus_writes]⟩

/-- C15: `proximity_store_cancelation`, for every platform data with 16-bit
thresholds.  On reset the cancel value becomes 0 and the thresholds become the
`default_*_thd` of the platform data if non-zero, else 0x0022 (high) and
0x001E (low); on calibrate the cancel value becomes the contents of `ps_data`
after the read of `REG_PS_DATA` and the thresholds the `cancel_*_thd` of the
platform data if non-zero, else 0x0022 and 0x001E.  No other cell of the
table changes.  Exactly these three values are then written, to
`REG_PS_CANC`, `REG_PS_THD_HIGH` and `REG_PS_THD_LOW` in that order: the bus
sees each write once on a healthy bus, and in general each one up to three
times in a row (the retries of `cm36686_i2c_write_word`) and nothing else.
`proximity_cancel_show` then prints them as "cancel,high,low". -/
theorem store_cancelation_selects_and_writes (do_calib : Bool) (d : Sys)
    (hp : PdataU16 d.cm36686.pdata) :
    (proximity_store_cancelation do_calib d).2.ps_reg_init_setting PS_CANCEL CMD =
      selected_cancel do_calib d ∧
    (proximity_store_cancelation do_calib d).2.ps_reg_init_setting PS_THD_HIGH CMD =
      selected_hi_thd do_calib d.cm36686.pdata ∧
    (proximity_store_cancelation do_calib d).2.ps_reg_init_setting PS_THD_LOW CMD =
      selected_low_thd do_calib d.cm36686.pdata ∧
    (∀ i j, ¬ (j = CMD ∧ (i = PS_CANCEL ∨ i = PS_THD_HIGH ∨ i = PS_THD_LOW)) →
      (proximity_store_cancelation do_calib d).2.ps_reg_init_setting i j =
        d.ps_reg_init_setting i j) ∧
    (∃ n1 n2 n3, n1 ≤ 3 ∧ n2 ≤ 3 ∧ n3 ≤ 3 ∧
      smbus_writes (proximity_store_cancelation do_calib d).2.trace =
        smbus_writes d.trace ++
          (List.replicate n1 (REG_PS_CANC, selected_cancel do_calib d) ++
           List.replicate n2 (REG_PS_THD_HIGH, selected_hi_thd do_calib d.cm36686.pdata) ++
           List.replicate n3 (REG_PS_THD_LOW, selected_low_thd do_calib d.cm36686.pdata)) ∧
      (d.cm36686.i2c_client = true → d.cm36686.adapter = true →
        1 ≤ n1 ∧ 1 ≤ n2 ∧ 1 ≤ n3) ∧
      (HealthyBus d → n1 = 1 ∧ n2 = 1 ∧ n3 = 1)) ∧
    proximity_cancel_show (proximity_store_cancelation do_calib d).2 =
      toString (selected_cancel do_calib d) ++ "," ++
      toString (selected_hi_thd do_calib d.cm36686.pdata) ++ "," ++
      toString (selected_low_thd do_calib d.cm36686.pdata) ++ "\n" := by
  obtain ⟨s1, s2, s3, s4⟩ := store_cancelation_select_spec do_calib d hp
  obtain ⟨v1, v2, v3⟩ := store_cancelation_select_env do_calib d
  obtain ⟨n1, n2, n3, hn1, hn2, hn3, hw, hc, hb⟩ :=
    store_cancelation_write_spec (proximity_store_cancelation_select do_calib d)
  obtain ⟨f1, f2⟩ := store_cancelation_save_spec do_calib
    (proximity_store_cancelation_write (proximity_store_cancelation_select do_calib d))
  have ht : (proximity_store_cancelation do_calib d).2.ps_reg_init_setting =
      (proximity_store_cancelation_select do_calib d).ps_reg_init_setting := by
    unfold proximity_store_cancelation
    rw [f1, hw]
    rfl
  refine ⟨by rw [ht, s1], by rw [ht, s2], by rw [ht, s3], ?_, ?_, ?_⟩
  · intro i j hij
    rw [ht, s4 i j hij]
  · refine ⟨n1, n2, n3, hn1, hn2, hn3, ?_, ?_, ?_⟩
    · unfold proximity_store_cancelation
      rw [f2, hw, s1, s2, s3]
      simp only [after_attempts, smbus_writes_append, smbus_writes_replicate, v3,
        List.append_assoc]
    · intro h1 h2
      exact hc (by rw [v1]; exact h1) (by rw [v1]; exact h2)
    · intro hh
      exact hb ⟨by rw [v1]; exact hh.1, by rw [v1]; exact hh.2.1, by rw [v2]; exact hh.2.2⟩
  · unfold proximity_cancel_show
    rw [ht, s1, s2, s3]

theorem store_cancelation_selects_and_writes_witness :
    (proximity_store_cancelation true
      { cm36686 := { pdata := { cancel_hi_thd := 0x30 } },
        rx := fun _ => (0x34, 0x12) }).2.ps_reg_init_setting PS_CANCEL CMD =
      selected_cancel true
        { cm36686 := { pdata := { cancel_hi_thd := 0x30 } }, rx := fun _ => (0x34, 0x12) } ∧
    selected_cancel true
      { cm36686 := { pdata := { cancel_hi_thd := 0x30 } }, rx := fun _ => (0x34, 0x12) }
      = 0x1234 ∧
    (proximity_store_cancelation true
      { cm36686 := { pdata := { cancel_hi_thd := 0x30 } },
        rx := fun _ => (0x34, 0x12) }).2.ps_reg_init_setting PS_THD_HIGH CMD = 0x30 ∧
    (proximity_store_cancelation true
      { cm36686 := { pdata := { cancel_hi_thd := 0x30 } },
        rx := fun _ => (0x34, 0x12) }).2.ps_reg_init_setting PS_THD_LOW CMD = 0x1E :=
  ⟨(store_cancelation_selects_and_writes true
      { cm36686 := { pdata := { cancel_hi_thd := 0x30 } }, rx := fun _ => (0x34, 0x12) }
      ⟨by decide, by decide, by decide, by decide⟩).1,
   by decide,
   (store_cancelation_selects_and_writes true
      { cm36686 := { pdata := { cancel_hi_thd := 0x30 } }, rx := fun _ => (0x34, 0x12) }
      ⟨by decide, by decide, by decide, by decide⟩).2.1,
   (store_cancelation_selects_and_writes true
      { cm36686 := { pdata := { cancel_hi_thd := 0x30 } }, rx := fun _ => (0x34, 0x12) }
      ⟨by decide, by decide, by decide, by decide⟩).2.2.1⟩

/-! ## Proximity thresholds -/

theorem kstrtou16_lt (s : List Char) (v : Nat) (h : kstrtou16 s = Except.ok v) :
    v < 2 ^ 16 := by
  unfold kstrtou16 at h
  simp only at h
  split_ifs at h with h1 h2 h3 h4
  injection h with h
  omega

theorem set_cell_self (t : Nat → Nat → Nat) (i j : Nat) (h : t i j < 2 ^ 16) :
    set_cell t i j (t i j) = t := by
  funext a b
  unfold set_cell
  split_ifs with hc
  · rw [Nat.mod_eq_of_lt h, hc.1, hc.2]
  · rfl

/-- What `proximity_thresh_store` does once `thresh_value` is known to be above 2. -/
theorem thresh_store_write (row reg : Nat) (buf : List Char) (size : Nat) (d : Sys) (w : Nat)
    (hw : (match kstrtou16 (cstring buf) with
            | Except.ok v => v
            | Except.error _ => d.ps_reg_init_setting row CMD) = w)
    (h2 : 2 < w) (h16 : w < 2 ^ 16) :
    (proximity_thresh_store row reg buf size d).2.ps_reg_init_setting =
      set_cell d.ps_reg_init_setting row CMD w ∧
    ∃ n, n ≤ 3 ∧
      (proximity_thresh_store row reg buf size d).2.trace =
        d.trace ++ List.replicate n (Event.smbus_write_word reg w) ++ [Event.msleep 150] ∧
      (d.cm36686.i2c_client = true → d.cm36686.adapter = true → 1 ≤ n) ∧
      (HealthyBus d → n = 1) := by
  unfold proximity_thresh_store
  simp only [hw, if_pos h2]
  obtain ⟨n, hn, heq, hc, hb⟩ := write_word_spec reg
    (set_cell d.ps_reg_init_setting row CMD w row CMD)
    { d with ps_reg_init_setting := set_cell d.ps_reg_init_setting row CMD w }
  rw [heq, set_cell_same, Nat.mod_eq_of_lt h16]
  exact ⟨rfl, n, hn, rfl, hc, fun hh => (hb hh).1⟩

theorem thresh_store_spec (row reg : Nat) (buf : List Char) (size : Nat) (d : Sys)
    (hcell : d.ps_reg_init_setting row CMD < 2 ^ 16) :
    ThreshStoreSpec (proximity_thresh_store row reg) row reg buf size d := by
  refine ⟨?_, ?_, ?_, ?_⟩
  · unfold proximity_thresh_store
    simp only
    split_ifs <;> rfl
  · intro v hv h2
    obtain ⟨ht, n, hn, htr, hc, hb⟩ :=
      thresh_store_write row reg buf size d v (by rw [hv]) h2 (kstrtou16_lt _ v hv)
    refine ⟨?_, ?_, n, hn, htr, hc, hb⟩
    · rw [ht, set_cell_same, Nat.mod_eq_of_lt (kstrtou16_lt _ v hv)]
    · intro i j hij
      rw [ht, set_cell_other _ _ _ _ _ _ hij]
  · intro v hv h2
    unfold proximity_thresh_store
    simp only [hv, if_neg (Nat.not_lt.2 h2)]
  · intro e he
    by_cases h2 : 2 < d.ps_reg_init_setting row CMD
    · obtain ⟨ht, n, hn, htr, _, _⟩ :=
        thresh_store_write row reg buf size d (d.ps_reg_init_setting row CMD) (by rw [he])
          h2 hcell
      exact ⟨by rw [ht, set_cell_self _ _ _ hcell], fun hle => absurd h2 (Nat.not_lt.2 hle),
        fun _ => ⟨n, hn, htr⟩⟩
    · have hd : (proximity_thresh_store row reg buf size d).2 = d := by
        unfold proximity_thresh_store
        simp only [he, if_neg h2]
      exact ⟨by rw [hd], fun _ => hd, fun hc => absurd hc h2⟩

/-- C16: `proximity_thresh_high_store` and `proximity_thresh_low_store`, for
every input and every 16-bit stored threshold.  If the input parses (as
`kstrtou16` with base 10 parses it) to a value `v > 2`, the threshold in
`ps_reg_init_setting` becomes `v` and `v` is written to the threshold
register; if it parses to `v ≤ 2`, nothing changes and no register is
written; if it does not parse, the table is unchanged.  In every case the
return value is `size`. -/
theorem thresh_stores_take_values_above_two (buf : List Char) (size : Nat) (d : Sys)
    (hh : d.ps_reg_init_setting PS_THD_HIGH CMD < 2 ^ 16)
    (hl : d.ps_reg_init_setting PS_THD_LOW CMD < 2 ^ 16) :
    ThreshStoreSpec proximity_thresh_high_store PS_THD_HIGH REG_PS_THD_HIGH buf size d ∧
    ThreshStoreSpec proximity_thresh_low_store PS_THD_LOW REG_PS_THD_LOW buf size d :=
  ⟨thresh_store_spec PS_THD_HIGH REG_PS_THD_HIGH buf size d hh,
   thresh_store_spec PS_THD_LOW REG_PS_THD_LOW buf size d hl⟩

theorem thresh_stores_take_values_above_two_witness :
    (proximity_thresh_high_store "35\n".toList 3 {}).1 = 3 ∧
    (proximity_thresh_high_store "35\n".toList 3 {}).2.ps_reg_init_setting PS_THD_HIGH CMD
      = 35 ∧
    (proximity_thresh_low_store "2".toList 1 {}).2.ps_reg_init_setting PS_THD_LOW CMD
      = 0x1E ∧
    (proximity_thresh_low_store "abc".toList 3 {}).1 = 3 :=
  ⟨(thresh_stores_take_values_above_two "35\n".toList 3 {} (by decide) (by decide)).1.1,
   ((thresh_stores_take_values_above_two "35\n".toList 3 {} (by decide) (by decide)).1.2.1
      35 rfl (by decide)).1,
   by
    rw [(thresh_stores_take_values_above_two "2".toList 1 {} (by decide) (by decide)).2.2.2.1
      2 rfl (by decide)]
    rfl,
   (thresh_stores_take_values_above_two "abc".toList 3 {} (by decide) (by decide)).2.1⟩

/-! ## Proximity average -/

theorem ps_samples_length (n : Nat) : ∀ (v : Nat) (d : Sys), (ps_samples n v d).length = n := by
  induction n with
  | zero => intro v d; rfl
  | succ n ih => intro v d; simp [ps_samples, ih]

theorem ps_samples_lt (n : Nat) :
    ∀ (v : Nat) (d : Sys), v < 2 ^ 16 → ∀ x ∈ ps_samples n v d, x < 2 ^ 16 := by
  induction n with
  | zero => intro v d _ x hx; simp [ps_samples] at hx
  | succ n ih =>
    intro v d hv x hx
    simp only [ps_samples, List.mem_cons] at hx
    have h1 := read_word_val_lt REG_PS_DATA v (emit [Event.msleep 40] d) hv
    rcases hx with rfl | hx
    · exact h1
    · exact ih _ _ h1 x hx

/-- The loop of `proxsensor_get_avg_val` after its first iteration: the sum
grows by the samples, `min` and `max` are the running minimum and maximum. -/
theorem get_avg_loop_spec (n : Nat) :
    ∀ (i : Nat) (l : avg_locals) (d : Sys), i ≠ 0 →
      (proxsensor_get_avg_loop n i l d).1.avg =
        l.avg + ((ps_samples n l.ps_data d).sum : Nat) ∧
      (proxsensor_get_avg_loop n i l d).1.min ≤ l.min ∧
      (∀ x ∈ ps_samples n l.ps_data d, (proxsensor_get_avg_loop n i l d).1.min ≤ (x : Int)) ∧
      ((proxsensor_get_avg_loop n i l d).1.min = l.min ∨
        ∃ x ∈ ps_samples n l.ps_data d, (proxsensor_get_avg_loop n i l d).1.min = (x : Int)) ∧
      l.max ≤ (proxsensor_get_avg_loop n i l d).1.max ∧
      (∀ x ∈ ps_samples n l.ps_data d, (x : Int) ≤ (proxsensor_get_avg_loop n i l d).1.max) ∧
      ((proxsensor_get_avg_loop n i l d).1.max = l.max ∨
        ∃ x ∈ ps_samples n l.ps_data d, (proxsensor_get_avg_loop n i l d).1.max = (x : Int)) := by
  induction n with
  | zero =>
    intro i l d _
    simp [proxsensor_get_avg_loop, ps_samples]
  | succ n ih =>
    intro i l d hi
    rw [proxsensor_get_avg_loop, ps_samples]
    simp only [if_neg hi]
    generalize cm36686_i2c_read_word REG_PS_DATA l.ps_data (emit [Event.msleep 40] d) = r
    obtain ⟨a, m1, m2, m3, M1, M2, M3⟩ := ih (i + 1)
      { min := if (r.1.2 : Int) < l.min then (r.1.2 : Int) else l.min,
        max := if (r.1.2 : Int) > l.max then (r.1.2 : Int) else l.max,
        avg := l.avg + r.1.2, ps_data := r.1.2 } r.2 (Nat.succ_ne_zero i)
    simp only at a m1 m2 m3 M1 M2 M3
    refine ⟨?_, ?_, ?_, ?_, ?_, ?_, ?_⟩
    · rw [a]
      simp only [List.sum_cons]
      push_cast
      ring
    · refine le_trans m1 ?_
      split_ifs <;> omega
    · intro x hx
      rcases List.mem_cons.1 hx with rfl | hx
      · refine le_trans m1 ?_
        split_ifs <;> omega
      · exact m2 x hx
    · rcases m3 with h | ⟨x, hx, h⟩
      · by_cases hc : (r.1.2 : Int) < l.min
        · right
          exact ⟨r.1.2, List.mem_cons_self _ _, by rw [h, if_pos hc]⟩
        · left
          rw [h, if_neg hc]
      · right
        exact ⟨x, List.mem_cons_of_mem _ hx, h⟩
    · refine le_trans ?_ M1
      split_ifs <;> omega
    · intro x hx
      rcases List.mem_cons.1 hx with rfl | hx
      · refine le_trans ?_ M1
        split_ifs <;> omega
      · exact M2 x hx
    · rcases M3 with h | ⟨x, hx, h⟩
      · by_cases hc : (r.1.2 : Int) > l.max
        · right
          exact ⟨r.1.2, List.mem_cons_self _ _, by rw [h, if_pos hc]⟩
        · left
          rw [h, if_neg hc]
      · right
        exact ⟨x, List.mem_cons_of_mem _ hx, h⟩

/-- The whole loop of `proxsensor_get_avg_val`, from its first iteration. -/
theorem get_avg_loop_from_start (n : Nat) (d : Sys) :
    (∃ x ∈ ps_samples (n + 1) 0 d, (proxsensor_get_avg_loop (n + 1) 0 {} d).1.min = (x : Int)) ∧
    (∀ x ∈ ps_samples (n + 1) 0 d, (proxsensor_get_avg_loop (n + 1) 0 {} d).1.min ≤ (x : Int)) ∧
    (∃ x ∈ ps_samples (n + 1) 0 d, (proxsensor_get_avg_loop (n + 1) 0 {} d).1.max = (x : Int)) ∧
    (∀ x ∈ ps_samples (n + 1) 0 d, (x : Int) ≤ (proxsensor_get_avg_loop (n + 1) 0 {} d).1.max) ∧
    (proxsensor_get_avg_loop (n + 1) 0 {} d).1.avg = ((ps_samples (n + 1) 0 d).sum : Nat) := by
  rw [proxsensor_get_avg_loop, ps_samples]
  simp only [if_pos]
  generalize cm36686_i2c_read_word REG_PS_DATA ({} : avg_locals).ps_data
    (emit [Event.msleep 40] d) = r
  obtain ⟨a, m1, m2, m3, M1, M2, M3⟩ := get_avg_loop_spec n (0 + 1)
    { min := (r.1.2 : Int),
      max := if (r.1.2 : Int) > ({} : avg_locals).max then (r.1.2 : Int)
             else ({} : avg_locals).max,
      avg := ({} : avg_locals).avg + r.1.2, ps_data := r.1.2 } r.2 (by decide)
  simp only at a m1 m2 m3 M1 M2 M3
  have hmax : (if (r.1.2 : Int) > ({} : avg_locals).max then (r.1.2 : Int)
      else ({} : avg_locals).max) = (r.1.2 : Int) := by
    show (if (r.1.2 : Int) > 0 then (r.1.2 : Int) else 0) = (r.1.2 : Int)
    split_ifs <;> omega
  refine ⟨?_, ?_, ?_, ?_, ?_⟩
  · rcases m3 with h | ⟨x, hx, h⟩
    · exact ⟨r.1.2, List.mem_cons_self _ _, h⟩
    · exact ⟨x, List.mem_cons_of_mem _ hx, h⟩
  · intro x hx
    rcases List.mem_cons.1 hx with rfl | hx
    · exact m1
    · exact m2 x hx
  · rcases M3 with h | ⟨x, hx, h⟩
    · exact ⟨r.1.2, List.mem_cons_self _ _, h.trans hmax⟩
    · exact ⟨x, List.mem_cons_of_mem _ hx, h⟩
  · intro x hx
    rcases List.mem_cons.1 hx with rfl | hx
    · exact le_trans (le_of_eq hmax.symm) M1
    · exact M2 x hx
  · rw [a, List.sum_cons]
    push_cast
    omega

theorem get_avg_val_fields (d : Sys) :
    (proxsensor_get_avg_val d).cm36686.avg 0 =
      (proxsensor_get_avg_loop PROX_READ_NUM 0 {} d).1.min ∧
    (proxsensor_get_avg_val d).cm36686.avg 1 =
      Int.tdiv (proxsensor_get_avg_loop PROX_READ_NUM 0 {} d).1.avg (PROX_READ_NUM : Int) ∧
    (proxsensor_get_avg_val d).cm36686.avg 2 =
      (proxsensor_get_avg_loop PROX_READ_NUM 0 {} d).1.max := by
  unfold proxsensor_get_avg_val
  generalize proxsensor_get_avg_loop PROX_READ_NUM 0 {} d = r
  exact ⟨rfl, rfl, rfl⟩

/-- C17: `proxsensor_get_avg_val` over the `PROX_READ_NUM = 40` polled
samples.  With `s_0 .. s_39` the 16-bit values that `ps_data` holds after each
of the 40 reads (a failed read keeps the previous value, 0 at the start): on
return `avg[0]` is the minimum of the samples, `avg[2]` their maximum and
`avg[1]` the sum of the samples divided by 40, rounded down. -/
theorem get_avg_val_min_avg_max (d : Sys) :
    (ps_samples PROX_READ_NUM 0 d).length = 40 ∧
    (∀ x ∈ ps_samples PROX_READ_NUM 0 d, x < 2 ^ 16) ∧
    (∃ x ∈ ps_samples PROX_READ_NUM 0 d, (proxsensor_get_avg_val d).cm36686.avg 0 = (x : Int)) ∧
    (∀ x ∈ ps_samples PROX_READ_NUM 0 d, (proxsensor_get_avg_val d).cm36686.avg 0 ≤ (x : Int)) ∧
    (∃ x ∈ ps_samples PROX_READ_NUM 0 d, (proxsensor_get_avg_val d).cm36686.avg 2 = (x : Int)) ∧
    (∀ x ∈ ps_samples PROX_READ_NUM 0 d, (x : Int) ≤ (proxsensor_get_avg_val d).cm36686.avg 2) ∧
    (proxsensor_get_avg_val d).cm36686.avg 1 =
      (((ps_samples PROX_READ_NUM 0 d).sum / 40 : Nat) : Int) := by
  obtain ⟨f0, f1, f2⟩ := get_avg_val_fields d
  obtain ⟨g1, g2, g3, g4, g5⟩ := get_avg_loop_from_start 39 d
  rw [f0, f1, f2]
  refine ⟨ps_samples_length _ _ _, ps_samples_lt _ 0 d (by decide), g1, g2, g3, g4, ?_⟩
  have g5b : (proxsensor_get_avg_loop PROX_READ_NUM 0 {} d).1.avg =
      ((ps_samples PROX_READ_NUM 0 d).sum : Nat) := g5
  rw [g5b]
  exact (Int.ofNat_tdiv _ _).symm

/-! ## Suspend and resume -/

theorem light_disable_spec (d : Sys) :
    ∃ n, n ≤ 3 ∧
      cm36686_light_disable d =
        emit [Event.hrtimer_cancel Timer.light_timer, Event.cancel_work_sync Work.work_light]
          (after_attempts n (Event.smbus_write_word REG_CS_CONF1 0x0001) d) ∧
      (d.cm36686.i2c_client = true → d.cm36686.adapter = true → 1 ≤ n) ∧
      (HealthyBus d → n = 1) := by
  obtain ⟨n, hn, heq, hc, hb⟩ := write_word_spec REG_CS_CONF1 (als_reg_setting 1 1) d
  refine ⟨n, hn, ?_, hc, fun hh => (hb hh).1⟩
  unfold cm36686_light_disable
  simp only [heq]
  rfl

theorem light_enable_spec (d : Sys) :
    ∃ n, n ≤ 3 ∧
      cm36686_light_enable d =
        emit [Event.hrtimer_start Timer.light_timer 200000000]
          (after_attempts n (Event.smbus_write_word REG_CS_CONF1 0x0000) d) ∧
      (d.cm36686.i2c_client = true → d.cm36686.adapter = true → 1 ≤ n) ∧
      (HealthyBus d → n = 1) := by
  obtain ⟨n, hn, heq, hc, hb⟩ := write_word_spec REG_CS_CONF1 (als_reg_setting 0 1) d
  refine ⟨n, hn, ?_, hc, fun hh => (hb hh).1⟩
  unfold cm36686_light_enable
  simp only [heq]
  rfl

/-- C18: `cm36686_suspend` and `cm36686_resume` return 0 and never change
`power_state` (nor any other driver data, nor the table), for every state.
Suspend issues the light-sensor disable (0x0001 to `REG_CS_CONF1`, then the
timer and work cancel) exactly when `LIGHT_ENABLED` is set, resume issues the
light-sensor enable (0x0000 to `REG_CS_CONF1`, then the timer start) exactly
when it is set; with the bit clear each does nothing at all.  So neither
writes a proximity register or calls a power or LED callback, and on a
healthy bus suspend followed by resume ends with the enable write and the
timer start, as `power_state` records. -/
theorem suspend_resume_keep_power_state (d : Sys) :
    (cm36686_suspend d).1 = 0 ∧ (cm36686_resume d).1 = 0 ∧
    (cm36686_suspend d).2.cm36686 = d.cm36686 ∧
    (cm36686_resume d).2.cm36686 = d.cm36686 ∧
    (cm36686_suspend d).2.ps_reg_init_setting = d.ps_reg_init_setting ∧
    (cm36686_resume d).2.ps_reg_init_setting = d.ps_reg_init_setting ∧
    (has_bits d.cm36686.power_state LIGHT_ENABLED = false →
      (cm36686_suspend d).2 = d ∧ (cm36686_resume d).2 = d) ∧
    (has_bits d.cm36686.power_state LIGHT_ENABLED = true →
      (∃ n, n ≤ 3 ∧
        (cm36686_suspend d).2.trace =
          d.trace ++ List.replicate n (Event.smbus_write_word REG_CS_CONF1 0x0001) ++
            [Event.hrtimer_cancel Timer.light_timer, Event.cancel_work_sync Work.work_light] ∧
        (d.cm36686.i2c_client = true → d.cm36686.adapter = true → 1 ≤ n) ∧
        (HealthyBus d → n = 1)) ∧
      (∃ n, n ≤ 3 ∧
        (cm36686_resume d).2.trace =
          d.trace ++ List.replicate n (Event.smbus_write_word REG_CS_CONF1 0x0000) ++
            [Event.hrtimer_start Timer.light_timer 200000000] ∧
        (d.cm36686.i2c_client = true → d.cm36686.adapter = true → 1 ≤ n) ∧
        (HealthyBus d → n = 1)) ∧
      (HealthyBus d →
        (cm36686_resume (cm36686_suspend d).2).2.trace =
          d.trace ++
            [Event.smbus_write_word REG_CS_CONF1 0x0001,
             Event.hrtimer_cancel Timer.light_timer, Event.cancel_work_sync Work.work_light,
             Event.smbus_write_word REG_CS_CONF1 0x0000,
             Event.hrtimer_start Timer.light_timer 200000000])) := by
  obtain ⟨n1, hn1, e1, c1, b1⟩ := light_disable_spec d
  obtain ⟨n2, hn2, e2, c2, b2⟩ := light_enable_spec d
  unfold cm36686_suspend cm36686_resume
  cases hb : has_bits d.cm36686.power_state LIGHT_ENABLED
  · simp
  · simp only [if_true, Bool.true_eq_false, false_implies, true_implies, true_and]
    refine ⟨light_disable_data d, light_enable_data d, by rw [e1]; rfl, by rw [e2]; rfl,
      ⟨n1, hn1, by rw [e1]; simp [emit, after_attempts], c1, b1⟩,
      ⟨n2, hn2, by rw [e2]; simp [emit, after_attempts], c2, b2⟩, ?_⟩
    intro hh
    have hb2 : has_bits (cm36686_light_disable d).cm36686.power_state LIGHT_ENABLED = true := by
      rw [light_disable_data, hb]
    rw [if_pos hb2]
    obtain ⟨n3, hn3, e3, c3, b3⟩ := light_enable_spec (cm36686_light_disable d)
    have hh2 : HealthyBus (cm36686_light_disable d) := by
      rw [e1]
      exact hh
    rw [e3, b3 hh2, e1, b1 hh]
    simp [emit, after_attempts]

/-! ## Proximity interrupt -/

/-- C19: `cm36686_irq_thread_fn` is a linear sequence: it reads the interrupt
GPIO, reads `REG_PS_DATA` (up to three bus attempts), reports the GPIO level
read (0 is close, 1 is far; kept in a `u8`) as `ABS_DISTANCE` followed by a
sync if and only if `PROXIMITY_ENABLED` is set in `power_state`, and takes the
wake lock for 3 seconds.  For every driver state, GPIO level and bus outcome it
leaves `power_state` (and all driver data) unchanged and returns
`IRQ_HANDLED`. -/
theorem irq_thread_reports_when_enabled (d : Sys) :
    (cm36686_irq_thread_fn d).1 = IRQ_HANDLED ∧
    (cm36686_irq_thread_fn d).2.cm36686 = d.cm36686 ∧
    (cm36686_irq_thread_fn d).2.ps_reg_init_setting = d.ps_reg_init_setting ∧
    (∃ n, n ≤ 3 ∧
      (cm36686_irq_thread_fn d).2.trace =
        d.trace ++ [Event.gpio_get_value d.cm36686.pdata.irq] ++
          List.replicate n (Event.i2c_read_word REG_PS_DATA) ++
          (if has_bits d.cm36686.power_state PROXIMITY_ENABLED = true then
            [Event.input_report_abs (d.gpio d.gpio_reads % 2 ^ 8),
             Event.input_sync InputDev.proximity_input_dev]
           else []) ++
          [Event.wake_lock_timeout 3]) ∧
    reported_distances (cm36686_irq_thread_fn d).2.trace =
      reported_distances d.trace ++
        (if has_bits d.cm36686.power_state PROXIMITY_ENABLED = true
          then [d.gpio d.gpio_reads % 2 ^ 8] else []) ∧
    (d.gpio d.gpio_reads ≤ 1 → has_bits d.cm36686.power_state PROXIMITY_ENABLED = true →
      reported_distances (cm36686_irq_thread_fn d).2.trace =
        reported_distances d.trace ++ [d.gpio d.gpio_reads]) := by
  obtain ⟨n, hn, heq⟩ := read_word_spec REG_PS_DATA 0
    (emit [Event.gpio_get_value d.cm36686.pdata.irq] { d with gpio_reads := d.gpio_reads + 1 })
  have htr : (cm36686_irq_thread_fn d).2.trace =
      d.trace ++ [Event.gpio_get_value d.cm36686.pdata.irq] ++
        List.replicate n (Event.i2c_read_word REG_PS_DATA) ++
        (if has_bits d.cm36686.power_state PROXIMITY_ENABLED = true then
          [Event.input_report_abs (d.gpio d.gpio_reads % 2 ^ 8),
           Event.input_sync InputDev.proximity_input_dev]
         else []) ++
        [Event.wake_lock_timeout 3] := by
    unfold cm36686_irq_thread_fn
    simp only [heq]
    cases hb : has_bits d.cm36686.power_state PROXIMITY_ENABLED <;>
      simp [emit, after_attempts, hb]
  have hrep : reported_distances (cm36686_irq_thread_fn d).2.trace =
      reported_distances d.trace ++
        (if has_bits d.cm36686.power_state PROXIMITY_ENABLED = true
          then [d.gpio d.gpio_reads % 2 ^ 8] else []) := by
    rw [htr]
    cases hb : has_bits d.cm36686.power_state PROXIMITY_ENABLED <;>
      simp [reported_distances_append, reported_distances_replicate_read, reported_distances]
  refine ⟨rfl, ?_, ?_, ⟨n, hn, htr⟩, hrep, ?_⟩
  · unfold cm36686_irq_thread_fn
    simp only [heq]
    cases hb : has_bits d.cm36686.power_state PROXIMITY_ENABLED <;>
      simp [emit, after_attempts, hb]
  · unfold cm36686_irq_thread_fn
    simp only [heq]
    cases hb : has_bits d.cm36686.power_state PROXIMITY_ENABLED <;>
      simp [emit, after_attempts, hb]
  · intro hle hb
    rw [hrep, if_pos hb, Nat.mod_eq_of_lt (by omega)]

/-! ## Proximity enable: playback of the register table -/

/-- The loop of `proximity_enable_store` plays the rows back in order, each
one up to three times in a row and exactly once on a healthy bus. -/
theorem ps_reg_init_loop_spec (n : Nat) :
    ∀ (i : Nat) (d : Sys),
      ∃ ns : List Nat, ns.length = n ∧ (∀ k ∈ ns, k ≤ 3) ∧
        smbus_writes (ps_reg_init_loop n i d).trace =
          smbus_writes d.trace ++ playback d.ps_reg_init_setting ns i ∧
        (d.cm36686.i2c_client = true → d.cm36686.adapter = true → ∀ k ∈ ns, 1 ≤ k) ∧
        (HealthyBus d → ns = List.replicate n 1) := by
  induction n with
  | zero =>
    intro i d
    exact ⟨[], rfl, by simp, by simp [ps_reg_init_loop, playback], by simp, fun _ => rfl⟩
  | succ n ih =>
    intro i d
    obtain ⟨k, hk, heq, hc, hb⟩ := write_word_spec (d.ps_reg_init_setting i REG_ADDR)
      (d.ps_reg_init_setting i CMD) d
    obtain ⟨ns, hlen, hle, htr, hcs, hbs⟩ := ih (i + 1)
      (after_attempts k (Event.smbus_write_word (d.ps_reg_init_setting i REG_ADDR)
        (d.ps_reg_init_setting i CMD)) d)
    refine ⟨k :: ns, by simp [hlen], ?_, ?_, ?_, ?_⟩
    · intro x hx
      rcases List.mem_cons.1 hx with rfl | hx
      · exact hk
      · exact hle x hx
    · rw [ps_reg_init_loop, heq, htr]
      simp [after_attempts, smbus_writes_append, smbus_writes_replicate, playback]
    · intro h1 h2 x hx
      rcases List.mem_cons.1 hx with rfl | hx
      · exact hc h1 h2
      · exact hcs h1 h2 x hx
    · intro hh
      rw [(hb hh).1, hbs hh]
      rfl

theorem open_cancelation_writes (d : Sys) :
    smbus_writes (proximity_open_cancelation d).2.trace = smbus_writes d.trace := by
  unfold proximity_open_cancelation
  split_ifs <;> simp [emit, smbus_writes_append, smbus_writes]

theorem open_cancelation_bus (d : Sys) :
    (proximity_open_cancelation d).2.xfer = d.xfer := by
  unfold proximity_open_cancelation
  split_ifs <;> rfl

/-- The address column of the table is never written. -/
theorem loaded_table_addr (d : Sys) (i : Nat) :
    loaded_table d i REG_ADDR = d.ps_reg_init_setting i REG_ADDR := by
  unfold loaded_table proximity_open_cancelation
  have hne : ∀ r : Nat, ¬ (i = r ∧ REG_ADDR = CMD) := fun r hc => absurd hc.2 (by decide)
  by_cases ho : d.cal_open_err < 0
  · rw [if_pos ho]
    rfl
  · rw [if_neg ho]
    simp only [emit]
    split_ifs
    · rw [set_cell_other _ _ _ _ _ _ (hne _), set_cell_other _ _ _ _ _ _ (hne _),
        set_cell_other _ _ _ _ _ _ (hne _)]
    · rw [set_cell_other _ _ _ _ _ _ (hne _)]

/-- The part of the enable path from the load of the cancelation file up to
the last iteration of the register loop. -/
theorem enable_playback_spec (d : Sys) :
    ∃ ns : List Nat, ns.length = PS_REG_NUM ∧ (∀ k ∈ ns, k ≤ 3) ∧
      smbus_writes (ps_reg_init_loop PS_REG_NUM 0 (proximity_open_cancelation d).2).trace =
        smbus_writes d.trace ++ playback (loaded_table d) ns 0 ∧
      (ps_reg_init_loop PS_REG_NUM 0 (proximity_open_cancelation d).2).ps_reg_init_setting =
        loaded_table d ∧
      (d.cm36686.i2c_client = true → d.cm36686.adapter = true → ∀ k ∈ ns, 1 ≤ k) ∧
      (HealthyBus d → ns = List.replicate PS_REG_NUM 1) := by
  obtain ⟨ns, hlen, hle, htr, hcs, hbs⟩ :=
    ps_reg_init_loop_spec PS_REG_NUM 0 (proximity_open_cancelation d).2
  refine ⟨ns, hlen, hle, ?_, (ps_reg_init_loop_data PS_REG_NUM 0 _).2, ?_, ?_⟩
  · rw [htr, open_cancelation_writes]
    rfl
  · intro h1 h2
    exact hcs (by rw [open_cancelation_data]; exact h1) (by rw [open_cancelation_data]; exact h2)
  · intro hh
    exact hbs ⟨by rw [open_cancelation_data]; exact hh.1,
      by rw [open_cancelation_data]; exact hh.2.1, by rw [open_cancelation_bus]; exact hh.2.2⟩

theorem power_up_frame (d : Sys) :
    (proximity_power_up d).ps_reg_init_setting = d.ps_reg_init_setting ∧
    (proximity_power_up d).cal_file = d.cal_file ∧
    (proximity_power_up d).cal_open_err = d.cal_open_err ∧
    (proximity_power_up d).cm36686.pdata = d.cm36686.pdata ∧
    (proximity_power_up d).cm36686.i2c_client = d.cm36686.i2c_client ∧
    (proximity_power_up d).cm36686.adapter = d.cm36686.adapter ∧
    (proximity_power_up d).xfer = d.xfer ∧
    smbus_writes (proximity_power_up d).trace = smbus_writes d.trace := by
  unfold proximity_power_up
  cases hv : d.cm36686.cm36686_proxi_vddpower <;> cases hl : d.cm36686.pdata.cm36686_led_on <;>
    simp [hv, hl, emit, smbus_writes_append, smbus_writes]

/-- The table that the cancelation file load leaves depends on the table, the
file and the platform data only. -/
theorem loaded_table_congr (d d3 : Sys)
    (h1 : d3.ps_reg_init_setting = d.ps_reg_init_setting) (h2 : d3.cal_file = d.cal_file)
    (h3 : d3.cal_open_err = d.cal_open_err) (h4 : d3.cm36686.pdata = d.cm36686.pdata) :
    loaded_table d3 = loaded_table d := by
  unfold loaded_table proximity_open_cancelation
  rw [h1, h2, h3, h4]
  split_ifs
  · exact h1
  · rfl

theorem playback_ones (t : Nat → Nat → Nat) :
    playback t (List.replicate PS_REG_NUM 1) 0 =
      [(t PS_CONF1 REG_ADDR, t PS_CONF1 CMD), (t PS_CONF3 REG_ADDR, t PS_CONF3 CMD),
       (t PS_THD_LOW REG_ADDR, t PS_THD_LOW CMD), (t PS_THD_HIGH REG_ADDR, t PS_THD_HIGH CMD),
       (t PS_CANCEL REG_ADDR, t PS_CANCEL CMD)] := rfl

/-- C20: when `proximity_enable_store` enables proximity sensing from the
disabled state, the table `ps_reg_init_setting`, as it is after the
cancelation file has been loaded, is played back verbatim: one word write per
row, in row order (PS_CONF1, PS_CONF3, PS_THD_LOW, PS_THD_HIGH, PS_CANC), with
the address and the value of the row, whether or not individual writes fail.
On the bus each of the `PS_REG_NUM = 5` writes is seen once when the bus is
healthy, and otherwise up to three times in a row (the retries of
`cm36686_i2c_write_word`), with no other write in between.  Storing "1" when
proximity is already enabled changes nothing and issues no write. -/
theorem enable_plays_back_ps_table (buf : List Char) (size : Nat) (d : Sys)
    (hon : cstring buf ∈ on_inputs) :
    (has_bits d.cm36686.power_state PROXIMITY_ENABLED = false →
      (proximity_enable_store buf size d).2.ps_reg_init_setting = loaded_table d ∧
      (∃ ns : List Nat, ns.length = PS_REG_NUM ∧ (∀ k ∈ ns, k ≤ 3) ∧
        smbus_writes (proximity_enable_store buf size d).2.trace =
          smbus_writes d.trace ++ playback (loaded_table d) ns 0 ∧
        (d.cm36686.i2c_client = true → d.cm36686.adapter = true → ∀ k ∈ ns, 1 ≤ k) ∧
        (HealthyBus d → ns = List.replicate PS_REG_NUM 1)) ∧
      (HealthyBus d → AddrColumnIntact d.ps_reg_init_setting →
        smbus_writes (proximity_enable_store buf size d).2.trace =
          smbus_writes d.trace ++
            [(REG_PS_CONF1, loaded_table d PS_CONF1 CMD),
             (REG_PS_CONF3, loaded_table d PS_CONF3 CMD),
             (REG_PS_THD_LOW, loaded_table d PS_THD_LOW CMD),
             (REG_PS_THD_HIGH, loaded_table d PS_THD_HIGH CMD),
             (REG_PS_CANC, loaded_table d PS_CANCEL CMD)])) ∧
    (has_bits d.cm36686.power_state PROXIMITY_ENABLED = true →
      proximity_enable_store buf size d = ((size : Int), d)) := by
  have e1 : sysfs_streq (cstring buf) "1".toList = true := (sysfs_streq_on _).2 hon
  have hst : proximity_enable_store buf size d =
      ((size : Int), proximity_enable_store_locked true d) := by
    unfold proximity_enable_store
    rw [if_pos e1]
  rw [hst]
  constructor
  · intro hb
    obtain ⟨p1, p2, p3, p4, p5, p6, p7, p8⟩ := power_up_frame d
    have hlt := loaded_table_congr d (proximity_power_up d) p1 p2 p3 p4
    obtain ⟨ns, hlen, hle, htr, htab, hcs, hbs⟩ := enable_playback_spec (proximity_power_up d)
    rw [hlt, p8] at htr
    rw [hlt] at htab
    have hshape : (proximity_enable_store_locked true d).ps_reg_init_setting =
          (ps_reg_init_loop PS_REG_NUM 0
            (proximity_open_cancelation (proximity_power_up d)).2).ps_reg_init_setting ∧
        smbus_writes (proximity_enable_store_locked true d).trace =
          smbus_writes (ps_reg_init_loop PS_REG_NUM 0
            (proximity_open_cancelation (proximity_power_up d)).2).trace := by
      unfold proximity_enable_store_locked
      rw [if_pos ⟨rfl, by rw [hb]; decide⟩]
      exact ⟨rfl, by simp [emit, smbus_writes_append, smbus_writes]⟩
    have hns : HealthyBus d → ns = List.replicate PS_REG_NUM 1 := fun hh =>
      hbs ⟨by rw [p5]; exact hh.1, by rw [p6]; exact hh.2.1, by rw [p7]; exact hh.2.2⟩
    refine ⟨hshape.1.trans htab, ⟨ns, hlen, hle, hshape.2.trans htr, ?_, hns⟩, ?_⟩
    · intro h1 h2
      exact hcs (by rw [p5]; exact h1) (by rw [p6]; exact h2)
    · intro hh ha
      show smbus_writes (proximity_enable_store_locked true d).trace = _
      rw [hshape.2, htr, hns hh, playback_ones]
      have a0 := (loaded_table_addr d PS_CONF1).trans (ha PS_CONF1)
      have a1 := (loaded_table_addr d PS_CONF3).trans (ha PS_CONF3)
      have a2 := (loaded_table_addr d PS_THD_LOW).trans (ha PS_THD_LOW)
      have a3 := (loaded_table_addr d PS_THD_HIGH).trans (ha PS_THD_HIGH)
      have a4 := (loaded_table_addr d PS_CANCEL).trans (ha PS_CANCEL)
      rw [a0, a1, a2, a3, a4]
      rfl
  · intro hb
    unfold proximity_enable_store_locked
    rw [if_neg (fun hc => hc.2 hb), if_neg (fun hc => absurd hc.1 (by decide))]

theorem enable_plays_back_ps_table_witness :
    smbus_writes (proximity_enable_store "1\n".toList 2
      { cal_file := [0x05, 0x00], xfer := fun n => if n = 1 then -5 else 0 }).2.trace =
      playback (loaded_table { cal_file := [0x05, 0x00], xfer := fun n => if n = 1 then -5 else 0 })
        [1, 2, 1, 1, 1] 0 ∧
    (proximity_enable_store "1\n".toList 2
      { cal_file := [0x05, 0x00], xfer := fun n => if n = 1 then -5 else 0
        }).2.ps_reg_init_setting =
      loaded_table { cal_file := [0x05, 0x00], xfer := fun n => if n = 1 then -5 else 0 } ∧
    loaded_table { cal_file := [0x05, 0x00], xfer := fun n => if n = 1 then -5 else 0 }
      PS_CANCEL CMD = 5 ∧
    proximity_enable_store "1".toList 1 { cm36686 := { power_state := 2 } } =
      (1, { cm36686 := { power_state := 2 } }) :=
  ⟨by decide,
   ((enable_plays_back_ps_table "1\n".toList 2
      { cal_file := [0x05, 0x00], xfer := fun n => if n = 1 then -5 else 0 }
      (by decide)).1 (by decide)).1,
   by decide,
   (enable_plays_back_ps_table "1".toList 1 { cm36686 := { power_state := 2 } }
      (by decide)).2 (by decide)⟩

/-! ## Word reads -/

theorem word_of_bytes (data : Nat × Nat) :
    (((data.2 % 2 ^ 8) <<< 8) ||| (data.1 % 2 ^ 8)) % 2 ^ 16 = word_of data := by
  unfold word_of
  have h1 : data.1 % 2 ^ 8 < 2 ^ 8 := Nat.mod_lt _ (by decide)
  have h2 : data.2 % 2 ^ 8 < 2 ^ 8 := Nat.mod_lt _ (by decide)
  rw [Nat.shiftLeft_eq, Nat.mul_comm, ← Nat.mul_add_lt_is_or h1]
  omega

theorem word_of_lt (data : Nat × Nat) : word_of data < 2 ^ 16 := by
  unfold word_of
  have h1 : data.1 % 2 ^ 8 < 2 ^ 8 := Nat.mod_lt _ (by decide)
  have h2 : data.2 % 2 ^ 8 < 2 ^ 8 := Nat.mod_lt _ (by decide)
  omega

/-- One pass of the retry loop of `cm36686_i2c_read_word` whose transfer succeeds. -/
theorem read_word_loop_hit (c retry : Nat) (err : Int) (val : Nat) (d : Sys)
    (hx : 0 ≤ d.xfer d.calls) :
    cm36686_i2c_read_word_loop c (retry + 1) err val d =
      ((d.xfer d.calls, word_of (d.rx d.calls)),
        after_attempts 1 (Event.i2c_read_word c) d) := by
  rw [cm36686_i2c_read_word_loop]
  show (if d.xfer d.calls ≥ 0 then _ else _) = _
  rw [if_pos hx, word_of_bytes]
  rfl

/-- One pass of the retry loop of `cm36686_i2c_read_word` whose transfer fails. -/
theorem read_word_loop_miss (c retry : Nat) (err : Int) (val : Nat) (d : Sys)
    (hx : d.xfer d.calls < 0) :
    cm36686_i2c_read_word_loop c (retry + 1) err val d =
      cm36686_i2c_read_word_loop c retry (d.xfer d.calls) val
        (after_attempts 1 (Event.i2c_read_word c) d) := by
  rw [cm36686_i2c_read_word_loop]
  show (if d.xfer d.calls ≥ 0 then _ else _) = _
  rw [if_neg (not_le.2 hx)]
  rfl

theorem after_attempts_add (n m : Nat) (e : Event) (d : Sys) :
    after_attempts n e (after_attempts m e d) = after_attempts (m + n) e d := by
  show ({ d with calls := d.calls + m + n,
                 trace := d.trace ++ List.replicate m e ++ List.replicate n e } : Sys) =
    { d with calls := d.calls + (m + n), trace := d.trace ++ List.replicate (m + n) e }
  rw [List.replicate_add, List.append_assoc, Nat.add_assoc]

/-- C25: `cm36686_i2c_read_word` makes at most 3 transfer attempts.  At the
first attempt whose result is not negative it stores the word assembled
little-endian from the two bytes read (`data[0] + 256 * data[1]`) and returns
that result, with no further attempt; when all 3 attempts fail it returns the
last error and leaves `*val` as it was; with a NULL client or adapter it
returns `-ENODEV` and makes no attempt.  Nothing but the attempts is done. -/
theorem read_word_attempts (c val : Nat) (d : Sys) :
    (d.cm36686.i2c_client = false ∨ d.cm36686.adapter = false →
      cm36686_i2c_read_word c val d = ((-ENODEV, val), d)) ∧
    (d.cm36686.i2c_client = true → d.cm36686.adapter = true →
      (0 ≤ d.xfer d.calls →
        cm36686_i2c_read_word c val d =
          ((d.xfer d.calls, word_of (d.rx d.calls)),
            after_attempts 1 (Event.i2c_read_word c) d)) ∧
      (d.xfer d.calls < 0 → 0 ≤ d.xfer (d.calls + 1) →
        cm36686_i2c_read_word c val d =
          ((d.xfer (d.calls + 1), word_of (d.rx (d.calls + 1))),
            after_attempts 2 (Event.i2c_read_word c) d)) ∧
      (d.xfer d.calls < 0 → d.xfer (d.calls + 1) < 0 → 0 ≤ d.xfer (d.calls + 2) →
        cm36686_i2c_read_word c val d =
          ((d.xfer (d.calls + 2), word_of (d.rx (d.calls + 2))),
            after_attempts 3 (Event.i2c_read_word c) d)) ∧
      (d.xfer d.calls < 0 → d.xfer (d.calls + 1) < 0 → d.xfer (d.calls + 2) < 0 →
        cm36686_i2c_read_word c val d =
          ((d.xfer (d.calls + 2), val), after_attempts 3 (Event.i2c_read_word c) d))) ∧
    (∃ n, n ≤ 3 ∧
      (cm36686_i2c_read_word c val d).2 = after_attempts n (Event.i2c_read_word c) d) ∧
    (∀ data, word_of data < 2 ^ 16) := by
  refine ⟨?_, ?_, read_word_spec c val d, word_of_lt⟩
  · intro hn
    unfold cm36686_i2c_read_word
    rw [if_pos hn]
  · intro h1 h2
    have hc : ¬ (d.cm36686.i2c_client = false ∨ d.cm36686.adapter = false) := by
      rw [h1, h2]
      decide
    have hdef : cm36686_i2c_read_word c val d = cm36686_i2c_read_word_loop c 3 0 val d := by
      unfold cm36686_i2c_read_word
      rw [if_neg hc]
    rw [hdef]
    refine ⟨?_, ?_, ?_, ?_⟩
    · intro x0
      exact read_word_loop_hit c 2 0 val d x0
    · intro x0 x1
      rw [read_word_loop_miss c 2 0 val d x0,
        read_word_loop_hit c 1 _ val (after_attempts 1 (Event.i2c_read_word c) d) x1,
        after_attempts_add]
      rfl
    · intro x0 x1 x2
      rw [read_word_loop_miss c 2 0 val d x0,
        read_word_loop_miss c 1 _ val (after_attempts 1 (Event.i2c_read_word c) d) x1,
        after_attempts_add,
        read_word_loop_hit c 0 _ val (after_attempts (1 + 1) (Event.i2c_read_word c) d) x2,
        after_attempts_add]
      rfl
    · intro x0 x1 x2
      rw [read_word_loop_miss c 2 0 val d x0,
        read_word_loop_miss c 1 _ val (after_attempts 1 (Event.i2c_read_word c) d) x1,
        after_attempts_add,
        read_word_loop_miss c 0 _ val (after_attempts (1 + 1) (Event.i2c_read_word c) d) x2,
        after_attempts_add]
      rfl

theorem read_word_attempts_witness :
    cm36686_i2c_read_word 8 7 { rx := fun _ => (0x34, 0x12),
                                xfer := fun n => if n = 0 then -5 else 2 } =
      ((2, word_of (0x34, 0x12)),
        after_attempts 2 (Event.i2c_read_word 8)
          { rx := fun _ => (0x34, 0x12), xfer := fun n => if n = 0 then -5 else 2 }) ∧
    word_of (0x34, 0x12) = 0x1234 ∧
    cm36686_i2c_read_word 8 7 { cm36686 := { i2c_client := false } } =
      ((-ENODEV, 7), { cm36686 := { i2c_client := false } }) :=
  ⟨((read_word_attempts 8 7
      { rx := fun _ => (0x34, 0x12), xfer := fun n => if n = 0 then -5 else 2 }).2.1
        rfl rfl).2.1 (by decide) (by decide),
   by decide,
   (read_word_attempts 8 7 { cm36686 := { i2c_client := false } }).1 (Or.inl rfl)⟩

/-! ## Bounds of the proximity average -/

theorem sum_le_of_le (M : Nat) :
    ∀ l : List Nat, (∀ x ∈ l, x ≤ M) → l.sum ≤ M * l.length := by
  intro l
  induction l with
  | nil => intro _; simp
  | cons a l ih =>
    intro hl
    have ha := hl a (List.mem_cons_self _ _)
    have hr := ih (fun x hx => hl x (List.mem_cons_of_mem _ hx))
    simp only [List.sum_cons, List.length_cons, Nat.mul_succ]
    omega

theorem le_sum_of_le (m : Nat) :
    ∀ l : List Nat, (∀ x ∈ l, m ≤ x) → m * l.length ≤ l.sum := by
  intro l
  induction l with
  | nil => intro _; simp
  | cons a l ih =>
    intro hl
    have ha := hl a (List.mem_cons_self _ _)
    have hr := ih (fun x hx => hl x (List.mem_cons_of_mem _ hx))
    simp only [List.sum_cons, List.length_cons, Nat.mul_succ]
    omega

/-- The first `k` iterations of the loop of `proxsensor_get_avg_val` followed
by `m` more are `k + m` iterations. -/
theorem get_avg_loop_split (k : Nat) :
    ∀ (m i : Nat) (l : avg_locals) (d : Sys),
      proxsensor_get_avg_loop (k + m) i l d =
        proxsensor_get_avg_loop m (i + k) (proxsensor_get_avg_loop k i l d).1
          (proxsensor_get_avg_loop k i l d).2 := by
  induction k with
  | zero =>
    intro m i l d
    rw [Nat.zero_add]
    rfl
  | succ k ih =>
    intro m i l d
    have hk : k + 1 + m = (k + m) + 1 := by omega
    have hi : i + (k + 1) = (i + 1) + k := by omega
    rw [hk, hi, proxsensor_get_avg_loop, proxsensor_get_avg_loop, ih]

/-- The accumulator of `proxsensor_get_avg_val` after `k` iterations. -/
theorem get_avg_loop_acc (k : Nat) (d : Sys) :
    0 ≤ (proxsensor_get_avg_loop k 0 {} d).1.avg ∧
    (proxsensor_get_avg_loop k 0 {} d).1.avg ≤ 65535 * (k : Int) := by
  cases k with
  | zero =>
    show (0 : Int) ≤ 0 ∧ (0 : Int) ≤ 65535 * ((0 : Nat) : Int)
    simp
  | succ n =>
    obtain ⟨_, _, _, _, hacc⟩ := get_avg_loop_from_start n d
    rw [hacc]
    have hlt := ps_samples_lt (n + 1) 0 d (by decide)
    have hs := sum_le_of_le 65535 (ps_samples (n + 1) 0 d) (fun x hx => by
      have := hlt x hx
      omega)
    rw [ps_samples_length] at hs
    constructor
    · exact Int.ofNat_nonneg _
    · have : ((ps_samples (n + 1) 0 d).sum : Int) ≤ ((65535 * (n + 1) : Nat) : Int) :=
        Int.ofNat_le.2 hs
      push_cast at this ⊢
      exact this

/-- C23: for every behaviour of the bus, that is for every sequence of 40
sixteen-bit samples, `proxsensor_get_avg_val` leaves
`0 ≤ avg[0] ≤ avg[1] ≤ avg[2] ≤ 65535`, and the `int` accumulator never
overflows: after each of the 40 iterations it lies between 0 and 65535 times
the number of iterations done, at most `40 * 65535 = 2621400`, which is
below `2^31`. -/
theorem get_avg_val_ordered_and_bounded (d : Sys) :
    0 ≤ (proxsensor_get_avg_val d).cm36686.avg 0 ∧
    (proxsensor_get_avg_val d).cm36686.avg 0 ≤ (proxsensor_get_avg_val d).cm36686.avg 1 ∧
    (proxsensor_get_avg_val d).cm36686.avg 1 ≤ (proxsensor_get_avg_val d).cm36686.avg 2 ∧
    (proxsensor_get_avg_val d).cm36686.avg 2 ≤ 65535 ∧
    (∀ k, k ≤ PROX_READ_NUM →
      proxsensor_get_avg_loop PROX_READ_NUM 0 {} d =
        proxsensor_get_avg_loop (PROX_READ_NUM - k) k (proxsensor_get_avg_loop k 0 {} d).1
          (proxsensor_get_avg_loop k 0 {} d).2 ∧
      0 ≤ (proxsensor_get_avg_loop k 0 {} d).1.avg ∧
      (proxsensor_get_avg_loop k 0 {} d).1.avg ≤ 2621400 ∧
      (proxsensor_get_avg_loop k 0 {} d).1.avg < 2 ^ 31) := by
  obtain ⟨f0, f1, f2⟩ := get_avg_val_fields d
  obtain ⟨⟨x0, hx0, e0⟩, hmin, ⟨xM, hxM, eM⟩, hmax, hacc⟩ := get_avg_loop_from_start 39 d
  have hlt := ps_samples_lt (39 + 1) 0 d (by decide)
  have hlen : (ps_samples (39 + 1) 0 d).length = 40 := ps_samples_length _ _ _
  have e0' : (proxsensor_get_avg_loop PROX_READ_NUM 0 {} d).1.min = (x0 : Int) := e0
  have eM' : (proxsensor_get_avg_loop PROX_READ_NUM 0 {} d).1.max = (xM : Int) := eM
  have hacc' : (proxsensor_get_avg_loop PROX_READ_NUM 0 {} d).1.avg =
      ((ps_samples (39 + 1) 0 d).sum : Nat) := hacc
  have h1 : (proxsensor_get_avg_val d).cm36686.avg 1 =
      (((ps_samples (39 + 1) 0 d).sum / 40 : Nat) : Int) := by
    rw [f1, hacc']
    exact (Int.ofNat_tdiv _ _).symm
  have hlow : x0 * 40 ≤ (ps_samples (39 + 1) 0 d).sum := by
    have := le_sum_of_le x0 (ps_samples (39 + 1) 0 d) (fun x hx => by
      have := hmin x hx
      rw [e0] at this
      exact Int.ofNat_le.1 this)
    rw [hlen] at this
    exact this
  have hhigh : (ps_samples (39 + 1) 0 d).sum ≤ xM * 40 := by
    have := sum_le_of_le xM (ps_samples (39 + 1) 0 d) (fun x hx => by
      have := hmax x hx
      rw [eM] at this
      exact Int.ofNat_le.1 this)
    rw [hlen] at this
    exact this
  have hM := hlt xM hxM
  refine ⟨?_, ?_, ?_, ?_, ?_⟩
  · rw [f0, e0']
    exact Int.ofNat_nonneg _
  · rw [f0, e0', h1]
    exact Int.ofNat_le.2 ((Nat.le_div_iff_mul_le (by decide)).2 hlow)
  · rw [f2, eM', h1]
    exact Int.ofNat_le.2 (Nat.div_le_of_le_mul (by rw [Nat.mul_comm]; exact hhigh))
  · rw [f2, eM']
    have : xM ≤ 65535 := by omega
    exact_mod_cast this
  · intro k hk
    obtain ⟨a0, a1⟩ := get_avg_loop_acc k d
    have hk40 : (k : Int) ≤ 40 := by
      have : k ≤ 40 := hk
      exact_mod_cast this
    refine ⟨?_, a0, by omega, by omega⟩
    have hsplit := get_avg_loop_split k (PROX_READ_NUM - k) 0 {} d
    rw [Nat.add_sub_cancel' hk, Nat.zero_add] at hsplit
    exact hsplit

/-! ## Light polling -/

theorem light_logs_append (a b : List Event) :
    light_logs (a ++ b) = light_logs a + light_logs b := by
  induction a with
  | nil => simp [light_logs]
  | cons e a ih =>
    cases e <;> simp [light_logs, ih]
    omega

theorem reported_rel_append (a b : List Event) :
    reported_rel (a ++ b) = reported_rel a ++ reported_rel b := by
  induction a with
  | nil => rfl
  | cons e a ih => cases e <;> simp [reported_rel, ih]

theorem light_logs_replicate_read (n c : Nat) :
    light_logs (List.replicate n (Event.i2c_read_word c)) = 0 := by
  induction n with
  | zero => rfl
  | succ n ih => simp [List.replicate_succ, light_logs, ih]

theorem reported_rel_replicate_read (n c : Nat) :
    reported_rel (List.replicate n (Event.i2c_read_word c)) = [] := by
  induction n with
  | zero => rfl
  | succ n ih => simp [List.replicate_succ, reported_rel, ih]

theorem read_word_logs (c val : Nat) (d : Sys) :
    light_logs (cm36686_i2c_read_word c val d).2.trace = light_logs d.trace := by
  obtain ⟨n, _, heq⟩ := read_word_spec c val d
  rw [heq]
  simp [after_attempts, light_logs_append, light_logs_replicate_read]

theorem read_word_rel (c val : Nat) (d : Sys) :
    reported_rel (cm36686_i2c_read_word c val d).2.trace = reported_rel d.trace := by
  obtain ⟨n, _, heq⟩ := read_word_spec c val d
  rw [heq]
  simp [after_attempts, reported_rel_append, reported_rel_replicate_read]

/-- The counter of `cm36686_work_func_light` after one invocation. -/
theorem work_func_light_count (d : Sys) :
    (cm36686_work_func_light d).cm36686.count_log_time =
      if d.cm36686.count_log_time ≥ LIGHT_LOG_TIME then 0
      else d.cm36686.count_log_time + 1 := by
  simp only [cm36686_work_func_light, emit, read_word_data]
  split_ifs <;> rfl

/-- The log lines of one invocation of `cm36686_work_func_light`. -/
theorem work_func_light_logs (d : Sys) :
    light_logs (cm36686_work_func_light d).trace =
      light_logs d.trace + if d.cm36686.count_log_time ≥ LIGHT_LOG_TIME then 1 else 0 := by
  simp only [cm36686_work_func_light, emit, read_word_data]
  split_ifs <;>
    simp [light_logs_append, light_logs, read_word_logs]

/-- The two values one invocation of `cm36686_work_func_light` reports. -/
theorem work_func_light_rel (d : Sys) :
    reported_rel (cm36686_work_func_light d).trace =
      reported_rel d.trace ++
        [(RelCode.REL_DIAL, (cm36686_work_func_light d).cm36686.als_data + 1),
         (RelCode.REL_WHEEL, (cm36686_work_func_light d).cm36686.white_data + 1)] := by
  simp only [cm36686_work_func_light, emit, read_word_data]
  split_ifs <;>
    simp [reported_rel_append, reported_rel, read_word_rel]

/-- The two readings one invocation of `cm36686_work_func_light` leaves. -/
theorem work_func_light_readings (d : Sys) :
    (cm36686_work_func_light d).cm36686.als_data =
      (cm36686_i2c_read_word REG_ALS_DATA d.cm36686.als_data d).1.2 ∧
    (cm36686_work_func_light d).cm36686.white_data =
      (cm36686_i2c_read_word REG_WHITE_DATA d.cm36686.white_data
        { (cm36686_i2c_read_word REG_ALS_DATA d.cm36686.als_data d).2 with
          cm36686 := { (cm36686_i2c_read_word REG_ALS_DATA d.cm36686.als_data d).2.cm36686 with
            als_data := (cm36686_i2c_read_word REG_ALS_DATA d.cm36686.als_data d).1.2 } }).1.2 := by
  simp only [cm36686_work_func_light, emit, read_word_data]
  split_ifs <;> exact ⟨rfl, rfl⟩

/-- A read on a bus whose first transfer succeeds. -/
theorem read_word_hit (c val : Nat) (d : Sys) (hc : d.cm36686.i2c_client = true)
    (ha : d.cm36686.adapter = true) (hx : 0 ≤ d.xfer d.calls) :
    cm36686_i2c_read_word c val d =
      ((d.xfer d.calls, word_of (d.rx d.calls)),
        after_attempts 1 (Event.i2c_read_word c) d) := by
  unfold cm36686_i2c_read_word
  rw [if_neg (by simp [hc, ha])]
  exact read_word_loop_hit c 2 0 val d hx

/-- C24: for every pair of 16-bit readings in `als_data` and `white_data`,
one invocation of `cm36686_work_func_light` reports exactly two relative
values, `REL_DIAL = als_data + 1` and `REL_WHEEL = white_data + 1` of the
readings it leaves in the two fields; the sums are taken without 16-bit
wrap-around, so each reported value lies in `1..65536` and is never 0.  When
both transfers succeed at the first attempt the readings are the words
assembled from the bytes read. -/
theorem work_func_light_reports_plus_one (d : Sys)
    (ha : d.cm36686.als_data < 2 ^ 16) (hw : d.cm36686.white_data < 2 ^ 16) :
    reported_rel (cm36686_work_func_light d).trace =
      reported_rel d.trace ++
        [(RelCode.REL_DIAL, (cm36686_work_func_light d).cm36686.als_data + 1),
         (RelCode.REL_WHEEL, (cm36686_work_func_light d).cm36686.white_data + 1)] ∧
    (cm36686_work_func_light d).cm36686.als_data < 2 ^ 16 ∧
    (cm36686_work_func_light d).cm36686.white_data < 2 ^ 16 ∧
    1 ≤ (cm36686_work_func_light d).cm36686.als_data + 1 ∧
    (cm36686_work_func_light d).cm36686.als_data + 1 ≤ 65536 ∧
    1 ≤ (cm36686_work_func_light d).cm36686.white_data + 1 ∧
    (cm36686_work_func_light d).cm36686.white_data + 1 ≤ 65536 ∧
    (d.cm36686.i2c_client = true → d.cm36686.adapter = true →
      0 ≤ d.xfer d.calls → 0 ≤ d.xfer (d.calls + 1) →
        (cm36686_work_func_light d).cm36686.als_data = word_of (d.rx d.calls) ∧
        (cm36686_work_func_light d).cm36686.white_data = word_of (d.rx (d.calls + 1))) := by
  obtain ⟨ea, ew⟩ := work_func_light_readings d
  have la : (cm36686_work_func_light d).cm36686.als_data < 2 ^ 16 := by
    rw [ea]
    exact read_word_val_lt _ _ _ ha
  have lw : (cm36686_work_func_light d).cm36686.white_data < 2 ^ 16 := by
    rw [ew]
    exact read_word_val_lt _ _ _ hw
  refine ⟨work_func_light_rel d, la, lw, by omega, by omega, by omega, by omega, ?_⟩
  intro hc hd h0 h1
  have h2 : ∀ s : Sys, s.cm36686.i2c_client = true → s.cm36686.adapter = true →
      s.calls = d.calls + 1 → s.xfer = d.xfer → s.rx = d.rx →
      (cm36686_i2c_read_word REG_WHITE_DATA d.cm36686.white_data s).1.2 =
        word_of (d.rx (d.calls + 1)) := by
    intro s sc sa e1 e2 e3
    rw [read_word_hit _ _ s sc sa (by rw [e1, e2]; exact h1), e1, e3]
  rw [ea, ew, read_word_hit _ _ d hc hd h0]
  refine ⟨rfl, h2 _ ?_ ?_ ?_ ?_ ?_⟩
  · exact hc
  · exact hd
  · rfl
  · rfl
  · rfl

/-- A reading of 0 is reported as 1 and a reading of 65535 as 65536. -/
theorem work_func_light_reports_plus_one_witness :
    (reported_rel (cm36686_work_func_light {}).trace =
        [(RelCode.REL_DIAL, 1), (RelCode.REL_WHEEL, 1)] ∧
      reported_rel (cm36686_work_func_light { rx := fun _ => (255, 255) }).trace =
        [(RelCode.REL_DIAL, 65536), (RelCode.REL_WHEEL, 65536)]) ∧
    (({ rx := fun _ => (255, 255) } : Sys).cm36686.als_data < 2 ^ 16 ∧
      ({ rx := fun _ => (255, 255) } : Sys).cm36686.white_data < 2 ^ 16 ∧
      (cm36686_work_func_light { rx := fun _ => (255, 255) }).cm36686.als_data = 65535 ∧
      (cm36686_work_func_light { rx := fun _ => (255, 255) }).cm36686.white_data = 65535) :=
  ⟨⟨by decide, by decide⟩, by decide, by decide,
    ((work_func_light_reports_plus_one { rx := fun _ => (255, 255) } (by decide)
      (by decide)).2.2.2.2.2.2.2 rfl rfl (by decide) (by decide))⟩

/-- C21: starting from `count_log_time = 0`, after `n` invocations of
`cm36686_work_func_light` the counter is `n % 31` and `n / 31` log lines have
been written: the counter stays within `0..30`, but the log line comes with
every 31st invocation, not every 30th (none within the first 30 invocations,
the first with invocation 31), against the comment at `LIGHT_LOG_TIME`
("6SEC 200mec X 30"). -/
theorem light_log_every_31st_poll (d : Sys) (n : Nat) :
    (light_polls n (log_time_zero d)).cm36686.count_log_time = ((n % 31 : Nat) : Int) ∧
    light_logs (light_polls n (log_time_zero d)).trace = light_logs d.trace + n / 31 ∧
    0 ≤ (light_polls n (log_time_zero d)).cm36686.count_log_time ∧
    (light_polls n (log_time_zero d)).cm36686.count_log_time ≤ LIGHT_LOG_TIME ∧
    light_logs (light_polls 30 (log_time_zero d)).trace = light_logs d.trace ∧
    light_logs (light_polls 31 (log_time_zero d)).trace = light_logs d.trace + 1 ∧
    light_logs (light_polls 60 (log_time_zero d)).trace = light_logs d.trace + 1 ∧
    light_logs (light_polls 62 (log_time_zero d)).trace = light_logs d.trace + 2 := by
  have key : ∀ n : Nat,
      (light_polls n (log_time_zero d)).cm36686.count_log_time = ((n % 31 : Nat) : Int) ∧
      light_logs (light_polls n (log_time_zero d)).trace = light_logs d.trace + n / 31 := by
    intro n
    induction n with
    | zero => exact ⟨rfl, rfl⟩
    | succ n ih =>
      obtain ⟨hc, hl⟩ := ih
      have sc := work_func_light_count (light_polls n (log_time_zero d))
      have sl := work_func_light_logs (light_polls n (log_time_zero d))
      have e : light_polls (n + 1) (log_time_zero d) =
          cm36686_work_func_light (light_polls n (log_time_zero d)) := rfl
      rw [e, sc, sl, hc, hl]
      have h30 : LIGHT_LOG_TIME = 30 := rfl
      rw [h30]
      by_cases hm : n % 31 = 30
      · have : ((n % 31 : Nat) : Int) ≥ 30 := by rw [hm]; decide
        rw [if_pos this, if_pos this]
        constructor
        · have : (n + 1) % 31 = 0 := by omega
          rw [this]
          rfl
        · omega
      · have hlt : n % 31 < 30 := by
          have := Nat.mod_lt n (by decide : 31 > 0)
          omega
        have : ¬ ((n % 31 : Nat) : Int) ≥ 30 := by
          have : ((n % 31 : Nat) : Int) < 30 := by exact_mod_cast hlt
          omega
        rw [if_neg this, if_neg this]
        constructor
        · have : (n + 1) % 31 = n % 31 + 1 := by omega
          rw [this]
          push_cast
          rfl
        · omega
  refine ⟨(key n).1, (key n).2, ?_, ?_, (key 30).2, (key 31).2, (key 60).2, (key 62).2⟩
  · rw [(key n).1]
    exact Int.ofNat_nonneg _
  · rw [(key n).1]
    have := Nat.mod_lt n (by decide : 31 > 0)
    have h30 : LIGHT_LOG_TIME = 30 := rfl
    rw [h30]
    have : n % 31 ≤ 30 := by omega
    exact_mod_cast this

/-! ## Thresholds of a loaded and of a fresh calibration -/

/-- The table after `proximity_store_cancelation` is the one its selection
step leaves. -/
theorem store_cancelation_table (do_calib : Bool) (d : Sys) :
    (proximity_store_cancelation do_calib d).2.ps_reg_init_setting =
      (proximity_store_cancelation_select do_calib d).ps_reg_init_setting := by
  obtain ⟨n1, n2, n3, _, _, _, hw, _, _⟩ :=
    store_cancelation_write_spec (proximity_store_cancelation_select do_calib d)
  obtain ⟨f1, _⟩ := store_cancelation_save_spec do_calib
    (proximity_store_cancelation_write (proximity_store_cancelation_select do_calib d))
  unfold proximity_store_cancelation
  rw [f1, hw]
  rfl

/-- The table after `proximity_open_cancelation` has read a file that leaves a
non-zero cancel value. -/
theorem open_cancelation_table (d : Sys) (ho : 0 ≤ d.cal_open_err)
    (hc : (proximity_open_cancelation d).2.ps_reg_init_setting PS_CANCEL CMD ≠ 0) :
    (proximity_open_cancelation d).2.ps_reg_init_setting =
      set_cell (set_cell (set_cell d.ps_reg_init_setting PS_CANCEL CMD
        (cal_file_read (d.ps_reg_init_setting PS_CANCEL CMD) d.cal_file).2) PS_THD_HIGH CMD
        (thd_or d.cm36686.pdata.cancel_hi_thd CANCEL_HI_THD)) PS_THD_LOW CMD
        (thd_or d.cm36686.pdata.cancel_low_thd CANCEL_LOW_THD) := by
  simp only [proximity_open_cancelation, emit] at hc ⊢
  rw [if_neg (not_lt.2 ho)] at hc ⊢
  by_cases h1 : set_cell d.ps_reg_init_setting PS_CANCEL CMD
      (cal_file_read (d.ps_reg_init_setting PS_CANCEL CMD) d.cal_file).2 PS_CANCEL CMD ≠ 0
  · simp only [if_pos h1]
  · simp only [if_neg h1] at hc
    exact absurd hc h1

/-- C30: the two places that derive thresholds from calibration data agree.
For every platform data, whenever `proximity_open_cancelation` opens the
cancelation file and is left with a non-zero cancel value, the high and the
low threshold it puts in `ps_reg_init_setting` are the ones that
`proximity_store_cancelation` with `do_calib = true` puts there under the same
platform data (in any state `d2` of the bus and of the table): the
`cancel_*_thd` of the platform data if non-zero, else 0x0022 and 0x001E. -/
theorem cancelation_thresholds_agree (d d2 : Sys)
    (hp : d2.cm36686.pdata = d.cm36686.pdata) (ho : 0 ≤ d.cal_open_err)
    (hc : (proximity_open_cancelation d).2.ps_reg_init_setting PS_CANCEL CMD ≠ 0) :
    (proximity_open_cancelation d).2.ps_reg_init_setting PS_THD_HIGH CMD =
      (proximity_store_cancelation true d2).2.ps_reg_init_setting PS_THD_HIGH CMD ∧
    (proximity_open_cancelation d).2.ps_reg_init_setting PS_THD_LOW CMD =
      (proximity_store_cancelation true d2).2.ps_reg_init_setting PS_THD_LOW CMD ∧
    (proximity_open_cancelation d).2.ps_reg_init_setting PS_THD_HIGH CMD =
      (if d.cm36686.pdata.cancel_hi_thd ≠ 0 then d.cm36686.pdata.cancel_hi_thd
       else 0x0022) % 2 ^ 16 ∧
    (proximity_open_cancelation d).2.ps_reg_init_setting PS_THD_LOW CMD =
      (if d.cm36686.pdata.cancel_low_thd ≠ 0 then d.cm36686.pdata.cancel_low_thd
       else 0x001E) % 2 ^ 16 := by
  rw [open_cancelation_table d ho hc, store_cancelation_table,
    store_cancelation_select_table, hp]
  refine ⟨?_, ?_, ?_, ?_⟩
  · rw [set_cell_other _ _ _ _ _ _ (by decide), set_cell_same,
      set_cell_other _ _ _ _ _ _ (by decide), set_cell_same]
    rfl
  · rw [set_cell_same, set_cell_same]
    rfl
  · rw [set_cell_other _ _ _ _ _ _ (by decide), set_cell_same]
    rfl
  · rw [set_cell_same]
    rfl

theorem cancelation_thresholds_agree_witness :
    (({ cm36686 := { pdata := { cancel_low_thd := 9 } }, xfer := fun _ => -1 } : Sys).cm36686.pdata =
        ({ cm36686 := { pdata := { cancel_low_thd := 9 } }, cal_file := [7, 0] } : Sys).cm36686.pdata ∧
      (0 : Int) ≤ ({ cm36686 := { pdata := { cancel_low_thd := 9 } }, cal_file := [7, 0] } : Sys).cal_open_err ∧
      (proximity_open_cancelation { cm36686 := { pdata := { cancel_low_thd := 9 } }, cal_file := [7, 0] }).2.ps_reg_init_setting PS_CANCEL CMD ≠ 0) ∧
    (proximity_open_cancelation { cm36686 := { pdata := { cancel_low_thd := 9 } }, cal_file := [7, 0] }).2.ps_reg_init_setting PS_THD_HIGH CMD = 0x0022 ∧
    (proximity_store_cancelation true { cm36686 := { pdata := { cancel_low_thd := 9 } }, xfer := fun _ => -1 }).2.ps_reg_init_setting PS_THD_HIGH CMD = 0x0022 ∧
    (proximity_open_cancelation { cm36686 := { pdata := { cancel_low_thd := 9 } }, cal_file := [7, 0] }).2.ps_reg_init_setting PS_THD_LOW CMD =
      (proximity_store_cancelation true { cm36686 := { pdata := { cancel_low_thd := 9 } }, xfer := fun _ => -1 }).2.ps_reg_init_setting PS_THD_LOW CMD :=
  ⟨⟨rfl, by decide, by decide⟩, by decide, by decide,
    (cancelation_thresholds_agree
      { cm36686 := { pdata := { cancel_low_thd := 9 } }, cal_file := [7, 0] }
      { cm36686 := { pdata := { cancel_low_thd := 9 } }, xfer := fun _ => -1 }
      rfl (by decide) (by decide)).2.1⟩

/-! ## The two enable bits -/

theorem emit_data (es : List Event) (d : Sys) : (emit es d).cm36686 = d.cm36686 := rfl

theorem set_light_keeps_proximity (x : Nat) :
    has_bits (set_bits8 x LIGHT_ENABLED) PROXIMITY_ENABLED = has_bits x PROXIMITY_ENABLED := by
  have h1 : PROXIMITY_ENABLED = 2 ^ 1 := rfl
  have hb : Nat.testBit 1 1 = false := by decide
  rw [h1, has_bits_two_pow, has_bits_two_pow, testBit_set_bits8]
  simp [LIGHT_ENABLED, hb]

theorem clear_light_keeps_proximity (x : Nat) :
    has_bits (clear_bits8 x LIGHT_ENABLED) PROXIMITY_ENABLED = has_bits x PROXIMITY_ENABLED := by
  have h1 : PROXIMITY_ENABLED = 2 ^ 1 := rfl
  have h0 : LIGHT_ENABLED = 2 ^ 0 := rfl
  rw [h1, has_bits_two_pow, has_bits_two_pow, h0, testBit_clear_bits8 x 0 1 (by decide)]
  simp

theorem set_proximity_keeps_light (x : Nat) :
    has_bits (set_bits8 x PROXIMITY_ENABLED) LIGHT_ENABLED = has_bits x LIGHT_ENABLED := by
  have h0 : LIGHT_ENABLED = 2 ^ 0 := rfl
  rw [h0, has_bits_two_pow, has_bits_two_pow, testBit_set_bits8]
  simp [PROXIMITY_ENABLED]

theorem clear_proximity_keeps_light (x : Nat) :
    has_bits (clear_bits8 x PROXIMITY_ENABLED) LIGHT_ENABLED = has_bits x LIGHT_ENABLED := by
  have h1 : PROXIMITY_ENABLED = 2 ^ 1 := rfl
  have h0 : LIGHT_ENABLED = 2 ^ 0 := rfl
  rw [h0, has_bits_two_pow, has_bits_two_pow, h1, testBit_clear_bits8 x 1 0 (by decide)]
  simp

theorem enable_bits_le_three (x : Nat) (hx : x ≤ 3) :
    set_bits8 x LIGHT_ENABLED ≤ 3 ∧ clear_bits8 x LIGHT_ENABLED ≤ 3 ∧
    set_bits8 x PROXIMITY_ENABLED ≤ 3 ∧ clear_bits8 x PROXIMITY_ENABLED ≤ 3 := by
  interval_cases x <;> decide

/-- What `light_enable_store` does to `power_state`. -/
theorem light_enable_store_power (buf : List Char) (size : Nat) (d : Sys) :
    (light_enable_store buf size d).2.cm36686.power_state = d.cm36686.power_state ∨
    (light_enable_store buf size d).2.cm36686.power_state =
      set_bits8 d.cm36686.power_state LIGHT_ENABLED ∨
    (light_enable_store buf size d).2.cm36686.power_state =
      clear_bits8 d.cm36686.power_state LIGHT_ENABLED := by
  have key : ∀ b, (light_enable_store_locked b d).cm36686.power_state = d.cm36686.power_state ∨
      (light_enable_store_locked b d).cm36686.power_state =
        set_bits8 d.cm36686.power_state LIGHT_ENABLED ∨
      (light_enable_store_locked b d).cm36686.power_state =
        clear_bits8 d.cm36686.power_state LIGHT_ENABLED := by
    intro b
    rw [light_enable_store_locked_data]
    show (if _ then _ else if _ then _ else _) = _ ∨ (if _ then _ else if _ then _ else _) = _ ∨
      (if _ then _ else if _ then _ else _) = _
    split_ifs
    · exact Or.inr (Or.inl rfl)
    · exact Or.inr (Or.inr rfl)
    · exact Or.inl rfl
  unfold light_enable_store
  split_ifs
  · exact key true
  · exact key false
  · exact Or.inl rfl

/-- What `proximity_enable_store` does to `power_state`. -/
theorem proximity_enable_store_power (buf : List Char) (size : Nat) (d : Sys) :
    (proximity_enable_store buf size d).2.cm36686.power_state = d.cm36686.power_state ∨
    (proximity_enable_store buf size d).2.cm36686.power_state =
      set_bits8 d.cm36686.power_state PROXIMITY_ENABLED ∨
    (proximity_enable_store buf size d).2.cm36686.power_state =
      clear_bits8 d.cm36686.power_state PROXIMITY_ENABLED := by
  have key : ∀ b,
      (proximity_enable_store_locked b d).cm36686.power_state = d.cm36686.power_state ∨
      (proximity_enable_store_locked b d).cm36686.power_state =
        set_bits8 d.cm36686.power_state PROXIMITY_ENABLED ∨
      (proximity_enable_store_locked b d).cm36686.power_state =
        clear_bits8 d.cm36686.power_state PROXIMITY_ENABLED := by
    intro b
    rw [proximity_enable_store_locked_data]
    show (if _ then _ else if _ then _ else _) = _ ∨ (if _ then _ else if _ then _ else _) = _ ∨
      (if _ then _ else if _ then _ else _) = _
    split_ifs
    · exact Or.inr (Or.inl rfl)
    · exact Or.inr (Or.inr rfl)
    · exact Or.inl rfl
  unfold proximity_enable_store
  split_ifs
  · exact key true
  · exact key false
  · exact Or.inl rfl

theorem avg_store_locked_data (new_value : Bool) (d : Sys) :
    (proximity_avg_store_locked new_value d).cm36686 = d.cm36686 := by
  unfold proximity_avg_store_locked
  cases new_value
  · simp only [Bool.false_eq_true, if_false]
    split_ifs <;> simp only [emit_data, write_word_data]
  · simp only [if_true]
    split_ifs <;> simp only [emit_data, write_word_data]

theorem avg_store_data (buf : List Char) (size : Nat) (d : Sys) :
    (proximity_avg_store buf size d).2.cm36686 = d.cm36686 := by
  unfold proximity_avg_store
  split_ifs
  · exact avg_store_locked_data true d
  · exact avg_store_locked_data false d
  · rfl

theorem state_show_data (d : Sys) : (proximity_state_show d).2.cm36686 = d.cm36686 := by
  unfold proximity_state_show
  simp only [read_word_data]
  split_ifs <;> simp only [emit_data, write_word_data, read_word_data]

theorem store_cancelation_data (do_calib : Bool) (d : Sys) :
    (proximity_store_cancelation do_calib d).2.cm36686 = d.cm36686 := by
  obtain ⟨v1, _, _⟩ := store_cancelation_select_env do_calib d
  obtain ⟨n1, n2, n3, _, _, _, hw, _, _⟩ :=
    store_cancelation_write_spec (proximity_store_cancelation_select do_calib d)
  have hs : ∀ s : Sys, (proximity_store_cancelation_save do_calib s).2.cm36686 = s.cm36686 := by
    intro s
    unfold proximity_store_cancelation_save
    split_ifs <;> rfl
  unfold proximity_store_cancelation
  rw [hs, hw]
  exact v1

theorem cancel_store_data (buf : List Char) (size : Nat) (d : Sys) :
    (proximity_cancel_store buf size d).2.cm36686 = d.cm36686 := by
  have key : ∀ b, (match proximity_store_cancelation b d with
      | (err, d1) => if err < 0 then (err, d1) else ((size : Int), d1)).2.cm36686 =
        d.cm36686 := by
    intro b
    have h := store_cancelation_data b d
    rcases hr : proximity_store_cancelation b d with ⟨err, d1⟩
    rw [hr] at h
    show (if err < 0 then (err, d1) else ((size : Int), d1)).2.cm36686 = d.cm36686
    split_ifs <;> exact h
  unfold proximity_cancel_store
  split_ifs
  · exact key true
  · exact key false
  · rfl

theorem thresh_store_data (row reg : Nat) (buf : List Char) (size : Nat) (d : Sys) :
    (proximity_thresh_store row reg buf size d).2.cm36686 = d.cm36686 := by
  unfold proximity_thresh_store
  simp only
  split_ifs
  · simp only [emit_data, write_word_data]
  · rfl

theorem poll_delay_store_power (buf : List Char) (size : Nat) (d : Sys) :
    (cm36686_poll_delay_store buf size d).2.cm36686.power_state = d.cm36686.power_state := by
  unfold cm36686_poll_delay_store
  rcases kstrtoll (cstring buf) with err | new_delay
  · rfl
  · simp only
    split_ifs
    · rw [light_enable_data, light_disable_data]
    · rfl
    · rfl

/-- Every sysfs operation keeps `power_state` or sets or clears one of the
two enable bits in it. -/
theorem sysfs_step_power (op : SysfsOp) (d : Sys) :
    (sysfs_step op d).cm36686.power_state = d.cm36686.power_state ∨
    (sysfs_step op d).cm36686.power_state = set_bits8 d.cm36686.power_state LIGHT_ENABLED ∨
    (sysfs_step op d).cm36686.power_state = clear_bits8 d.cm36686.power_state LIGHT_ENABLED ∨
    (sysfs_step op d).cm36686.power_state =
      set_bits8 d.cm36686.power_state PROXIMITY_ENABLED ∨
    (sysfs_step op d).cm36686.power_state =
      clear_bits8 d.cm36686.power_state PROXIMITY_ENABLED := by
  cases op with
  | poll_delay_store buf size => exact Or.inl (poll_delay_store_power buf size d)
  | light_enable_store buf size =>
    rcases light_enable_store_power buf size d with h | h | h
    · exact Or.inl h
    · exact Or.inr (Or.inl h)
    · exact Or.inr (Or.inr (Or.inl h))
  | proximity_enable_store buf size =>
    rcases proximity_enable_store_power buf size d with h | h | h
    · exact Or.inl h
    · exact Or.inr (Or.inr (Or.inr (Or.inl h)))
    · exact Or.inr (Or.inr (Or.inr (Or.inr h)))
  | proximity_cancel_store buf size =>
    exact Or.inl (congrArg cm36686_data.power_state (cancel_store_data buf size d))
  | proximity_avg_store buf size =>
    exact Or.inl (congrArg cm36686_data.power_state (avg_store_data buf size d))
  | proximity_thresh_high_store buf size =>
    exact Or.inl (congrArg cm36686_data.power_state (thresh_store_data _ _ buf size d))
  | proximity_thresh_low_store buf size =>
    exact Or.inl (congrArg cm36686_data.power_state (thresh_store_data _ _ buf size d))
  | proximity_state_show =>
    exact Or.inl (congrArg cm36686_data.power_state (state_show_data d))
  | show_only => exact Or.inl rfl

theorem sysfs_step_le_three (op : SysfsOp) (d : Sys) (h : d.cm36686.power_state ≤ 3) :
    (sysfs_step op d).cm36686.power_state ≤ 3 := by
  obtain ⟨b1, b2, b3, b4⟩ := enable_bits_le_three _ h
  rcases sysfs_step_power op d with e | e | e | e | e <;> rw [e] <;> assumption

theorem sysfs_run_le_three (ops : List SysfsOp) :
    ∀ d : Sys, d.cm36686.power_state ≤ 3 → (sysfs_run ops d).cm36686.power_state ≤ 3 := by
  induction ops with
  | nil => intro d h; exact h
  | cons op ops ih => intro d h; exact ih _ (sysfs_step_le_three op d h)

/-- C29: the two enable bits of `power_state` are independent and the only
bits ever used.  For every input and prior state `light_enable_store` leaves
the `PROXIMITY_ENABLED` bit as it was, `proximity_enable_store` leaves the
`LIGHT_ENABLED` bit as it was, and `proximity_avg_store` and
`proximity_state_show` leave `power_state` as it was; every sysfs operation
keeps `power_state ≤ 3`, so that after any sequence of sysfs operations from
the zero-initialised state `power_state ≤ 3`. -/
theorem enable_bits_independent (buf : List Char) (size : Nat) (d : Sys)
    (ops : List SysfsOp) :
    has_bits (light_enable_store buf size d).2.cm36686.power_state PROXIMITY_ENABLED =
      has_bits d.cm36686.power_state PROXIMITY_ENABLED ∧
    has_bits (proximity_enable_store buf size d).2.cm36686.power_state LIGHT_ENABLED =
      has_bits d.cm36686.power_state LIGHT_ENABLED ∧
    (proximity_avg_store buf size d).2.cm36686.power_state = d.cm36686.power_state ∧
    (proximity_state_show d).2.cm36686.power_state = d.cm36686.power_state ∧
    (∀ op, d.cm36686.power_state ≤ 3 → (sysfs_step op d).cm36686.power_state ≤ 3) ∧
    (d.cm36686.power_state ≤ 3 → (sysfs_run ops d).cm36686.power_state ≤ 3) ∧
    (sysfs_run ops (power_state_zero d)).cm36686.power_state ≤ 3 := by
  refine ⟨?_, ?_, congrArg cm36686_data.power_state (avg_store_data buf size d),
    congrArg cm36686_data.power_state (state_show_data d),
    fun op h => sysfs_step_le_three op d h, sysfs_run_le_three ops d,
    sysfs_run_le_three ops (power_state_zero d) (Nat.zero_le 3)⟩
  · rcases light_enable_store_power buf size d with h | h | h <;> rw [h]
    · exact set_light_keeps_proximity _
    · exact clear_light_keeps_proximity _
  · rcases proximity_enable_store_power buf size d with h | h | h <;> rw [h]
    · exact set_proximity_keeps_light _
    · exact clear_proximity_keeps_light _

theorem enable_bits_independent_witness :
    (power_state_zero {}).cm36686.power_state ≤ 3 ∧
    (sysfs_run [SysfsOp.light_enable_store "1".toList 1,
        SysfsOp.proximity_enable_store "1".toList 1, SysfsOp.proximity_state_show,
        SysfsOp.light_enable_store "0".toList 1]
      (power_state_zero {})).cm36686.power_state ≤ 3 :=
  ⟨by decide,
    (enable_bits_independent [] 0 (power_state_zero {})
      [SysfsOp.light_enable_store "1".toList 1,
        SysfsOp.proximity_enable_store "1".toList 1, SysfsOp.proximity_state_show,
        SysfsOp.light_enable_store "0".toList 1]).2.2.2.2.2.1 (by decide)⟩

end Cm36686
